import Mathlib

/-! SQL editor form: connection supervision, statement execution, result buffers

A shallow embedding of the session code of `wb_sql_editor_form.cpp` and of the result
storage code of `recordset_cdbc_storage.cpp`.  Driver calls are external: what a
call returns or throws is read from explicit records (the behaviour of the driver for
one connection attempt, one statement, one result set), and the session code is a pure
function of the session state and of those records.  State written before an
exception is thrown is kept: every operation returns the state it reached together
with the exception that left it, if any.
-/

namespace SqlIde

/-! ## Exceptions and outcomes -/

/-- Exceptions crossing the modelled code.  `SQLException` is the driver's
`sql::SQLException` with its error code; `runtime_error` stands for every other
`std::exception`; `db_not_connected` is `grt::db_not_connected`, a
`std::runtime_error` subclass declared by the grt library, so a handler for
`std::exception &` receives it as well. -/
inductive Exn where
  | SQLException (code : Int) (what : String)
  | runtime_error (what : String)
  | db_not_connected (what : String)
  deriving DecidableEq, Repr

/-- The text returned by `what()`. -/
def Exn.what : Exn → String
  | .SQLException _ w => w
  | .runtime_error w => w
  | .db_not_connected w => w

/-- The state an operation reached, and the exception that ended it (if any). -/
structure Outcome (σ : Type) where
  state : σ
  raised : Option Exn

/-! ## Driver connections and connection handles -/

/-- A driver connection (`sql::Connection`) as the session code observes it.
`setSchema_errors` lists the schema names `setSchema` rejects with the exception it
throws for each; `setAutoCommit_error` is the exception `setAutoCommit` throws;
`sql_mode_query_error` is the exception thrown when the session variable `sql_mode`
is queried through the connection. -/
structure Connection where
  closed : Bool
  major_version : Nat
  schema : String
  autocommit : Bool
  setSchema_errors : List (String × Exn)
  setAutoCommit_error : Option Exn
  sql_mode_query_error : Option Exn
  deriving DecidableEq, Repr

/-- The call `setSchema(name)`. -/
def Connection.setSchema (c : Connection) (name : String) : Except Exn Connection :=
  match c.setSchema_errors.lookup name with
  | some e => .error e
  | none => .ok { c with schema := name }

/-- The call `setAutoCommit(value)`. -/
def Connection.setAutoCommit (c : Connection) (value : Bool) : Except Exn Connection :=
  match c.setAutoCommit_error with
  | some e => .error e
  | none => .ok { c with autocommit := value }

/-- The handle `sql::Dbc_connection_handler`: the owned connection (`ref`), the cached
mode flags, the server connection id and the stop-requested flag. -/
structure Dbc_connection_handler where
  ref : Option Connection
  autocommit_mode : Bool
  active_schema : String
  id : Int
  is_stop_query_requested : Bool
  deriving DecidableEq, Repr

/-- The enum `ServerState`. -/
inductive ServerState where
  | UnknownState
  | RunningState
  | PossiblyStoppedState
  deriving DecidableEq, Repr

/-- What the driver manager does on one `getConnection` call: the exception it throws,
or the new connection together with the connection id that `init_connection` reads
from the server (no id when the dialect has no connection-id query). -/
structure Driver where
  getConnection : Except Exn (Connection × Option Int)

/-! ## The action log -/

/-- Message types of `DbSqlEditorLog`. -/
inductive MsgType where
  | ErrorMsg
  | WarningMsg
  | NoteMsg
  | OKMsg
  | BusyMsg
  deriving DecidableEq, Repr

/-- One row of the action log: type, originating statement (`context`) and message.
The duration column is wall-clock time and is left out. -/
structure LogEntry where
  msg_type : MsgType
  context : String
  msg : String
  deriving DecidableEq, Repr

/-- Modelled from the spec: the log sink `DbSqlEditorLog` (its code is not part of the
sources at hand), "append/replace a log entry by id".  `add_message` appends a row
and returns its id, the row index. -/
def DbSqlEditorLog.add_message (log : List LogEntry) (msg_type : MsgType)
    (context msg : String) : List LogEntry × Nat :=
  (log ++ [⟨msg_type, context, msg⟩], log.length)

/-- Modelled from the spec: the log sink `DbSqlEditorLog`, "replace a log entry by
id".  `set_message` overwrites the row with the given id. -/
def DbSqlEditorLog.set_message (log : List LogEntry) (index : Nat) (msg_type : MsgType)
    (context msg : String) : List LogEntry :=
  log.set index ⟨msg_type, context, msg⟩

/-! ## Result buffers and editors -/

/-- The storage `Recordset_cdbc_storage` behind a result buffer, as `do_exec_sql`
configures it and `do_unserialize` fills it: `readonly` and `readonly_reason` are the
members `_readonly` and `_readonly_reason`, `pkey_columns` is `_pkey_columns`. -/
structure Recordset_cdbc_storage where
  gather_field_info : Bool
  schema_name : String
  table_name : String
  sql_query : String
  readonly : Bool
  readonly_reason : String
  pkey_columns : List Nat
  limit_rows : Bool
  limit_rows_count : Nat
  reloadable : Bool
  valid : Bool
  deriving DecidableEq, Repr

/-- A result buffer (`Recordset`, a `VarGridModel`).  `key` is its identity;
`can_close_answer` is what `can_close(false)` answers (false while it holds unsaved
edits); `readonly` and `readonly_reason` are the members `_readonly` and
`_readonly_reason` of the grid model. -/
structure Recordset where
  key : Nat
  caption : String
  generator_query : String
  row_count : Nat
  can_close_answer : Bool
  readonly : Bool
  readonly_reason : String
  data_storage : Recordset_cdbc_storage
  deriving DecidableEq, Repr

/-- The per-editor record `EditorInfo`.  `editor` is the identity of the script
buffer; `recordset_mutex_held` tells that another execution holds `recordset_mutex`;
`active_result` is the key of the buffer shown by the active result panel. -/
structure EditorInfo where
  editor : Nat
  rs_sequence : Nat
  busy : Bool
  recordset_mutex_held : Bool
  recordsets : List Recordset
  active_result : Option Nat
  deriving DecidableEq, Repr

/-! ## The session -/

/-- The session object `SqlEditorForm`: the fields read or written by the modelled
operations.  `param_schema` and `param_LastDefaultSchema` are the entries "schema"
and "DbSqlEditor:LastDefaultSchema" of the connection parameters; the three
`option_` fields are the application options read by `do_exec_sql`. -/
structure SqlEditorForm where
  usr_dbc_conn : Dbc_connection_handler
  aux_dbc_conn : Dbc_connection_handler
  last_server_running_state : ServerState
  param_schema : String
  param_LastDefaultSchema : String
  continue_on_error : Bool
  is_running_query : Bool
  exec_sql_error_count : Nat
  log : List LogEntry
  history : List (List String)
  sql_editors : List EditorInfo
  status_text : String
  next_recordset_key : Nat
  option_MaxQuerySizeToHistory : Nat
  option_LimitRows : Bool
  option_LimitRowsCount : Nat
  collect_field_info : Bool
  collect_ps_statement_events : Bool
  deriving DecidableEq, Repr

/-- The method `note_connection_open_outcome`, as it acts on the field
`_last_server_running_state`: 0 reports success, anything else is the driver error
code.  Only 2002 and 2003 mean that the server is possibly stopped. -/
def note_connection_open_outcome (last_server_running_state : ServerState) (error : Int) :
    ServerState :=
  let new_state : ServerState :=
    if error = 0 then .RunningState
    else if error = 2002 ∨ error = 2003 then .PossiblyStoppedState
    else .RunningState
  if last_server_running_state ≠ new_state ∧ new_state ≠ .UnknownState then new_state
  else last_server_running_state

/-- The method `create_connection` for the handle `dbc_conn`, given the entries
"schema" and "DbSqlEditor:LastDefaultSchema" of the connection parameters and the
field `_last_server_running_state`: clear the stop flag, open a connection, refuse
servers older than 5.0, activate a schema (the active schema of the handle, or a
default one when the handle has none; a default that cannot be selected is only
logged), then set the autocommit mode and cache what the driver reports. -/
def create_connection (drv : Driver) (param_schema param_LastDefaultSchema : String)
    (dbc_conn : Dbc_connection_handler) (server_state : ServerState)
    (autocommit_mode : Bool) : Outcome (Dbc_connection_handler × ServerState) :=
  let h0 := { dbc_conn with is_stop_query_requested := false }
  match drv.getConnection with
  | .error (.SQLException code what) =>
    ⟨(h0, note_connection_open_outcome server_state code), some (.SQLException code what)⟩
  | .error e => ⟨(h0, server_state), some e⟩
  | .ok (c, new_id) =>
    let h1 := { h0 with ref := some c, id := new_id.getD h0.id }
    let noted := note_connection_open_outcome server_state 0
    if c.major_version < 5 then
      ⟨(h1, noted), some (.runtime_error
        "MySQL Server version is older than 5.0, which is not supported")⟩
    else
      let activated : Except Exn Dbc_connection_handler :=
        if h1.active_schema.isEmpty then
          let default_schema :=
            if param_schema.isEmpty then param_LastDefaultSchema else param_schema
          if default_schema.isEmpty then .ok h1
          else
            match c.setSchema default_schema with
            | .ok c1 => .ok { h1 with ref := some c1, active_schema := default_schema }
            | .error _ => .ok h1
        else
          match c.setSchema h1.active_schema with
          | .ok c1 => .ok { h1 with ref := some c1 }
          | .error e => .error e
      match activated with
      | .error e => ⟨(h1, noted), some e⟩
      | .ok h2 =>
        match h2.ref with
        | none => ⟨(h2, noted), none⟩
        | some c2 =>
          match c2.setAutoCommit autocommit_mode with
          | .error e => ⟨(h2, noted), some e⟩
          | .ok c3 =>
            ⟨({ h2 with ref := some c3, autocommit_mode := c3.autocommit }, noted), none⟩

/-- The exception thrown by `ensure_valid_dbc_connection`. -/
def not_available : Exn := .db_not_connected "DBMS connection is not available"

/-- The method `ensure_valid_dbc_connection` for the handle `dbc_conn`: an open
connection is valid; a closed one is reopened through `create_connection` only when
the handle is in autocommit mode; the handle is valid afterwards when the new
connection is not closed.  Anything else throws `db_not_connected`. -/
def ensure_valid_dbc_connection (drv : Driver) (param_schema param_LastDefaultSchema : String)
    (dbc_conn : Dbc_connection_handler) (server_state : ServerState) :
    Outcome (Dbc_connection_handler × ServerState) :=
  match dbc_conn.ref with
  | none => ⟨(dbc_conn, server_state), some not_available⟩
  | some c =>
    if c.closed then
      if dbc_conn.autocommit_mode then
        let r := create_connection drv param_schema param_LastDefaultSchema dbc_conn
          server_state dbc_conn.autocommit_mode
        match r.raised with
        | some e => ⟨r.state, some e⟩
        | none =>
          match r.state.1.ref with
          | some c1 => if c1.closed then ⟨r.state, some not_available⟩ else ⟨r.state, none⟩
          | none => ⟨r.state, some not_available⟩
      else ⟨(dbc_conn, server_state), some not_available⟩
    else ⟨(dbc_conn, server_state), none⟩

/-- The method `ensure_valid_usr_connection`. -/
def ensure_valid_usr_connection (drv : Driver) (form : SqlEditorForm) :
    Outcome SqlEditorForm :=
  let r := ensure_valid_dbc_connection drv form.param_schema form.param_LastDefaultSchema
    form.usr_dbc_conn form.last_server_running_state
  ⟨{ form with usr_dbc_conn := r.state.1, last_server_running_state := r.state.2 }, r.raised⟩

/-- The method `ensure_valid_aux_connection`. -/
def ensure_valid_aux_connection (drv : Driver) (form : SqlEditorForm) :
    Outcome SqlEditorForm :=
  let r := ensure_valid_dbc_connection drv form.param_schema form.param_LastDefaultSchema
    form.aux_dbc_conn form.last_server_running_state
  ⟨{ form with aux_dbc_conn := r.state.1, last_server_running_state := r.state.2 }, r.raised⟩

/-! ## Logging through the session -/

/-- The method `add_log_message`: append a row, count errors and warnings, return the
row id. -/
def add_log_message (form : SqlEditorForm) (msg_type : MsgType) (msg context : String) :
    SqlEditorForm × Nat :=
  let r := DbSqlEditorLog.add_message form.log msg_type context msg
  ({ form with
      log := r.1
      exec_sql_error_count :=
        if msg_type = .ErrorMsg ∨ msg_type = .WarningMsg then form.exec_sql_error_count + 1
        else form.exec_sql_error_count },
    r.2)

/-- The method `set_log_message`: overwrite the row with the given id and count errors
and warnings.  (Its guard against the id `(RowId)-1` never fires for an id returned by
`add_log_message`.) -/
def set_log_message (form : SqlEditorForm) (log_message_index : Nat) (msg_type : MsgType)
    (msg context : String) : SqlEditorForm :=
  { form with
    log := DbSqlEditorLog.set_message form.log log_message_index msg_type context msg
    exec_sql_error_count :=
      if msg_type = .ErrorMsg ∨ msg_type = .WarningMsg then form.exec_sql_error_count + 1
      else form.exec_sql_error_count }

/-- The handlers `CATCH_ANY_EXCEPTION_AND_DISPATCH(statement)`: a driver exception is
logged with `SQL_EXCEPTION_MSG_FORMAT`, every other `std::exception` with
`EXCEPTION_MSG_FORMAT`; both add a new error row. -/
def CATCH_ANY_EXCEPTION_AND_DISPATCH (form : SqlEditorForm) (statement : String) :
    Exn → SqlEditorForm
  | .SQLException code what =>
    (add_log_message form .ErrorMsg ("Error Code: " ++ toString code ++ "\n" ++ what)
      statement).1
  | e => (add_log_message form .ErrorMsg ("Error: " ++ e.what) statement).1

/-! ## Scripts and what the driver does with them -/

/-- Statement classes reported by `determine_statement_type`. -/
inductive Statement_type where
  | sql_select
  | sql_use
  | sql_set
  | sql_drop
  | sql_empty
  | sql_other
  deriving DecidableEq, Repr

/-- What `getResultSet` does on one call: throw, return no result set, or return a
result set.  For a result set, `reset` tells what populating the new buffer
(`rs->reset(true)`) does: the exception it rethrows, or whether the storage ended up
valid and how many rows were cached. -/
inductive GetResultSet where
  | throws (e : Exn)
  | null
  | result (reset : Except Exn (Bool × Nat))

/-- One statement range of a script with everything the collaborators report for it.
`text` is the range after `strip_text`; `statement_type`, `multiple_statement_count`,
`edit_target` (schema and table found by `parseSelectStatementForEdit`) and
`limited_text` (`limit_select_query` applied to the text) come from the SQL facade;
`mentions_sql_mode` is `statement.find("@sql_mode") != npos`.  `stop_requested` tells
that `cancel_query` raised the stop flag before this statement is started.  The rest
is the driver: `createStatement_error`; `execute`, the outcome of the guarded block
around `execute` (the exception thrown there, or whether the first result is a result
set together with `getUpdateCount`); `schema_after` (`getSchema` after the statement);
the server warnings; `last_statement_info`; and the outcomes of the successive
`getResultSet` and `getMoreResults` calls (past the end of a list the driver reports
no result set and no more results). -/
structure StatementRun where
  text : String
  statement_type : Statement_type
  multiple_statement_count : Nat
  edit_target : Option (String × String)
  limited_text : String
  mentions_sql_mode : Bool
  stop_requested : Bool
  createStatement_error : Option Exn
  execute : Except Exn (Bool × Int)
  schema_after : String
  warnings : List (Int × String)
  last_statement_info : String
  result_sets : List GetResultSet
  more_results : List (Except Exn Bool)

/-- A script: the length of its text and the statement ranges `splitSqlScript` found. -/
structure Script where
  size : Nat
  statements : List StatementRun

/-- The bitset `ExecFlags`. -/
structure ExecFlags where
  Retaining : Bool
  NeedNonStdDelimiter : Bool
  DontAddLimitClause : Bool
  ShowWarnings : Bool
  deriving DecidableEq, Repr

/-- The result list handed to `do_exec_sql` (a shared pointer): either the very list
owned by the editor at `index`, or a list of its own. -/
inductive RecordsetsRef where
  | of_editor (index : Nat)
  | detached (rsets : List Recordset)
  deriving DecidableEq, Repr

/-- Control leaving a piece of the statement loop: fall through, jump to
`stop_processing_sql_script`, or unwind with an exception. -/
inductive Flow (σ : Type) where
  | next (s : σ)
  | stop (s : σ)
  | raise (s : σ) (e : Exn)

/-- The state of one `do_exec_sql` invocation: the session, the result list, the
sequence counter in use (`rs_sequence` names the editor whose counter it is, otherwise
the local `default_seq`), the locals `ran_set_sql_mode` and `statement`, and two
traces: `executed`, the positions of the statements handed to `execute`, and `failed`,
the positions of the statements for which one of the two handlers of the statement
loop (around `execute` and around `getResultSet`) caught an exception. -/
structure ExecState where
  form : SqlEditorForm
  result_list : RecordsetsRef
  default_seq : Nat
  rs_sequence : Option Nat
  ran_set_sql_mode : Bool
  statement : String
  executed : List Nat
  failed : List Nat

/-- Values fixed before the statement loop starts. -/
structure ExecLocals where
  flags : ExecFlags
  fetch_field_info : Bool
  query_ps_stats : Bool
  logging_queries : Bool
  limit_rows : Nat
  lock_result_list : Bool
  editor : Option Nat

/-- Apply `f` to the editor record at `index`. -/
def modify_editor (form : SqlEditorForm) (index : Nat) (f : EditorInfo → EditorInfo) :
    SqlEditorForm :=
  match form.sql_editors.get? index with
  | some info => { form with sql_editors := form.sql_editors.set index (f info) }
  | none => form

/-- The vector behind the result list. -/
def ExecState.result_list_get (st : ExecState) : List Recordset :=
  match st.result_list with
  | .of_editor i =>
    match st.form.sql_editors.get? i with
    | some info => info.recordsets
    | none => []
  | .detached l => l

/-- Replace the vector behind the result list. -/
def ExecState.result_list_put (st : ExecState) (l : List Recordset) : ExecState :=
  match st.result_list with
  | .of_editor i =>
    { st with form := modify_editor st.form i (fun info => { info with recordsets := l }) }
  | .detached _ => { st with result_list := .detached l }

/-- The pre-increment `++*rs_sequence`: bump the counter in use and return it. -/
def ExecState.next_sequence (st : ExecState) : ExecState × Nat :=
  match st.rs_sequence with
  | some i =>
    match st.form.sql_editors.get? i with
    | some info =>
      let bump := fun (e : EditorInfo) => { e with rs_sequence := e.rs_sequence + 1 }
      ({ st with form := modify_editor st.form i bump }, info.rs_sequence + 1)
    | none => ({ st with default_seq := st.default_seq + 1 }, st.default_seq + 1)
  | none => ({ st with default_seq := st.default_seq + 1 }, st.default_seq + 1)

/-- The message built from a driver error in the statement handlers of `do_exec_sql`. -/
def statement_error_message (code : Int) (what : String) : String :=
  if code = 1046 then
    "Error Code: " ++ toString code ++ ". " ++ what ++
      "\nSelect the default DB to be used by double-clicking its name in the SCHEMAS list in the sidebar."
  else if code = 1175 then
    "Error Code: " ++ toString code ++ ". " ++ what ++
      "\nTo disable safe mode, toggle the option in Preferences -> SQL Queries and reconnect."
  else "Error Code: " ++ toString code ++ ". " ++ what

/-- The text of the exception thrown when the stop flag is found raised. -/
def stopped_message : String :=
  "Query execution has been stopped, the connection to the DB server was not restarted, any open transaction remains open"

/-- The text of the exception thrown when the result list of the editor is locked. -/
def busy_message : String :=
  "The editor is busy and cannot execute the query now. Please try again later."

/-! ## Executing one statement -/

/-- A storage as `Recordset_cdbc_storage::create` returns it: reloadable, not gathering
field information, everything else empty. -/
def Recordset_cdbc_storage.create : Recordset_cdbc_storage :=
  { gather_field_info := false, schema_name := "", table_name := "", sql_query := "",
    readonly := false, readonly_reason := "", pkey_columns := [], limit_rows := false,
    limit_rows_count := 0, reloadable := true, valid := false }

/-- Modelled from the spec: the setter `readonly_reason(reason)` of the storage, declared
in the storage base class outside the sources at hand.  "Mark the eventual Result
Buffer read-only with an explanatory reason": the storage is marked read-only and
keeps the reason. -/
def Recordset_data_storage.readonly_reason (storage : Recordset_cdbc_storage)
    (reason : String) : Recordset_cdbc_storage :=
  { storage with readonly := true, readonly_reason := reason }

/-- Modelled from the spec: what populating a buffer does to the members `_readonly` and
`_readonly_reason` of the buffer (`Recordset::reset` runs the method `unserialize` of
the storage, a friend class of the grid model; both are implemented outside the
sources at hand).  The storage is marked so as to "mark the eventual Result Buffer
read-only with an explanatory reason": the buffer takes over the mark and the reason
of its storage. -/
def Recordset_data_storage.unserialize (storage : Recordset_cdbc_storage) : Bool × String :=
  (storage.readonly, storage.readonly_reason)

/-- Values fixed for one statement once it has been executed; `index` is the position
of the statement in the script. -/
structure StatementLocals where
  statement : String
  statement_type : Statement_type
  is_multiple_statement : Bool
  updated_rows_count : Int
  schema_name : String
  table_name : String
  last_statement_info : String
  index : Nat

/-- Local variables of the fetch loops of one statement; `result_sets` holds the
outcomes of the `getResultSet` calls still to come. -/
structure FetchVars where
  log_message_index : Nat
  resultset_count : Nat
  more_results : Bool
  reuse_log_msg : Bool
  data_storage : Option Recordset_cdbc_storage
  result_sets : List GetResultSet

/-- Append a buffer to the result list (`result_list->push_back(rs)`). -/
def ExecState.push_back (st : ExecState) (rs : Recordset) : ExecState :=
  st.result_list_put (st.result_list_get ++ [rs])

/-- The log row of a result set about to be fetched: a new "Fetching..." row once the
statement has an update count or an earlier result set (unless the previous row is to
be reused), otherwise the current row of the statement, set to "Fetching...". -/
def claim_log_row (form : SqlEditorForm) (sl : StatementLocals) (fv : FetchVars) :
    SqlEditorForm × Nat :=
  if fv.reuse_log_msg = false ∧ (0 ≤ sl.updated_rows_count ∨ fv.resultset_count ≠ 0) then
    add_log_message form .BusyMsg "Fetching..." sl.statement
  else
    (set_log_message form fv.log_message_index .BusyMsg "Fetching..." sl.statement,
      fv.log_message_index)

/-- The branch `if (dbc_resultset)` of the do-while body: complete or create the
storage, create the buffer with the next caption, populate it under the lock of the
auxiliary connection (`reset` is what `rs->reset(true)` does; the read-only mark of the
buffer is the one the population takes from the storage) and, when the storage is
valid, append the buffer to the result list and log the row count in the row `idx`. -/
def adopt_result_set (drv : Driver) (lc : ExecLocals) (sl : StatementLocals)
    (st : ExecState) (fv : FetchVars) (idx : Nat) (reset : Except Exn (Bool × Nat)) :
    Flow (ExecState × FetchVars) :=
  let storage0 : Recordset_cdbc_storage :=
    match fv.data_storage with
    | some d => d
    | none =>
      { Recordset_cdbc_storage.create with
        gather_field_info := lc.fetch_field_info
        sql_query := if sl.table_name.isEmpty then sl.statement else ""
        schema_name := sl.schema_name
        table_name := sl.table_name }
  let storage1 : Recordset_cdbc_storage :=
    { storage0 with
      reloadable := !sl.is_multiple_statement && sl.statement_type == .sql_select }
  let seq := st.next_sequence
  let key := seq.1.form.next_recordset_key
  let aux := ensure_valid_aux_connection drv { seq.1.form with next_recordset_key := key + 1 }
  let st2 : ExecState := { seq.1 with form := aux.state }
  match aux.raised with
  | some e => .raise (st2, fv) e
  | none =>
    match reset with
    | .error e => .raise (st2, fv) e
    | .ok (valid, rows) =>
      let rs : Recordset :=
        { key := key
          caption := (if sl.table_name.isEmpty then "Result" else sl.table_name) ++ " " ++
            toString seq.2
          generator_query := sl.statement
          row_count := rows
          can_close_answer := true
          readonly := (Recordset_data_storage.unserialize storage1).1
          readonly_reason := (Recordset_data_storage.unserialize storage1).2
          data_storage := { storage1 with valid := valid } }
      let fv2 : FetchVars :=
        { fv with resultset_count := fv.resultset_count + 1, data_storage := none }
      if valid then
        let st3 := st2.push_back rs
        let statement_res_msg :=
          if sl.last_statement_info.isEmpty then toString rows ++ " row(s) returned"
          else toString rows ++ " row(s) returned" ++ "\n" ++ sl.last_statement_info
        .next ({ st3 with form := set_log_message st3.form idx .OKMsg statement_res_msg
                                    sl.statement }, fv2)
      else .next (st2, fv2)

/-- The guarded body of the do-while loop of `do_exec_sql`, run when `more_results`
holds: claim a log row, call `getResultSet`, and turn a result set into a new buffer.
A driver error of `getResultSet` is written to the log row (and noted in the trace
`failed`); then `continue` (continue-on-error) resumes at the loop condition,
otherwise control jumps to `stop_processing_sql_script`. -/
def fetch_result_set (drv : Driver) (lc : ExecLocals) (sl : StatementLocals)
    (st : ExecState) (fv : FetchVars) : Flow (ExecState × FetchVars) :=
  let claimed := claim_log_row st.form sl fv
  let idx := claimed.2
  let st1 : ExecState := { st with form := claimed.1 }
  let fv1 : FetchVars :=
    { fv with log_message_index := idx, reuse_log_msg := false,
              result_sets := fv.result_sets.tail }
  match fv.result_sets.head?.getD .null with
  | .throws (.SQLException code what) =>
    let st2 : ExecState :=
      { st1 with
        form := set_log_message st1.form idx .ErrorMsg (statement_error_message code what)
          sl.statement
        failed := st1.failed ++ [sl.index] }
    if st2.form.continue_on_error then .next (st2, fv1) else .stop (st2, fv1)
  | .throws e => .raise (st1, fv1) e
  | .null => .next (st1, { fv1 with reuse_log_msg := true, data_storage := none })
  | .result reset => adopt_result_set drv lc sl st1 fv1 idx reset

/-- The do-while loop `do ... while ((more_results= dbc_statement->getMoreResults()))`.
The argument list holds the outcomes of the `getMoreResults` calls still to come; the
calls not consumed are returned with the flow. -/
def fetch_more_results (drv : Driver) (lc : ExecLocals) (sl : StatementLocals) :
    List (Except Exn Bool) → ExecState → FetchVars →
      Flow (ExecState × FetchVars) × List (Except Exn Bool)
  | [], st, fv =>
    match (if fv.more_results then fetch_result_set drv lc sl st fv else .next (st, fv)) with
    | .next (st1, fv1) => (.next (st1, { fv1 with more_results := false }), [])
    | other => (other, [])
  | r :: rest, st, fv =>
    match (if fv.more_results then fetch_result_set drv lc sl st fv else .next (st, fv)) with
    | .next (st1, fv1) =>
      match r with
      | .error e => (.raise (st1, fv1) e, rest)
      | .ok true => fetch_more_results drv lc sl rest st1 { fv1 with more_results := true }
      | .ok false => (.next (st1, { fv1 with more_results := false }), rest)
    | other => (other, r :: rest)

/-- The loop `for (processed_substatements_count= 0; ... < multiple_statement_count; ...)`
around the do-while loop. -/
def fetch_substatements (drv : Driver) (lc : ExecLocals) (sl : StatementLocals) :
    Nat → List (Except Exn Bool) → ExecState → FetchVars → Flow (ExecState × FetchVars)
  | 0, _, st, fv => .next (st, fv)
  | n + 1, pending, st, fv =>
    match fetch_more_results drv lc sl pending st fv with
    | (.next (st1, fv1), pending1) => fetch_substatements drv lc sl n pending1 st1 fv1
    | (other, _) => other

/-- The message logged for a statement with an update count: the count, the server
warnings when `ShowWarnings` is set, and the last statement info. -/
def update_count_message (show_warnings : Bool) (updated_rows_count : Int)
    (warnings : List (Int × String)) (last_statement_info : String) : String × Bool :=
  let message := toString updated_rows_count ++ " row(s) affected"
  let has_warning := show_warnings && !warnings.isEmpty
  let message :=
    if has_warning then
      message ++ ", " ++ toString warnings.length ++ " warning(s):" ++
        String.join (warnings.map (fun w => "\n" ++ toString w.1 ++ " " ++ w.2))
    else message
  let message :=
    if last_statement_info.isEmpty then message else message ++ "\n" ++ last_statement_info
  (message, has_warning)

/-- The block `if (updated_rows_count >= 0)`: write the update count (and the
warnings) to the log row of the statement. -/
def log_update_count (lc : ExecLocals) (s : StatementRun) (sl : StatementLocals)
    (log_message_index : Nat) (st : ExecState) : ExecState :=
  if 0 ≤ sl.updated_rows_count then
    let m := update_count_message lc.flags.ShowWarnings sl.updated_rows_count s.warnings
      sl.last_statement_info
    { st with form := set_log_message st.form log_message_index
                (if m.2 then .WarningMsg else .OKMsg) m.1 sl.statement }
  else st

/-- The method `query_ps_statistics` as far as the session is concerned: it validates
the auxiliary connection (which may throw) and reads the statistics through it;
driver errors of the query itself are caught inside. -/
def query_ps_statistics (drv : Driver) (form : SqlEditorForm) : Outcome SqlEditorForm :=
  ensure_valid_aux_connection drv form

/-- The block `if ((updated_rows_count < 0) || is_multiple_statement)` with the two
nested fetch loops, started with `more_results= is_result_set_first`. -/
def fetch_result_sets (drv : Driver) (lc : ExecLocals) (s : StatementRun)
    (sl : StatementLocals) (is_result_set_first : Bool)
    (data_storage : Option Recordset_cdbc_storage) (log_message_index : Nat)
    (st : ExecState) : Flow (ExecState × FetchVars) :=
  let fv : FetchVars :=
    { log_message_index := log_message_index, resultset_count := 0,
      more_results := is_result_set_first, reuse_log_msg := false,
      data_storage := data_storage, result_sets := s.result_sets }
  if sl.updated_rows_count < 0 ∨ sl.is_multiple_statement = true then
    fetch_substatements drv lc sl s.multiple_statement_count s.more_results st fv
  else .next (st, fv)

/-- The part of the statement loop body after a successful `execute`: log the update
count, query the statement statistics, fetch the result sets, and log "OK" for a
statement with neither update count nor result set. -/
def after_execute (drv : Driver) (lc : ExecLocals) (s : StatementRun) (sl : StatementLocals)
    (is_result_set_first : Bool) (data_storage : Option Recordset_cdbc_storage)
    (log_message_index : Nat) (st : ExecState) : Flow ExecState :=
  let st1 := log_update_count lc s sl log_message_index st
  let ps : Outcome SqlEditorForm :=
    if lc.query_ps_stats then query_ps_statistics drv st1.form else ⟨st1.form, none⟩
  let st2 : ExecState := { st1 with form := ps.state }
  match ps.raised with
  | some e => .raise st2 e
  | none =>
    match fetch_result_sets drv lc s sl is_result_set_first data_storage log_message_index
      st2 with
    | .raise (st3, _) e => .raise st3 e
    | .stop (st3, _) => .stop st3
    | .next (st3, fv3) =>
      if sl.updated_rows_count < 0 ∧ fv3.resultset_count = 0 then
        .next { st3 with form := set_log_message st3.form fv3.log_message_index .OKMsg "OK"
                                  sl.statement }
      else .next st3

/-- The reason given to a storage whose statement names no editable single table. -/
def not_editable_reason : String :=
  "Statement must be a SELECT for columns of a single table with a primary key for its results to be editable."

/-- What the statement loop prepares before a statement is run: the text to execute,
the storage of a single SELECT, and the locals `schema_name` and `table_name`. -/
structure Prepared where
  statement : String
  is_multiple_statement : Bool
  data_storage : Option Recordset_cdbc_storage
  schema_name : String
  table_name : String

/-- The preparation of a statement in the loop of `do_exec_sql`: a single SELECT gets
a storage, named after the table `parseSelectStatementForEdit` finds (with the active
schema when the statement names none) or marked with the reason why its result is not
editable, and its text gets the row limit attached unless suppressed. -/
def prepare_statement (lc : ExecLocals) (s : StatementRun) (active_schema : String) :
    Prepared :=
  let is_multiple_statement : Bool := decide (1 < s.multiple_statement_count)
  let single_select : Bool := !is_multiple_statement && s.statement_type == .sql_select
  let do_limit : Bool := !lc.flags.DontAddLimitClause && decide (0 < lc.limit_rows)
  if single_select then
    let base : Recordset_cdbc_storage :=
      { Recordset_cdbc_storage.create with gather_field_info := lc.fetch_field_info }
    let named : Recordset_cdbc_storage :=
      match s.edit_target with
      | some (schema_name, table_name) =>
        { base with
          schema_name := if schema_name.isEmpty then active_schema else schema_name
          table_name := table_name }
      | none => Recordset_data_storage.readonly_reason base not_editable_reason
    let storage : Recordset_cdbc_storage :=
      { named with
        sql_query := s.text
        limit_rows := do_limit
        limit_rows_count := if 0 < lc.limit_rows then lc.limit_rows else named.limit_rows_count }
    { statement := if do_limit then s.limited_text else s.text
      is_multiple_statement := is_multiple_statement
      data_storage := some storage
      schema_name := (s.edit_target.getD ("", "")).1
      table_name := (s.edit_target.getD ("", "")).2 }
  else
    { statement := s.text, is_multiple_statement := is_multiple_statement,
      data_storage := none, schema_name := "", table_name := "" }

/-- The side effects of a statement that was executed: a USE statement refreshes the
cached active schema of both handles from the connection
(`cache_active_schema_name`), and a SET statement mentioning `@sql_mode` is
remembered.  (A DROP statement only schedules a refresh of the schema tree for idle
time, which is not part of the modelled state.) -/
def note_executed (s : StatementRun) (st : ExecState) : ExecState :=
  let form1 : SqlEditorForm :=
    if s.statement_type = .sql_use then
      { st.form with
        usr_dbc_conn :=
          { st.form.usr_dbc_conn with
            ref := st.form.usr_dbc_conn.ref.map (fun c => { c with schema := s.schema_after })
            active_schema := s.schema_after }
        aux_dbc_conn := { st.form.aux_dbc_conn with active_schema := s.schema_after } }
    else st.form
  { st with
    form := form1
    ran_set_sql_mode :=
      st.ran_set_sql_mode || (s.statement_type == .sql_set && s.mentions_sql_mode) }

/-- The guarded `execute` of the statement at position `index` and what follows it.  A
failed `execute` is written to the log row (and noted in the trace `failed`); the loop
then goes on with the next statement under continue-on-error and jumps to
`stop_processing_sql_script` otherwise.  After a successful one the loop body
continues with `after_execute`. -/
def execute_statement (drv : Driver) (lc : ExecLocals) (index : Nat) (s : StatementRun)
    (p : Prepared) (log_message_index : Nat) (st : ExecState) : Flow ExecState :=
  let st1 : ExecState := { st with executed := st.executed ++ [index] }
  match s.execute with
  | .error e =>
    let err_msg : String :=
      match e with
      | .SQLException code what => statement_error_message code what
      | other => "Error: " ++ other.what
    let st2 : ExecState :=
      { st1 with
        form := set_log_message st1.form log_message_index .ErrorMsg err_msg p.statement
        failed := st1.failed ++ [index] }
    if st2.form.continue_on_error then .next st2 else .stop st2
  | .ok (is_result_set_first, updated_rows_count) =>
    let sl : StatementLocals :=
      { statement := p.statement, statement_type := s.statement_type,
        is_multiple_statement := p.is_multiple_statement,
        updated_rows_count := updated_rows_count,
        schema_name := p.schema_name, table_name := p.table_name,
        last_statement_info := s.last_statement_info, index := index }
    after_execute drv lc s sl is_result_set_first p.data_storage log_message_index
      (note_executed s st1)

/-- The block `if (logging_queries)`: the statement is added to the history. -/
def log_to_history (lc : ExecLocals) (s : StatementRun) (form : SqlEditorForm) :
    SqlEditorForm :=
  if lc.logging_queries then { form with history := form.history ++ [[s.text]] } else form

/-- The stop flag of the user handle as the loop finds it before a statement is
executed: raised already, or raised by `cancel_query` in the meantime when
`stop_requested` says so. -/
def observe_stop_flag (s : StatementRun) (st : ExecState) : ExecState :=
  let usr := st.form.usr_dbc_conn
  { st with form := { st.form with
      usr_dbc_conn :=
        { usr with is_stop_query_requested := usr.is_stop_query_requested || s.stop_requested } } }

/-- The body of the statement loop of `do_exec_sql` for the statement at position
`index`: skip an empty statement, add the history entry, prepare the statement, add
the "Running..." row, create the driver statement, throw when the stop flag is
raised, and execute. -/
def exec_statement (drv : Driver) (lc : ExecLocals) (index : Nat) (s : StatementRun)
    (st : ExecState) : Flow ExecState :=
  if s.text.isEmpty then .next { st with statement := s.text }
  else if s.statement_type = .sql_empty then .next { st with statement := s.text }
  else
    let form1 := log_to_history lc s st.form
    let p := prepare_statement lc s form1.usr_dbc_conn.active_schema
    let running := add_log_message form1 .BusyMsg "Running..." p.statement
    let st1 : ExecState := { st with form := running.1, statement := p.statement }
    match s.createStatement_error with
    | some e => .raise st1 e
    | none =>
      let st2 := observe_stop_flag s st1
      if st2.form.usr_dbc_conn.is_stop_query_requested then
        .raise st2 (.runtime_error stopped_message)
      else execute_statement drv lc index s p running.2 st2

/-- The loop `BOOST_FOREACH (statement_range, statement_ranges)`; `index` is the
position of the first statement of the list within the script. -/
def exec_statements (drv : Driver) (lc : ExecLocals) :
    Nat → List StatementRun → ExecState → Flow ExecState
  | _, [], st => .next st
  | index, s :: rest, st =>
    match exec_statement drv lc index s st with
    | .next st1 => exec_statements drv lc (index + 1) rest st1
    | other => other

/-! ## One invocation of `do_exec_sql` -/

/-- The loop `while (--index >= 0)` that closes the previous result buffers of the
editor at `info_index`, `index` running down from the size of the result list.  A
buffer that declines to close is appended to the new list `recordsets`; one that
agrees is looked up (`std::find`, by identity) in the recordset list of the editor
and erased there, and the active result panel is dropped when it shows that buffer. -/
def close_recordsets (info_index : Nat) :
    Nat → ExecState → List Recordset → ExecState × List Recordset
  | 0, st, recordsets => (st, recordsets)
  | index + 1, st, recordsets =>
    match st.result_list_get.get? index with
    | none => close_recordsets info_index index st recordsets
    | some current =>
      if current.can_close_answer = false then
        close_recordsets info_index index st (recordsets ++ [current])
      else
        let erase := fun (info : EditorInfo) =>
          match info.recordsets.findIdx? (fun r => r.key == current.key) with
          | some pos =>
            { info with
              recordsets := info.recordsets.eraseIdx pos
              active_result :=
                if info.active_result = some current.key then none else info.active_result }
          | none => info
        close_recordsets info_index index { st with form := modify_editor st.form info_index erase }
          recordsets

/-- The block `if (editor && !retaining)` at the head of the guarded part of
`do_exec_sql`: look the editor up, take its sequence counter and busy flag, and, for
a registered editor, try to lock its recordset mutex.  A held mutex throws the busy
error at once; otherwise the closable buffers are closed and the result list is
replaced (`swap`) by the buffers that stay.  The second component tells whether the
result list is from now on guarded by the mutex of the editor. -/
def close_editor_recordsets (editor : Option Nat) (retaining : Bool) (st : ExecState) :
    Flow (ExecState × Bool) :=
  match editor with
  | none => .next (st, false)
  | some ed =>
    if retaining then .next (st, false)
    else
      match st.form.sql_editors.findIdx? (fun info => info.editor == ed) with
      | none => .next (st, false)
      | some i =>
        let st1 : ExecState := { st with rs_sequence := some i }
        match st1.form.sql_editors.get? i with
        | none => .next (st1, false)
        | some info =>
          if info.recordset_mutex_held then .raise (st1, false) (.runtime_error busy_message)
          else
            let closed := close_recordsets i st1.result_list_get.length st1 []
            .next (closed.1.result_list_put closed.2, true)

/-- The state of an invocation of `do_exec_sql` in which nothing has happened yet. -/
def not_started (form : SqlEditorForm) (result_list : RecordsetsRef) : ExecState :=
  { form := form, result_list := result_list, default_seq := 0, rs_sequence := none,
    ran_set_sql_mode := false, statement := "", executed := [], failed := [] }

/-- The values `do_exec_sql` fixes before the statement loop: the flags, the options
read at the start, whether statement statistics are queried (only for a script of a
single statement) and whether the statements go to the history (the script is not
larger than "DbSqlEditor:MaxQuerySizeToHistory", when that is set). -/
def loop_locals (form : SqlEditorForm) (script : Script) (editor : Option Nat)
    (flags : ExecFlags) (lock_result_list : Bool) : ExecLocals :=
  { flags := flags
    fetch_field_info := form.collect_field_info
    query_ps_stats := form.collect_ps_statement_events && !decide (1 < script.statements.length)
    logging_queries :=
      form.option_MaxQuerySizeToHistory = 0 ||
        decide (script.size ≤ form.option_MaxQuerySizeToHistory)
    limit_rows := if form.option_LimitRows then form.option_LimitRowsCount else 0
    lock_result_list := lock_result_list
    editor := editor }

/-- The steps of `do_exec_sql` between the validation of the user connection and the
statement loop: the busy flag of the editor and `_is_running_query` are set, and a
script too large for the history leaves a note there instead. -/
def enter_loop (script : Script) (lc : ExecLocals) (st : ExecState) : ExecState :=
  let set_busy := fun (info : EditorInfo) => { info with busy := true }
  let form2 : SqlEditorForm :=
    match st.rs_sequence with
    | some i => modify_editor st.form i set_busy
    | none => st.form
  let form3 : SqlEditorForm := { form2 with is_running_query := true }
  let form4 : SqlEditorForm :=
    if lc.logging_queries then form3
    else
      { form3 with
        history := form3.history ++
          [["Skipping history entries for " ++ toString script.statements.length ++
            " statements, total " ++ toString script.size ++ " bytes"]] }
  { st with form := form4 }

/-- The end of the guarded part: the status text tells whether the loop ran to its end
("Query Completed") or was left through `stop_processing_sql_script` ("Query
interrupted"). -/
def report_status : Flow ExecState → Flow ExecState
  | .next st => .next { st with form := { st.form with status_text := "Query Completed" } }
  | .stop st => .stop { st with form := { st.form with status_text := "Query interrupted" } }
  | .raise st e => .raise st e

/-- The method `cache_sql_mode` as far as the modelled state goes: when the user handle
holds a connection, the session variable `sql_mode` is queried through it
(`get_session_variable`), and what that query throws leaves the method.  The cached
mode itself is not part of the modelled state. -/
def cache_sql_mode (form : SqlEditorForm) : Outcome SqlEditorForm :=
  match form.usr_dbc_conn.ref with
  | none => ⟨form, none⟩
  | some c => ⟨form, c.sql_mode_query_error⟩

/-- The statement `if (ran_set_sql_mode) cache_sql_mode();` that ends the guarded part,
reached when the loop has run to its end and through `stop_processing_sql_script`. -/
def refresh_sql_mode : Flow ExecState → Flow ExecState
  | .next st =>
    if st.ran_set_sql_mode then
      match (cache_sql_mode st.form).raised with
      | some e => .raise st e
      | none => .next st
    else .next st
  | .stop st =>
    if st.ran_set_sql_mode then
      match (cache_sql_mode st.form).raised with
      | some e => .raise st e
      | none => .stop st
    else .stop st
  | .raise st e => .raise st e

/-- The guarded part (`try` block) of `do_exec_sql`: close the previous results of the
editor, validate the user connection, split the script, run the statement loop, set
the status text and refresh the cached SQL mode. -/
def do_exec_sql_try (drv : Driver) (form : SqlEditorForm) (script : Script)
    (editor : Option Nat) (flags : ExecFlags) (result_list : RecordsetsRef) : Flow ExecState :=
  match close_editor_recordsets editor flags.Retaining (not_started form result_list) with
  | .raise (st1, _) e => .raise st1 e
  | .stop (st1, _) => .stop st1
  | .next (st1, lock_result_list) =>
    let usr := ensure_valid_usr_connection drv st1.form
    match usr.raised with
    | some e => .raise { st1 with form := usr.state } e
    | none =>
      let lc := loop_locals form script editor flags lock_result_list
      refresh_sql_mode
        (report_status
          (exec_statements drv lc 0 script.statements
            (enter_loop script lc { st1 with form := usr.state })))

/-- Leaving the guarded part of `do_exec_sql`, normally or by an exception: the busy
flag of the editor is released and `_is_running_query` gets back the value it had
before the invocation. -/
def leave_scope (was_running_query : Bool) (st : ExecState) : ExecState :=
  let clear_busy := fun (info : EditorInfo) => { info with busy := false }
  let form1 : SqlEditorForm :=
    match st.rs_sequence with
    | some i => modify_editor st.form i clear_busy
    | none => st.form
  { st with form := { form1 with is_running_query := was_running_query } }

/-- The end of the `try` statement of `do_exec_sql`: the scope is left, and an
exception is dispatched to the log by `CATCH_ANY_EXCEPTION_AND_DISPATCH(statement)`.
The second component is the exception that is not caught. -/
def do_exec_sql_catch (was_running_query : Bool) : Flow ExecState → ExecState × Option Exn
  | .next st => (leave_scope was_running_query st, none)
  | .stop st => (leave_scope was_running_query st, none)
  | .raise st e =>
    let st1 := leave_scope was_running_query st
    ({ st1 with form := CATCH_ANY_EXCEPTION_AND_DISPATCH st1.form st1.statement e }, none)

/-- The method `do_exec_sql`.  Before the guarded part the status text is set and the
error counter cleared; after it the stop flag of the user handle is cleared.
`raised` is the exception that reaches the caller. -/
def do_exec_sql (drv : Driver) (form : SqlEditorForm) (script : Script)
    (editor : Option Nat) (flags : ExecFlags) (result_list : RecordsetsRef) :
    Outcome ExecState :=
  let form0 : SqlEditorForm :=
    { form with status_text := "Executing Query...", exec_sql_error_count := 0 }
  let caught := do_exec_sql_catch form.is_running_query
    (do_exec_sql_try drv form0 script editor flags result_list)
  let usr := caught.1.form.usr_dbc_conn
  ⟨{ caught.1 with form := { caught.1.form with
        usr_dbc_conn := { usr with is_stop_query_requested := false } } },
    caught.2⟩

/-! ## The execute entry points -/

/-- The method `connected`: the user handle holds a connection, or its mutex is held
by someone else (taken as a sign that the connection is in use). -/
def connected (form : SqlEditorForm) (usr_dbc_conn_mutex_held : Bool) : Bool :=
  usr_dbc_conn_mutex_held || form.usr_dbc_conn.ref.isSome

/-- The result list an entry point hands to `do_exec_sql`: the list of the editor when
`sql_editor_index` finds it among the open editors, a new list otherwise.
(`sql_editor_index` is defined outside the sources at hand; it is taken as the
position of the editor in `_sql_editors`.) -/
def entry_recordsets (form : SqlEditorForm) (editor : Option Nat) : RecordsetsRef :=
  match editor with
  | none => .detached []
  | some ed =>
    match form.sql_editors.findIdx? (fun info => info.editor == ed) with
    | some i => .of_editor i
    | none => .detached []

/-- The method `exec_sql_retaining_editor_contents`: throw `db_not_connected` when
`connected()` is false, otherwise run `do_exec_sql` with the `Retaining` flag (the
task is followed to its end). -/
def exec_sql_retaining_editor_contents (drv : Driver) (form : SqlEditorForm)
    (usr_dbc_conn_mutex_held : Bool) (sql_script : Script) (editor : Option Nat)
    (dont_add_limit_clause : Bool) : Outcome ExecState :=
  if connected form usr_dbc_conn_mutex_held = false then
    ⟨not_started form (entry_recordsets form editor), some (.db_not_connected "Not connected")⟩
  else
    do_exec_sql drv form sql_script editor
      { Retaining := true, NeedNonStdDelimiter := false,
        DontAddLimitClause := dont_add_limit_clause, ShowWarnings := false }
      (entry_recordsets form editor)

/-- The method `exec_sql_returning_results`: throw `db_not_connected` when
`connected()` is false, otherwise run `do_exec_sql` without an editor on a new result
list and return that list. -/
def exec_sql_returning_results (drv : Driver) (form : SqlEditorForm)
    (usr_dbc_conn_mutex_held : Bool) (sql_script : Script) (dont_add_limit_clause : Bool) :
    Outcome ExecState :=
  if connected form usr_dbc_conn_mutex_held = false then
    ⟨not_started form (.detached []), some (.db_not_connected "Not connected")⟩
  else
    do_exec_sql drv form sql_script none
      { Retaining := false, NeedNonStdDelimiter := false,
        DontAddLimitClause := dont_add_limit_clause, ShowWarnings := false }
      (.detached [])

/-- The method `exec_editor_sql` for the text selected in the editor (`shared_sql`):
an empty text returns false without running anything; otherwise `do_exec_sql` is run
on the result list of the editor and true is returned.  `show_warnings_option` is the
application option "DbSqlEditor:ShowWarnings". -/
def exec_editor_sql (drv : Driver) (form : SqlEditorForm) (shared_sql : Script)
    (editor : Nat) (use_non_std_delimiter dont_add_limit_clause show_warnings_option : Bool) :
    Outcome ExecState × Bool :=
  if shared_sql.size = 0 then
    (⟨not_started form (entry_recordsets form (some editor)), none⟩, false)
  else
    (do_exec_sql drv form shared_sql (some editor)
      { Retaining := false, NeedNonStdDelimiter := use_non_std_delimiter,
        DontAddLimitClause := dont_add_limit_clause, ShowWarnings := show_warnings_option }
      (entry_recordsets form (some editor)), true)

/-! ## Running a change script -/

/-- One statement of a change script together with what the driver does with it: the
error code and text of the `sql::SQLException` thrown while it is prepared, bound or
executed, if any. -/
structure ScriptStatement where
  sql : String
  driver_error : Option (Int × String)
  deriving DecidableEq, Repr

/-- What `run_sql_script` did: the statements attempted, the calls of the error
callback (code, message, statement), the numbers of `commit` and `rollback` calls,
the statistics reported and the exception thrown. -/
structure ScriptRun where
  attempted : List String
  error_calls : List (Int × String × String)
  commits : Nat
  rollbacks : Nat
  statistics : Option (Int × Int)
  raised : Option Exn
  deriving DecidableEq, Repr

/-- Counters of the statement loop of `run_sql_script`. -/
structure ScriptCounters where
  err_count : Nat
  processed_statement_count : Nat
  attempted : List String
  error_calls : List (Int × String × String)
  deriving DecidableEq, Repr

/-- The loop `BOOST_FOREACH (const std::string &sql, sql_script.statements)` of
`run_sql_script`: a driver error is counted and reported through the error callback,
and the loop goes on with the next statement. -/
def run_sql_script_loop : List ScriptStatement → ScriptCounters → ScriptCounters
  | [], c => c
  | s :: rest, c =>
    let c1 : ScriptCounters :=
      match s.driver_error with
      | some (code, what) =>
        { c with
          err_count := c.err_count + 1
          attempted := c.attempted ++ [s.sql]
          error_calls := c.error_calls ++ [(code, toString code ++ ": " ++ what, s.sql)] }
      | none => { c with attempted := c.attempted ++ [s.sql] }
    run_sql_script_loop rest
      { c1 with processed_statement_count := c1.processed_statement_count + 1 }

/-- The method `Recordset_cdbc_storage::run_sql_script` on the storage whose user
handle is `dbms_conn`.  Without a connection `dbms_conn_ref` throws at once.  After
the loop, any counted error rolls back and throws; otherwise the script is
committed. -/
def run_sql_script (dbms_conn : Option Dbc_connection_handler) (full_table_name : String)
    (sql_script : List ScriptStatement) : ScriptRun :=
  match dbms_conn.bind (fun h => h.ref) with
  | none =>
    { attempted := [], error_calls := [], commits := 0, rollbacks := 0, statistics := none,
      raised := some (.runtime_error "No connection to DBMS") }
  | some _ =>
    let c := run_sql_script_loop sql_script ⟨0, 0, [], []⟩
    if c.err_count ≠ 0 then
      { attempted := c.attempted, error_calls := c.error_calls, commits := 0, rollbacks := 1,
        statistics := some ((c.processed_statement_count : Int) - c.err_count, c.err_count),
        raised := some (.runtime_error
          (toString c.err_count ++ " error(s) saving changes to table " ++ full_table_name)) }
    else
      { attempted := c.attempted, error_calls := c.error_calls, commits := 1, rollbacks := 0,
        statistics := some ((c.processed_statement_count : Int) - c.err_count, c.err_count),
        raised := none }

/-! ## Applying the changes of a result buffer -/

/-- Answers of a message dialog (`mforms::DialogResult`). -/
inductive DialogResult where
  | ResultOk
  | ResultCancel
  | ResultOther
  deriving DecidableEq, Repr

/-- What applying the change script does (`run_data_changes_commit_wizard` or
`do_apply_changes`): the errors it reports through `on_sql_script_run_error`
(message and statement) and the exception it throws. -/
structure ApplyRun where
  reported : List (String × String)
  raises : Option Exn
  deriving DecidableEq, Repr

/-- What `apply_changes_to_recordset` did besides changing the session: whether the
user was asked, whether the open transaction was committed first, whether the commit
wizard or `do_apply_changes` was invoked, and the autocommit mode of the connection
at the moment the change script was run (none when it was not run). -/
structure ApplyTrace where
  asked : Bool
  committed_first : Bool
  wizard_invoked : Bool
  do_apply_changes_invoked : Bool
  script_run_autocommit : Option Bool
  deriving DecidableEq, Repr

/-- Write the driver connection of the user handle back. -/
def set_usr_ref (form : SqlEditorForm) (c : Connection) : SqlEditorForm :=
  { form with usr_dbc_conn := { form.usr_dbc_conn with ref := some c } }

/-- The method `apply_changes_to_recordset`.  `answer` is what the user answers when
asked, `commit_error` what `commit` throws, `wizard_enabled` the option
"DbSqlEditor:IsDataChangesCommitWizardEnabled".  The variable `res` tested by
`if (res != mforms::ResultCancel)` is the outer one, initialised to -2 and never
assigned (the answer of the dialog goes to an inner variable of the same name), so the
test always succeeds.  With autocommit on, `autocommit_mode_keeper` is armed before
autocommit is switched off and fires when the guarded block is left, normally or by an
exception.  Every exception is dispatched to the log. -/
def apply_changes_to_recordset (drv : Driver) (form : SqlEditorForm) (rs_alive : Bool)
    (answer : DialogResult) (commit_error : Option Exn) (wizard_enabled : Bool)
    (apply : ApplyRun) : Outcome SqlEditorForm × ApplyTrace :=
  let idle : ApplyTrace := ⟨false, false, false, false, none⟩
  if rs_alive = false then (⟨form, none⟩, idle)
  else
    let dispatch := fun (f : SqlEditorForm) (e : Exn) =>
      CATCH_ANY_EXCEPTION_AND_DISPATCH f "Apply changes to recordset" e
    let usr := ensure_valid_usr_connection drv form
    match usr.raised with
    | some e => (⟨dispatch usr.state e, none⟩, idle)
    | none =>
      match usr.state.usr_dbc_conn.ref with
      | none => (⟨usr.state, none⟩, idle)
      | some c =>
        let auto_commit := c.autocommit
        let run := fun (f : SqlEditorForm) (t : ApplyTrace) =>
          let logged : SqlEditorForm :=
            apply.reported.foldl (fun g r => (add_log_message g .ErrorMsg r.1 r.2).1) f
          let t1 : ApplyTrace :=
            { t with
              wizard_invoked := wizard_enabled
              do_apply_changes_invoked := !wizard_enabled
              script_run_autocommit := logged.usr_dbc_conn.ref.map (fun k => k.autocommit) }
          (logged, t1, apply.raises)
        if auto_commit = false then
          let asked : ApplyTrace := { idle with asked := true }
          let first : SqlEditorForm × ApplyTrace × Option Exn :=
            if answer = .ResultOk then
              match commit_error with
              | some e => (usr.state, asked, some e)
              | none => (usr.state, { asked with committed_first := true }, none)
            else (usr.state, asked, none)
          match first with
          | (f, t, some e) => (⟨dispatch f e, none⟩, t)
          | (f, t, none) =>
            match run f t with
            | (g, t1, some e) => (⟨dispatch g e, none⟩, t1)
            | (g, t1, none) => (⟨g, none⟩, t1)
        else
          let restore := fun (f : SqlEditorForm) =>
            match f.usr_dbc_conn.ref with
            | some k =>
              match k.setAutoCommit auto_commit with
              | .ok k1 => set_usr_ref f k1
              | .error _ => f
            | none => f
          match c.setAutoCommit false with
          | .error e => (⟨dispatch (restore usr.state) e, none⟩, idle)
          | .ok c1 =>
            match run (set_usr_ref usr.state c1) idle with
            | (g, t1, some e) => (⟨dispatch (restore g) e, none⟩, t1)
            | (g, t1, none) => (⟨restore g, none⟩, t1)

/-! ## Cancelling a query and the fetch loop -/

/-- The method `cancel_query`.  `query_kill_query` is the statement built from the id
of the user connection (empty when the dialect has none), `kill_error` what creating
and executing it on the auxiliary connection throws.  The handler catches driver
exceptions only.  The last component tells whether the keep-alive ping was
scheduled. -/
def cancel_query (drv : Driver) (form : SqlEditorForm) (query_kill_query : String)
    (kill_error : Option Exn) : Outcome SqlEditorForm × Bool :=
  if query_kill_query.isEmpty then (⟨form, none⟩, false)
  else
    let running := add_log_message form .BusyMsg "Running..." "INTERRUPT"
    let log_message_index := running.2
    let handler := fun (f : SqlEditorForm) (e : Exn) =>
      match e with
      | .SQLException code what =>
        (⟨set_log_message f log_message_index .ErrorMsg
            ("Error Code: " ++ toString code ++ "\n" ++ what) "INTERRUPT", none⟩, false)
      | other => ((⟨f, some other⟩ : Outcome SqlEditorForm), false)
    let aux := ensure_valid_aux_connection drv running.1
    match aux.raised with
    | some e => handler aux.state e
    | none =>
      match kill_error with
      | some e => handler aux.state e
      | none =>
        let f1 : SqlEditorForm :=
          { aux.state with
            usr_dbc_conn :=
              { aux.state.usr_dbc_conn with
                is_stop_query_requested := aux.state.is_running_query } }
        let f2 : SqlEditorForm :=
          if f1.usr_dbc_conn.is_stop_query_requested then
            set_log_message { f1 with status_text := "Query Cancelled" } log_message_index
              .NoteMsg "OK - Query cancelled" "INTERRUPT"
          else
            set_log_message f1 log_message_index .NoteMsg "OK - Query already completed"
              "INTERRUPT"
        (⟨f2, none⟩, f2.usr_dbc_conn.autocommit_mode)

/-- One row delivered by `rs->next()` during population: for every result column the
value read from the driver (none for SQL NULL), and the value of the stop flag of the
user handle when the loop checks it after the row has been cached. -/
structure FetchedRow where
  values : List (Option String)
  is_stop_query_requested : Bool
  deriving DecidableEq, Repr

/-- The swap database during population: the records added so far and whether the
transaction around them has been committed. -/
structure DataSwap where
  records : List (List (Option String))
  committed : Bool
  deriving DecidableEq, Repr

/-- The record cached for one row: the editable columns (NULL for an SQL NULL and for a
column whose value is fetched on demand), followed by copies of the values of the
first `rowid_col_count` row-identifier columns. -/
def cache_row (editable_col_count rowid_col_count : Nat) (null_value_columns : List Bool)
    (pkey_columns : List Nat) (row : FetchedRow) : List (Option String) :=
  let row_values : List (Option String) :=
    (List.range editable_col_count).map (fun n =>
      if (row.values.getD n none).isNone || null_value_columns.getD n false then none
      else row.values.getD n none)
  row_values ++
    (List.range rowid_col_count).map (fun n => row_values.getD (pkey_columns.getD n 0) none)

/-- The loop `while (rs->next())` of `do_unserialize`: cache the row, then check the
stop flag and throw when it is raised. -/
def fetch_rows (editable_col_count rowid_col_count : Nat) (null_value_columns : List Bool)
    (pkey_columns : List Nat) :
    List FetchedRow → List (List (Option String)) → Outcome (List (List (Option String)))
  | [], records => ⟨records, none⟩
  | row :: rest, records =>
    let records1 := records ++
      [cache_row editable_col_count rowid_col_count null_value_columns pkey_columns row]
    if row.is_stop_query_requested then ⟨records1, some (.runtime_error stopped_message)⟩
    else fetch_rows editable_col_count rowid_col_count null_value_columns pkey_columns rest
      records1

/-- The data block of `do_unserialize`: the fetch loop inside a transaction of the swap
database, committed only when the loop ends normally. -/
def populate (editable_col_count rowid_col_count : Nat) (null_value_columns : List Bool)
    (pkey_columns : List Nat) (rows : List FetchedRow) : Outcome DataSwap :=
  let fetched :=
    fetch_rows editable_col_count rowid_col_count null_value_columns pkey_columns rows []
  match fetched.raised with
  | some e => ⟨⟨fetched.state, false⟩, some e⟩
  | none => ⟨⟨fetched.state, true⟩, none⟩

/-! ## Predicates on runs and sample inputs -/

/-- The state carried by a flow. -/
def Flow.state {σ : Type} : Flow σ → σ
  | .next s => s
  | .stop s => s
  | .raise s _ => s

/-- A statement the loop does not skip: its text is not empty and it is not
classified as empty. -/
def StatementRun.runnable (s : StatementRun) : Prop :=
  s.text.isEmpty = false ∧ s.statement_type ≠ .sql_empty

instance (s : StatementRun) : Decidable s.runnable := by
  unfold StatementRun.runnable
  infer_instance

/-- A statement with at most one result: the driver never answers true to
`getMoreResults`, and a first result that is a result set comes without an update
count. -/
def StatementRun.single_result (s : StatementRun) : Prop :=
  (∀ r ∈ s.more_results, r ≠ .ok true) ∧
    ∀ first count, s.execute = .ok (first, count) → first = true → count < 0

/-- An open connection to a current server. -/
def open_connection : Connection :=
  { closed := false, major_version := 8, schema := "", autocommit := true,
    setSchema_errors := [], setAutoCommit_error := none, sql_mode_query_error := none }

/-- A connection the server has closed. -/
def closed_connection : Connection := { open_connection with closed := true }

/-- A handle in autocommit mode holding an open connection, no schema selected. -/
def connected_handler : Dbc_connection_handler :=
  { ref := some open_connection, autocommit_mode := true, active_schema := "", id := 7,
    is_stop_query_requested := false }

/-- A session with both handles connected, no editor, an empty log and all options at
zero; it stops a script at the first error. -/
def idle_form : SqlEditorForm :=
  { usr_dbc_conn := connected_handler, aux_dbc_conn := connected_handler,
    last_server_running_state := .RunningState, param_schema := "",
    param_LastDefaultSchema := "", continue_on_error := false, is_running_query := false,
    exec_sql_error_count := 0, log := [], history := [], sql_editors := [],
    status_text := "", next_recordset_key := 0, option_MaxQuerySizeToHistory := 0,
    option_LimitRows := false, option_LimitRowsCount := 0, collect_field_info := false,
    collect_ps_statement_events := false }

/-- A driver manager that opens a connection to a current server. -/
def working_driver : Driver := { getConnection := .ok (open_connection, some 8) }

/-- A statement that executes and reports an update count of zero. -/
def plain_statement (text : String) : StatementRun :=
  { text := text, statement_type := .sql_other, multiple_statement_count := 1,
    edit_target := none, limited_text := text, mentions_sql_mode := false,
    stop_requested := false, createStatement_error := none, execute := .ok (false, 0),
    schema_after := "", warnings := [], last_statement_info := "", result_sets := [],
    more_results := [] }

/-- A procedure call that returns two result sets of one row each. -/
def call_two_results : StatementRun :=
  { plain_statement "CALL p()" with
    execute := .ok (true, -1)
    result_sets := [.result (.ok (true, 1)), .result (.ok (true, 1))]
    more_results := [.ok true, .ok false] }

/-- A statement the server rejects. -/
def failing_statement : StatementRun :=
  { plain_statement "SELEC 1" with execute := .error (.SQLException 1064 "syntax error") }

/-- No execution flag set. -/
def no_flags : ExecFlags := ⟨false, false, false, false⟩

/-- A handle after the server has closed its connection; the handle keeps the given
autocommit mode and active schema. -/
def lost_handler (autocommit_mode : Bool) (active_schema : String) : Dbc_connection_handler :=
  { ref := some closed_connection, autocommit_mode := autocommit_mode,
    active_schema := active_schema, id := 7, is_stop_query_requested := false }

/-- The idle session after the server has closed the user connection. -/
def lost_connection_form (autocommit_mode : Bool) (active_schema : String) : SqlEditorForm :=
  { idle_form with usr_dbc_conn := lost_handler autocommit_mode active_schema }

/-- A driver manager that opens a connection to a server of major version 4. -/
def old_server_driver : Driver :=
  { getConnection := .ok ({ open_connection with major_version := 4 }, some 8) }

/-- The settings and the execution trace agree in two states of an invocation. -/
def Frame (st st1 : ExecState) : Prop :=
  st1.form.continue_on_error = st.form.continue_on_error ∧
  st1.form.status_text = st.form.status_text ∧
  st1.executed = st.executed

/-- The row that `CATCH_ANY_EXCEPTION_AND_DISPATCH` adds for an exception. -/
def dispatched_row (statement : String) : Exn → LogEntry
  | .SQLException code what =>
    ⟨.ErrorMsg, statement, "Error Code: " ++ toString code ++ "\n" ++ what⟩
  | e => ⟨.ErrorMsg, statement, "Error: " ++ e.what⟩

/-- The idle session while a query is running. -/
def running_form : SqlEditorForm := { idle_form with is_running_query := true }

/-- The idle session with continue-on-error switched on. -/
def continuing_form : SqlEditorForm := { idle_form with continue_on_error := true }

/-- Three rows of one column; the stop flag is found raised after the second. -/
def three_rows_cancelled_after_second : List FetchedRow :=
  [⟨[some "1"], false⟩, ⟨[some "2"], true⟩, ⟨[some "3"], false⟩]

/-- A change script of two updates that the server accepts. -/
def two_updates : List ScriptStatement :=
  [⟨"UPDATE t SET a = 1 WHERE id = 1", none⟩, ⟨"UPDATE t SET a = 2 WHERE id = 2", none⟩]

/-- A change script of two updates, the second rejected by the server. -/
def two_updates_one_rejected : List ScriptStatement :=
  [⟨"UPDATE t SET a = 1 WHERE id = 1", none⟩,
   ⟨"UPDATE t SET a = 2 WHERE id = 2", some (1062, "Duplicate entry")⟩]

/-- The fields read by the validation of a connection agree in two sessions. -/
def SameConnections (f g : SqlEditorForm) : Prop :=
  g.usr_dbc_conn = f.usr_dbc_conn ∧ g.aux_dbc_conn = f.aux_dbc_conn ∧
  g.last_server_running_state = f.last_server_running_state ∧
  g.param_schema = f.param_schema ∧ g.param_LastDefaultSchema = f.param_LastDefaultSchema

/-- The editor lock is free for an execution: whenever the execution is non-retaining
and names a registered editor, the recordset mutex of that editor is not held. -/
def editor_lock_free (form : SqlEditorForm) (editor : Option Nat) (flags : ExecFlags) : Prop :=
  ∀ ed i info, editor = some ed → flags.Retaining = false →
    form.sql_editors.findIdx? (fun x => x.editor == ed) = some i →
    form.sql_editors.get? i = some info → info.recordset_mutex_held = false

/-- A session that never got a connection for its user handle. -/
def disconnected_form : SqlEditorForm :=
  { idle_form with usr_dbc_conn := { connected_handler with ref := none } }

/-- The idle session with one registered editor (identity 1) whose recordset mutex is
held by an execution in flight. -/
def busy_editor_form : SqlEditorForm :=
  { idle_form with
    sql_editors :=
      [{ editor := 1, rs_sequence := 2, busy := true, recordset_mutex_held := true,
         recordsets := [], active_result := none }] }

/-- The script `CALL p(); SELEC 1`: a call with two result sets, then a statement the
server rejects. -/
def script_call_then_failure : Script := ⟨17, [call_two_results, failing_statement]⟩

/-- A script of three statements whose second one is rejected by the server. -/
def script_with_failure : Script :=
  ⟨58, [plain_statement "INSERT INTO t VALUES (1)", failing_statement,
        plain_statement "INSERT INTO t VALUES (2)"]⟩

/-- The script `CALL p()`. -/
def script_call : Script := ⟨8, [call_two_results]⟩

/-- A script whose only statement range holds nothing but a comment. -/
def script_comment_only : Script :=
  ⟨7, [{ plain_statement "-- done" with statement_type := .sql_empty }]⟩

/-- The script `SELECT 1`, answered with one result set of one row. -/
def script_select_one : Script :=
  ⟨8, [{ plain_statement "SELECT 1" with
          statement_type := .sql_select, execute := .ok (true, -1),
          result_sets := [.result (.ok (true, 1))] }]⟩

/-! ## Closing the session -/

/-- What `can_close_` reads about the script buffer of one open editor: whether it is a
scratch buffer, the path of its file and the base name of that path, whether the text
has unsaved changes, and what `sql_editor_will_close` answers when the buffer is
reviewed. -/
structure EditorBuffer where
  is_scratch : Bool
  path : String
  basename : String
  is_dirty : Bool
  will_close : Bool
  deriving DecidableEq, Repr

/-- Answers of the dialog `ConfirmSaveDialog`. -/
inductive ConfirmSaveAnswer where
  | ReviewChanges
  | DiscardChanges
  | Cancel
  deriving DecidableEq, Repr

/-- What `can_close_` did besides answering: whether the schema tree was told to
prepare for closing, whether the active side palette tab was stored in the options,
the items put into the confirmation dialog, whether the dialog was shown, and the
editors handed to `sql_editor_will_close` for review. -/
structure CloseTrace where
  prepare_close : Bool
  stored_active_tab : Bool
  dialog_items : List (String × String)
  dialog_shown : Bool
  reviewed : List Nat
  deriving DecidableEq, Repr

/-- The items the interactive branch of `can_close_` collects for the editor at position
`i`: the script buffer when it is dirty and has to be checked, and every result buffer
that declines to close.  The first component tells whether the script buffer needs a
review. -/
def close_items (check_scratch_editors save_workspace_on_close : Bool) (b : EditorBuffer)
    (info : EditorInfo) : Bool × List (String × String) :=
  let check_editor : Bool := !b.is_scratch || check_scratch_editors
  let check_editor : Bool :=
    if b.path.isEmpty && save_workspace_on_close then false else check_editor
  let needs_review : Bool := b.is_dirty && check_editor
  let script_item : List (String × String) :=
    if needs_review then
      [("Script Buffers",
        if !b.path.isEmpty then b.basename ++ " - " ++ b.path else "Unsaved SQL Query")]
    else []
  (needs_review,
    script_item ++
      (info.recordsets.filter (fun rs => !rs.can_close_answer)).map
        (fun rs => ("Resultset", rs.caption)))

/-- The loop of the interactive branch that reviews the editors one by one; it stops at
the first editor that does not agree to close.  The second component lists the editors
reviewed. -/
def review_editors : List EditorBuffer → Nat → List Nat → Bool × List Nat
  | [], _, reviewed => (true, reviewed)
  | b :: rest, i, reviewed =>
    if b.will_close = false then (false, reviewed ++ [i])
    else review_editors rest (i + 1) (reviewed ++ [i])

/-- The loop of the non-interactive branch: every editor must have a free recordset
mutex and only result buffers that agree to close.  (`editor_needs_review` is still
false there, so the test on dirty script buffers never fires.) -/
def closable_silently (editor_needs_review : Bool) :
    List EditorBuffer → List EditorInfo → Bool
  | [], _ => true
  | _ :: _, [] => true
  | b :: rest, info :: infos =>
    if editor_needs_review && b.is_dirty then false
    else if info.recordset_mutex_held then false
    else if info.recordsets.any (fun rs => !rs.can_close_answer) then false
    else closable_silently editor_needs_review rest infos

/-- The method `can_close_`.  `exec_sql_task_busy` is none when there is no execution
task, otherwise what `is_busy` answers; `uiform_can_close` is the answer of
`bec::UIForm::can_close`; `save_workspace_on_close` the option
"workbench:SaveSQLWorkspaceOnClose"; `buffers` describes the script buffers of the open
editors, in the order of `_sql_editors`; `dialog_answer` is what the user answers when
the confirmation dialog is shown. -/
def can_close_ (form : SqlEditorForm) (interactive : Bool) (exec_sql_task_busy : Option Bool)
    (uiform_can_close save_workspace_on_close : Bool) (buffers : List EditorBuffer)
    (dialog_answer : ConfirmSaveAnswer) : (SqlEditorForm × CloseTrace) × Bool :=
  let untouched : CloseTrace := ⟨false, false, [], false, []⟩
  if exec_sql_task_busy = some true then
    (({ form with status_text := "Cannot close SQL IDE while being busy" }, untouched), false)
  else if uiform_can_close = false then ((form, untouched), false)
  else
    let started : CloseTrace := { untouched with prepare_close := true, stored_active_tab := true }
    let check_scratch_editors : Bool := !save_workspace_on_close
    if interactive then
      let collected :=
        (buffers.zip form.sql_editors).map
          (fun p => close_items check_scratch_editors save_workspace_on_close p.1 p.2)
      let editor_needs_review : Bool := collected.any (fun c => c.1)
      let items : List (String × String) := (collected.map (fun c => c.2)).flatten
      let asked : CloseTrace :=
        { started with dialog_items := items, dialog_shown := decide (1 < items.length) }
      if 1 < items.length ∧ dialog_answer = .Cancel then ((form, asked), false)
      else
        let review : Bool :=
          if 1 < items.length then decide (dialog_answer = .ReviewChanges)
          else decide (items.length = 1)
        if review && editor_needs_review then
          let r := review_editors (buffers.take form.sql_editors.length) 0 []
          ((form, { asked with reviewed := r.2 }), r.1)
        else ((form, asked), true)
    else ((form, started), closable_silently false buffers form.sql_editors)

/-! ## Server state notifications -/

/-- The method `ping`.  A user connection mutex held by someone else is taken as a sign
of a live connection; otherwise, with a connection in the user handle, the statement
"select 1" is run on it and every failure of the query is swallowed.
`createStatement_error` is what `createStatement` throws (outside the guarded block),
`select_one_ok` whether the query comes back. -/
def ping (form : SqlEditorForm) (usr_dbc_conn_mutex_held : Bool)
    (createStatement_error : Option Exn) (select_one_ok : Bool) : Except Exn Bool :=
  if usr_dbc_conn_mutex_held then .ok true
  else
    match form.usr_dbc_conn.ref with
    | some _ =>
      match createStatement_error with
      | some e => .error e
      | none => .ok select_one_ok
    | none => .ok false

/-- The method `handle_grt_notification`.  `descriptor` is the connection descriptor of
the session (`connection_descriptor()`), `conn` the entry "connection" of the
notification (none for an invalid reference), `state` its entry "state"; the three
arguments before are those of `ping`.  The second component tells whether
`reconnect_editor` was scheduled to run when idle. -/
def handle_grt_notification (form : SqlEditorForm) (usr_dbc_conn_mutex_held : Bool)
    (createStatement_error : Option Exn) (select_one_ok : Bool) (descriptor : Option Nat)
    (name : String) (conn : Option Nat) (state : Int) : Outcome SqlEditorForm × Bool :=
  if name = "GRNServerStateChanged" then
    let new_state : ServerState := if state ≠ 0 then .RunningState else .PossiblyStoppedState
    if form.last_server_running_state ≠ new_state then
      let form1 : SqlEditorForm := { form with last_server_running_state := new_state }
      let already_connected : Except Exn Bool :=
        if new_state = .RunningState then
          ping form1 usr_dbc_conn_mutex_held createStatement_error select_one_ok
        else .ok false
      match already_connected with
      | .error e => (⟨form1, some e⟩, false)
      | .ok true => (⟨form1, none⟩, false)
      | .ok false => (⟨form1, none⟩, conn.isSome && conn == descriptor)
    else (⟨form, none⟩, false)
  else (⟨form, none⟩, false)

/-! ## Further sample inputs -/

/-- A session whose user connection has autocommit switched off. -/
def manual_commit_form : SqlEditorForm :=
  { idle_form with
    usr_dbc_conn :=
      { connected_handler with
        ref := some { open_connection with autocommit := false }, autocommit_mode := false } }

/-- A change script that runs without reporting or throwing anything. -/
def quiet_apply : ApplyRun := ⟨[], none⟩

/-! ## Opening the session: `do_connect` and `connect` -/

/-- What the driver manager does during one connection attempt: it throws
`sql::AuthenticationError` from the first `getConnection` call, or it behaves as the
driver `drv` in both `create_connection` calls.  (`sql::AuthenticationError` is declared
outside the sources at hand; `do_connect` handles it before `sql::SQLException`, and it
is taken not to pass through the `sql::SQLException` handler of `create_connection`.) -/
inductive ConnectAttempt where
  | AuthenticationError (what : String)
  | driver (drv : Driver)

/-- An exception leaving the guarded part of `do_connect`. -/
inductive ConnectThrown where
  | AuthenticationError (what : String)
  | other (e : Exn)
  deriving DecidableEq, Repr

/-- The exception as the caller of the worker task sees it. -/
def ConnectThrown.exn : ConnectThrown → Exn
  | .AuthenticationError what => .runtime_error what
  | .other e => e

/-- The struct `ConnectionErrorInfo`; `auth_error` holds the text of the copied
authentication error. -/
structure ConnectionErrorInfo where
  auth_error : Option String
  password_expired : Bool
  server_probably_down : Bool
  deriving DecidableEq, Repr

/-- The guarded part of `do_connect`: both handles drop their connection, the auxiliary
and then the user connection are opened with `create_connection`, and the connection
information is read inside a block of its own whose exceptions (`info_error`) are
dispatched to the log.  The texts collected in `_connection_details` and
`_connection_info` are left out. -/
def do_connect_try (form : SqlEditorForm) (attempt : ConnectAttempt) (info_error : Option Exn) :
    SqlEditorForm × Option ConnectThrown :=
  let form0 : SqlEditorForm :=
    { form with
      aux_dbc_conn := { form.aux_dbc_conn with ref := none }
      usr_dbc_conn := { form.usr_dbc_conn with ref := none } }
  match attempt with
  | .AuthenticationError what =>
    ({ form0 with aux_dbc_conn := { form0.aux_dbc_conn with is_stop_query_requested := false } },
      some (.AuthenticationError what))
  | .driver drv =>
    let aux := create_connection drv form0.param_schema form0.param_LastDefaultSchema
      form0.aux_dbc_conn form0.last_server_running_state form0.aux_dbc_conn.autocommit_mode
    let form1 : SqlEditorForm :=
      { form0 with aux_dbc_conn := aux.state.1, last_server_running_state := aux.state.2 }
    match aux.raised with
    | some e => (form1, some (.other e))
    | none =>
      let usr := create_connection drv form1.param_schema form1.param_LastDefaultSchema
        form1.usr_dbc_conn form1.last_server_running_state form1.usr_dbc_conn.autocommit_mode
      let form2 : SqlEditorForm :=
        { form1 with usr_dbc_conn := usr.state.1, last_server_running_state := usr.state.2 }
      match usr.raised with
      | some e => (form2, some (.other e))
      | none =>
        match info_error with
        | some e =>
          (CATCH_ANY_EXCEPTION_AND_DISPATCH form2 "Get connection information" e, none)
        | none => (form2, none)

/-- The method `do_connect`: the guarded part and its handlers.  An authentication
error is copied into `err_ptr` and rethrown.  A driver error 1820 marks the password as
expired and is rethrown; 2013, 2003 and 2002 log a warning and mark the server as
probably down, and the error is rethrown unless remote administration is available for
the connection (`remote_admin`: the module "WbAdmin" exists and
`checkConnectionForRemoteAdmin` does not answer 0), in which case `do_connect` returns
normally; any other driver error is rethrown.  Other exceptions pass through. -/
def do_connect (form : SqlEditorForm) (attempt : ConnectAttempt) (remote_admin : Bool)
    (info_error : Option Exn) : (SqlEditorForm × Option ConnectThrown) × ConnectionErrorInfo :=
  let err_ptr : ConnectionErrorInfo := ⟨none, false, false⟩
  match do_connect_try form attempt info_error with
  | (form1, none) => ((form1, none), err_ptr)
  | (form1, some (.AuthenticationError what)) =>
    ((form1, some (.AuthenticationError what)), { err_ptr with auth_error := some what })
  | (form1, some (.other (.SQLException code what))) =>
    if code = 1820 then
      ((form1, some (.other (.SQLException code what))), { err_ptr with password_expired := true })
    else if code = 2013 ∨ code = 2003 ∨ code = 2002 then
      let form2 :=
        (add_log_message form1 .WarningMsg what "Could not connect, server may not be running.").1
      let err1 : ConnectionErrorInfo := { err_ptr with server_probably_down := true }
      if remote_admin = false then ((form2, some (.other (.SQLException code what))), err1)
      else ((form2, none), err1)
    else ((form1, some (.other (.SQLException code what))), err_ptr)
  | (form1, some (.other e)) => ((form1, some (.other e)), err_ptr)

/-- The enum `PasswordMethod` of `connect`. -/
inductive PasswordMethod where
  | NoPassword
  | KeychainPassword
  | InteractivePassword
  deriving DecidableEq, Repr

/-- One run of the worker task started by `connect`: what the driver manager does,
whether remote administration is available, what reading the connection information
throws, and whether `cancel_connect` has been called by the time the task is back. -/
structure ConnectTry where
  attempt : ConnectAttempt
  remote_admin : Bool
  info_error : Option Exn
  cancel_requested : Bool

/-- The state of a run of `connect`: the session, the flag `_cancel_connect`, the local
`current_method`, the password given to the authentication object, and a trace: the
number of connection attempts, the number of password prompts, and whether `close()`
was called. -/
structure ConnectState where
  form : SqlEditorForm
  cancel_connect : Bool
  current_method : PasswordMethod
  password : Option String
  attempts : Nat
  prompts : Nat
  closed : Bool

/-- How a run of `connect` ends: it returns, it throws, or it starts a further attempt
about which the run says nothing (`pending`). -/
inductive ConnectResult where
  | returned (value : Bool)
  | raised (e : Exn)
  | pending
  deriving DecidableEq, Repr

/-- The cancellation check of `connect`: `close()` and return false. -/
def cancelled (st : ConnectState) : ConnectState × ConnectResult :=
  ({ st with closed := true }, .returned false)

/-- The password step of the handler in `connect`, reached after an authentication
failure that was not cancelled.  Without password so far: the stored password is used
when `findStoredPassword` finds one (`stored_password`), otherwise one is requested
interactively and the method becomes `InteractivePassword`.  After the stored
password: one is requested interactively and `current_method` keeps its value.  After
an interactive one: the error is rethrown.  `request_password n` is what
`requestPassword` does on the prompt number `n`.  The result is the state for the next
attempt, or the exception thrown. -/
def next_password (stored_password : Option String)
    (request_password : Nat → Except Exn String) (e : Exn) (st : ConnectState) :
    Except (ConnectState × Exn) ConnectState :=
  match st.current_method with
  | .NoPassword =>
    match stored_password with
    | some pwd => .ok { st with password := some pwd, current_method := .KeychainPassword }
    | none =>
      match request_password st.prompts with
      | .error e1 => .error ({ st with prompts := st.prompts + 1 }, e1)
      | .ok pwd =>
        .ok { st with prompts := st.prompts + 1, password := some pwd,
                      current_method := .InteractivePassword }
  | .KeychainPassword =>
    match request_password st.prompts with
    | .error e1 => .error ({ st with prompts := st.prompts + 1 }, e1)
    | .ok pwd => .ok { st with prompts := st.prompts + 1, password := some pwd }
  | .InteractivePassword => .error (st, e)

/-- The loop `for (;;)` of `connect`, one element of the list per connection attempt.
The worker task runs `do_connect`; what it throws reaches the handler of `connect` as
a `grt::grt_runtime_error` (the model keeps the original exception in its place).
After a task that came back normally the loop is left and `connect` returns true,
unless cancellation was requested.  In the handler: an expired password throws
":PASSWORD_EXPIRED"; an exception without authentication error is rethrown; then come
the test of `server_probably_down`, the cancellation check and the password step. -/
def connect_loop (stored_password : Option String)
    (request_password : Nat → Except Exn String) :
    List ConnectTry → ConnectState → ConnectState × ConnectResult
  | [], st => (st, .pending)
  | t :: rest, st =>
    let r := do_connect st.form t.attempt t.remote_admin t.info_error
    let error_ptr := r.2
    let st1 : ConnectState :=
      { st with form := r.1.1, attempts := st.attempts + 1,
                cancel_connect := st.cancel_connect || t.cancel_requested }
    match r.1.2 with
    | none => if st1.cancel_connect then cancelled st1 else (st1, .returned true)
    | some thrown =>
      if error_ptr.password_expired then (st1, .raised (.runtime_error ":PASSWORD_EXPIRED"))
      else if error_ptr.auth_error.isNone then (st1, .raised thrown.exn)
      else if error_ptr.server_probably_down then (st1, .returned false)
      else if st1.cancel_connect then cancelled st1
      else
        match next_password stored_password request_password thrown.exn st1 with
        | .error (st2, e) => (st2, .raised e)
        | .ok st2 => connect_loop stored_password request_password rest st2

/-- The method `connect`: the loop started without a password.  `cancel_connect` is the
value of the flag `_cancel_connect` when `connect` is entered.  (`reset()` before the
loop and the notification scheduled after it do not touch the modelled state.) -/
def connect (form : SqlEditorForm) (cancel_connect : Bool) (stored_password : Option String)
    (request_password : Nat → Except Exn String) (tries : List ConnectTry) :
    ConnectState × ConnectResult :=
  connect_loop stored_password request_password tries
    { form := form, cancel_connect := cancel_connect, current_method := .NoPassword,
      password := none, attempts := 0, prompts := 0, closed := false }

/-- An attempt that the server refuses for a wrong password. -/
def refused_try : ConnectTry :=
  { attempt := .AuthenticationError "Access denied for user", remote_admin := false,
    info_error := none, cancel_requested := false }

/-- An attempt that finds no server listening (driver error 2003). -/
def unreachable_try (remote_admin : Bool) : ConnectTry :=
  { attempt := .driver ⟨.error (.SQLException 2003 "Can't connect to MySQL server")⟩,
    remote_admin := remote_admin, info_error := none, cancel_requested := false }

/-- A user who answers every password prompt. -/
def always_answer : Nat → Except Exn String := fun _ => .ok "secret"

/-! ## Populating a storage: `do_unserialize` -/

/-- What the driver delivers to one `do_unserialize` call: whether `do_exec_sql` handed
a result set over (`_dbc_resultset`); for a reload, what creating and executing the
statement throws, or whether `getResultSet` returns a result set; the labels of the
result columns and whether the real type of each is a blob type; the `COLUMN_NAME`
values of the rows of `getBestRowIdentifier`, or what the lookup throws;
`optimized_blob_fetching()` of the buffer; and the rows. -/
structure Unserialize where
  dbc_resultset : Bool
  reexecute : Except Exn Bool
  column_labels : List String
  column_is_blob : List Bool
  best_row_identifier : Except Exn (List String)
  optimized_blob_fetching : Bool
  rows : List FetchedRow

/-- What a `do_unserialize` call leaves behind: the storage, the column names of the
buffer and the swap database. -/
structure Unserialized where
  storage : Recordset_cdbc_storage
  column_names : List String
  data_swap : DataSwap
  deriving DecidableEq, Repr

/-- The exception thrown by `dbms_conn_ref` and `aux_dbms_conn_ref` for a handle without
connection. -/
def no_connection : Exn := .runtime_error "No connection to DBMS"

/-- The reason given to a storage whose table has no row identifier. -/
def no_row_identifier_reason : String :=
  "The table has no unique row identifier (primary key or a NOT NULL unique index)"

/-- The loop `while (rs->next())` over the rows of `getBestRowIdentifier`: an identifier
column found among the column names (`std::find`, first match) is duplicated at the
end of the column list and its position recorded in `_pkey_columns`; one that is not
found lowers `rowid_col_count`. -/
def capture_pkey_columns :
    List String → List String × List Nat × Nat → List String × List Nat × Nat
  | [], acc => acc
  | name :: rest, (column_names, pkey_columns, rowid_col_count) =>
    match column_names.findIdx? (fun c => c == name) with
    | some col =>
      capture_pkey_columns rest
        (column_names ++ [column_names.getD col ""], pkey_columns ++ [col], rowid_col_count)
    | none => capture_pkey_columns rest (column_names, pkey_columns, rowid_col_count - 1)

/-- The block "determine pkey or unique identifier columns" of `do_unserialize`, entered
for a storage with a table name: the lookup goes through the auxiliary connection; with
rows, the identifier columns are captured; without, the storage is marked read-only.
The last component is `rowid_col_count`. -/
def determine_pkey_columns (storage : Recordset_cdbc_storage) (column_names : List String)
    (aux_dbms_conn : Option Dbc_connection_handler)
    (best_row_identifier : Except Exn (List String)) :
    Except Exn (Recordset_cdbc_storage × List String × Nat) :=
  if storage.table_name.isEmpty then .ok (storage, column_names, 0)
  else
    match aux_dbms_conn.bind (fun h => h.ref) with
    | none => .error no_connection
    | some _ =>
      match best_row_identifier with
      | .error e => .error e
      | .ok identifier =>
        if 0 < identifier.length then
          let captured :=
            capture_pkey_columns identifier (column_names, storage.pkey_columns, identifier.length)
          .ok ({ storage with pkey_columns := captured.2.1 }, captured.1, captured.2.2)
        else
          .ok ({ storage with readonly := true, readonly_reason := no_row_identifier_reason },
            column_names, 0)

/-- The last loop of `do_unserialize`: the first `rowid_col_count` entries of
`_pkey_columns` are pointed at the duplicated columns. -/
def remap_pkey_columns (editable_col_count rowid_col_count : Nat) (pkey_columns : List Nat) :
    List Nat :=
  (List.range rowid_col_count).foldl
    (fun (l : List Nat) rowid_col => l.set rowid_col (editable_col_count + rowid_col))
    pkey_columns

/-- The vector `null_value_columns` of `do_unserialize`: the columns whose values are
left out during population, to be fetched on demand.  No column is, unless optimized
blob fetching is on, the storage is reloadable and `rowid_col_count` is not zero; then
the columns whose real type is a blob type are. -/
def null_value_columns (u : Unserialize) (reloadable : Bool) (rowid_col_count : Nat) :
    List Bool :=
  let are_null_columns_possible : Bool :=
    u.optimized_blob_fetching && reloadable && decide (rowid_col_count ≠ 0)
  (List.range u.column_labels.length).map
    (fun col => are_null_columns_possible && u.column_is_blob.getD col false)

/-- The method `Recordset_cdbc_storage::do_unserialize`, after the call of the base
class method (which is outside the sources at hand): `storage` and `column_names` are
the storage and the column names of the buffer at that point.  The result set is the
one handed over or, for a reloadable storage, the one of the statement executed again;
without a result set the storage is left invalid.  Then the column names are completed
from the labels, the row identifier columns are determined, the rows are cached and
the captured columns are remapped.  The column types, the quoting flags and the field
information are left out. -/
def do_unserialize (storage : Recordset_cdbc_storage) (column_names : List String)
    (dbms_conn aux_dbms_conn : Option Dbc_connection_handler) (u : Unserialize) :
    Outcome Unserialized :=
  let untouched : DataSwap := ⟨[], false⟩
  match dbms_conn.bind (fun h => h.ref) with
  | none => ⟨⟨storage, column_names, untouched⟩, some no_connection⟩
  | some _ =>
    let rs : Except Exn Bool :=
      if u.dbc_resultset then .ok true
      else if storage.reloadable = false then
        .error (.runtime_error
          "Recordset can't be reloaded, original statement must be reexecuted instead")
      else u.reexecute
    match rs with
    | .error e => ⟨⟨storage, column_names, untouched⟩, some e⟩
    | .ok false => ⟨⟨{ storage with valid := false }, column_names, untouched⟩, none⟩
    | .ok true =>
      let editable_col_count := u.column_labels.length
      let storage1 : Recordset_cdbc_storage :=
        { storage with valid := true, gather_field_info := false }
      let column_names1 := column_names ++ u.column_labels.drop column_names.length
      match determine_pkey_columns storage1 column_names1 aux_dbms_conn u.best_row_identifier with
      | .error e => ⟨⟨storage1, column_names1, untouched⟩, some e⟩
      | .ok (storage2, column_names2, rowid_col_count) =>
        let data := populate editable_col_count rowid_col_count
          (null_value_columns u storage2.reloadable rowid_col_count) storage2.pkey_columns u.rows
        match data.raised with
        | some e => ⟨⟨storage2, column_names2, data.state⟩, some e⟩
        | none =>
          ⟨⟨{ storage2 with
              pkey_columns :=
                remap_pkey_columns editable_col_count rowid_col_count storage2.pkey_columns },
            column_names2, data.state⟩, none⟩

/-- A result set is at hand for the population: it was handed over, or the storage is
reloadable and executing the statement again returns one. -/
def Unserialize.has_result_set (u : Unserialize) (storage : Recordset_cdbc_storage) : Prop :=
  u.dbc_resultset = true ∨ (storage.reloadable = true ∧ u.reexecute = .ok true)

/-- A storage prepared for the statement `SELECT first_name FROM actor`. -/
def actor_storage : Recordset_cdbc_storage :=
  { Recordset_cdbc_storage.create with
    schema_name := "sakila", table_name := "actor", sql_query := "SELECT first_name FROM actor" }

/-- The result set of `SELECT first_name FROM actor` with two rows, handed over by
`do_exec_sql`; the row identifier of the table is the column `actor_id`. -/
def first_names_of_actor : Unserialize :=
  { dbc_resultset := true, reexecute := .ok true, column_labels := ["first_name"],
    column_is_blob := [false], best_row_identifier := .ok ["actor_id"],
    optimized_blob_fetching := true,
    rows := [⟨[some "PENELOPE"], false⟩, ⟨[some "NICK"], false⟩] }

/-- The same result set for a table without any row identifier. -/
def first_names_without_identifier : Unserialize :=
  { first_names_of_actor with best_row_identifier := .ok [] }

/-! ## Result buffers of a single SELECT -/

/-- A single SELECT that the driver answers with exactly one result set, populated with
`rows` rows: the statement is not empty and not compound, nothing stops it, `execute`
reports a result set first and no update count, and there are no more results. -/
def StatementRun.select_with_one_result (s : StatementRun) (rows : Nat) : Prop :=
  s.text.isEmpty = false ∧ s.statement_type = .sql_select ∧ s.multiple_statement_count = 1 ∧
  s.createStatement_error = none ∧ s.stop_requested = false ∧ s.execute = .ok (true, -1) ∧
  s.result_sets = [.result (.ok (true, rows))] ∧ s.more_results = []

/-- The method `VarGridModel::is_readonly` of a result buffer: the member `_readonly`. -/
def Recordset.is_readonly (rs : Recordset) : Bool := rs.readonly

/-- Modelled from the spec: an edit attempt on a cell of a result buffer (`set_field`,
implemented outside the sources at hand).  User edits are "queued, not applied", and a
read-only buffer must "reject edit attempts": the answer tells whether the edit was
accepted. -/
def Recordset.set_field (rs : Recordset) (_row _column : Nat) (_value : String) : Bool :=
  !rs.is_readonly

/-- The value of a decimal digit character. -/
def digit_value (c : Char) : Nat := c.toNat - 48

/-- The number written by a list of decimal digits, most significant first, continuing
from `start`. -/
def digits_value (ds : List Char) (start : Nat) : Nat :=
  ds.foldl (fun n c => 10 * n + digit_value c) start

/-- The idle session with one registered editor (identity 1) that has not shown a
result yet. -/
def one_editor_form : SqlEditorForm :=
  { idle_form with
    sql_editors :=
      [{ editor := 1, rs_sequence := 0, busy := false, recordset_mutex_held := false,
         recordsets := [], active_result := none }] }

/-- The statement `SELECT * FROM film JOIN actor`, for which `parseSelectStatementForEdit`
finds no single table, answered with one result set of three rows. -/
def join_statement : StatementRun :=
  { plain_statement "SELECT * FROM film JOIN actor" with
    statement_type := .sql_select, execute := .ok (true, -1),
    result_sets := [.result (.ok (true, 3))] }

/-! ## Further statements and scripts -/

/-- The statement `SELECT f()`: `execute` announces a result set, and fetching it fails
with a driver error. -/
def select_fetch_fails : StatementRun :=
  { plain_statement "SELECT f()" with
    statement_type := .sql_select, execute := .ok (true, -1),
    result_sets := [.throws (.SQLException 1305 "FUNCTION f does not exist")] }

/-- A procedure call with two result sets: fetching the first fails with a driver error,
the second has two rows. -/
def call_first_fetch_fails : StatementRun :=
  { plain_statement "CALL p()" with
    execute := .ok (true, -1),
    result_sets := [.throws (.SQLException 1317 "Query execution was interrupted"),
                    .result (.ok (true, 2))],
    more_results := [.ok true, .ok false] }

/-! ## The active result and the order of the result buffers -/

/-- The getter `active_result_panel(int editor)`: the active result panel of the editor
at that index, nothing for an index out of range.  A panel is identified with the key
of the buffer it wraps. -/
def active_result_panel (form : SqlEditorForm) (editor : Int) : Option Nat :=
  if 0 ≤ editor ∧ editor < (form.sql_editors.length : Int) then
    (form.sql_editors.get? editor.toNat).bind (fun info => info.active_result)
  else none

/-- The accessor `recordset()` of the panel `panel` of the editor at index `editor`: the
buffer with that key in the recordset list of the editor. -/
def SqlEditorResult.recordset (form : SqlEditorForm) (editor : Int) (panel : Nat) :
    Option Recordset :=
  (form.sql_editors.get? editor.toNat).bind
    (fun info => info.recordsets.find? (fun rs => rs.key == panel))

/-- The getter `active_recordset(int editor)`: it looks the active result panel up, calls
`recordset()` on it when there is one, drops what that call returns, and returns an
empty reference. -/
def active_recordset (form : SqlEditorForm) (editor : Int) : Option Recordset :=
  match active_result_panel form editor with
  | some panel =>
    let _dropped := SqlEditorResult.recordset form editor panel
    none
  | none => none

/-- The setter `active_result_panel(int editor, SqlEditorResult::Ref value)` as it acts on
the session: the panel is stored in the record of the editor when the index is in
range.  (The object of the query editor and the menu items it also updates are not
part of the modelled state.) -/
def set_active_result_panel (form : SqlEditorForm) (editor : Int) (value : Option Nat) :
    SqlEditorForm :=
  if 0 ≤ editor ∧ editor < (form.sql_editors.length : Int) then
    modify_editor form editor.toNat (fun info => { info with active_result := value })
  else form

/-- The setter `active_recordset(int editor, Recordset::Ref rset)`: the result panel of
the buffer (`rdata->result_panel`, identified with the key of the buffer) becomes the
active result panel of the editor; an empty reference clears it. -/
def set_active_recordset (form : SqlEditorForm) (editor : Int) (rset : Option Recordset) :
    SqlEditorForm :=
  match rset with
  | some rs => set_active_result_panel form editor (some rs.key)
  | none => set_active_result_panel form editor none

/-- The method `recordset_reorder`.  `sql_editors_mutex_held` tells that the try-lock on
`_sql_editors_mutex` fails; `value` is the key of the buffer to move (`std::find`
compares references).  A target index at or beyond the last position becomes -1, which
stands for the end; the buffer is erased and pushed back or inserted before the
element at the target index. -/
def recordset_reorder (form : SqlEditorForm) (sql_editors_mutex_held : Bool) (editor : Int)
    (value : Nat) (new_index : Int) : SqlEditorForm × Bool :=
  if sql_editors_mutex_held then (form, false)
  else if 0 ≤ editor ∧ editor < (form.sql_editors.length : Int) then
    match form.sql_editors.get? editor.toNat with
    | none => (form, false)
    | some info =>
      if info.recordset_mutex_held then (form, false)
      else
        match info.recordsets.findIdx? (fun rs => rs.key == value),
            info.recordsets.find? (fun rs => rs.key == value) with
        | some pos, some found =>
          let new_index : Int :=
            if new_index ≥ (info.recordsets.length : Int) - 1 then -1 else new_index
          let erased := info.recordsets.eraseIdx pos
          let reordered : List Recordset :=
            if new_index < 0 then erased ++ [found]
            else erased.take new_index.toNat ++ found :: erased.drop new_index.toNat
          (modify_editor form editor.toNat (fun e => { e with recordsets := reordered }), true)
        | _, _ => (form, false)
  else (form, false)

/-! ## Reading a blob from a stream -/

/-- An input stream (`std::istream`) over a finite sequence of bytes: what is still to be
read, and the end-of-file flag. -/
structure IStream where
  remaining : List Nat
  eof : Bool
  deriving DecidableEq, Repr

/-- The call `is->read(buffer, count)`: the bytes extracted (`gcount()` is their number)
and the stream afterwards; the end-of-file flag is raised when the end of the data is
reached before `count` bytes have been extracted. -/
def IStream.read (is : IStream) (count : Nat) : List Nat × IStream :=
  (is.remaining.take count,
    { remaining := is.remaining.drop count,
      eof := is.eof || decide (is.remaining.length < count) })

/-- The constant `BUFF_SIZE` of the blob visitor. -/
def BUFF_SIZE : Nat := 4096

/-- The loop `while (!is->eof())` of the blob visitor: every round appends a chunk of
`BUFF_SIZE` zero bytes, reads into it and adds `gcount()` to `blob_size`. -/
def read_chunks (is : IStream) (chunks : List (List Nat)) (blob_size : Nat) :
    List (List Nat) × Nat :=
  if is.eof then (chunks, blob_size)
  else
    let r := is.read BUFF_SIZE
    let chunk := r.1 ++ List.replicate (BUFF_SIZE - r.1.length) 0
    read_chunks r.2 (chunks ++ [chunk]) (blob_size + r.1.length)
termination_by is.remaining.length + (if is.eof then 0 else 1)
decreasing_by
  simp_wf
  rename_i h
  simp only [IStream.read, BUFF_SIZE, List.length_drop, h, Bool.false_or]
  by_cases hlt : is.remaining.length < 4096
  · simp [hlt]; omega
  · simp [hlt]; omega

/-- The blob visitor of `FetchVar` (`operator()` for `sqlite::blob_ref_t`) when no size
is known in advance: the chunks read from the stream are copied one after the other
into a blob of `chunks.size() * BUFF_SIZE` bytes, which is then cut to `blob_size`. -/
def fetch_blob (is : IStream) : List Nat :=
  let r := read_chunks is [] 0
  let blob := List.replicate (r.1.length * BUFF_SIZE) 0
  let copied := r.1.flatten ++ blob.drop r.1.flatten.length
  copied.take r.2

/-! ## Sample result buffers -/

/-- A result buffer of `SELECT 1` with the given identity; `can_close` tells whether it
agrees to close. -/
def sample_buffer (key : Nat) (can_close : Bool) : Recordset :=
  { key := key, caption := "Result " ++ toString (key + 1), generator_query := "SELECT 1",
    row_count := 1, can_close_answer := can_close, readonly := false, readonly_reason := "",
    data_storage := { Recordset_cdbc_storage.create with sql_query := "SELECT 1", valid := true } }

/-- The record of a registered editor (identity 1) with a free mutex that shows three
result buffers, the second of which holds unsaved edits; the third is the active
result. -/
def three_results_info : EditorInfo :=
  { editor := 1, rs_sequence := 3, busy := false, recordset_mutex_held := false,
    recordsets := [sample_buffer 10 true, sample_buffer 11 false, sample_buffer 12 true],
    active_result := some 12 }

/-- The idle session with that editor. -/
def three_results_form : SqlEditorForm :=
  { idle_form with sql_editors := [three_results_info] }

/-! ## Fetching a blob value on demand -/

/-- What `do_fetch_blob_value` gets from outside the storage: the predicate built by
`get_pkey_predicate_for_data_cache_rowid` for the row (empty when the buffer has no
row identifier), the text returned by `decorated_sql_query`, what `execute` throws,
and the rows of the result set (`none` when there is no result set).  A row is the value
read by the visitor, NULL, or the exception the visitor throws. -/
structure BlobFetch where
  pkey_predicate : String
  decorated_sql_query : String
  execute : Option Exn
  result_set : Option (List (Except Exn (Option String)))

/-- The state left by `do_fetch_blob_value`: the storage, the value handed back through
`blob_value`, and the statements sent to the server. -/
structure BlobFetched where
  storage : Recordset_cdbc_storage
  blob_value : Option String
  executed : List String
  deriving DecidableEq, Repr

/-- The loop `while (rs->next())` of `do_fetch_blob_value`: every row overwrites
`blob_value`, with NULL or with the value read by the visitor. -/
def fetch_blob_rows : List (Except Exn (Option String)) → Option String → Outcome (Option String)
  | [], blob_value => ⟨blob_value, none⟩
  | .ok cell :: rest, _ => fetch_blob_rows rest cell
  | .error e :: _, blob_value => ⟨blob_value, some e⟩

/-- The method `Recordset_cdbc_storage::do_fetch_blob_value` for the column `column` of
a buffer with the given column names; `blob_value` is the value of the reference
parameter at the call. -/
def do_fetch_blob_value (storage : Recordset_cdbc_storage)
    (dbms_conn : Option Dbc_connection_handler) (column_names : List String) (column : Nat)
    (blob_value : Option String) (f : BlobFetch) : Outcome BlobFetched :=
  match dbms_conn.bind (fun h => h.ref) with
  | none => ⟨⟨storage, blob_value, []⟩, some no_connection⟩
  | some _ =>
    if column_names.length ≤ column then ⟨⟨storage, blob_value, []⟩, none⟩
    else if f.pkey_predicate.isEmpty then ⟨⟨storage, none, []⟩, none⟩
    else
      let sql_query := "select `" ++ column_names.getD column "" ++ "`, length(`" ++
        column_names.getD column "" ++ "`) from (" ++ f.decorated_sql_query ++ ") t where " ++
        f.pkey_predicate
      if storage.reloadable = false then
        ⟨⟨storage, blob_value, []⟩, some (.runtime_error
          "Recordset can't be reloaded, original statement must be reexecuted instead")⟩
      else
        match f.execute with
        | some e => ⟨⟨storage, blob_value, [sql_query]⟩, some e⟩
        | none =>
          match f.result_set with
          | none => ⟨⟨{ storage with valid := false }, blob_value, [sql_query]⟩, none⟩
          | some rows =>
            let fetched := fetch_blob_rows rows blob_value
            ⟨⟨{ storage with valid := true }, fetched.state, [sql_query]⟩, fetched.raised⟩

/-- The positions, among the column labels, of the identifier names that occur among
them (first occurrence), in the order of the lookup. -/
def matched_identifier_columns (column_labels identifier : List String) : List Nat :=
  identifier.filterMap (fun name => column_labels.findIdx? (fun c => c == name))

/-- A storage prepared for the statement `SELECT actor_id, photo FROM actor`. -/
def photo_storage : Recordset_cdbc_storage :=
  { actor_storage with sql_query := "SELECT actor_id, photo FROM actor" }

/-- The result set of `SELECT actor_id, photo FROM actor` with one row; `photo` is a blob
column and `actor_id` the row identifier of the table. -/
def photos_of_actor : Unserialize :=
  { dbc_resultset := true, reexecute := .ok true, column_labels := ["actor_id", "photo"],
    column_is_blob := [false, true], best_row_identifier := .ok ["actor_id"],
    optimized_blob_fetching := true, rows := [⟨[some "1", some "PNG"], false⟩] }

/-- The same result set for a table without any row identifier. -/
def photos_without_identifier : Unserialize :=
  { photos_of_actor with best_row_identifier := .ok [] }

/-- A blob fetch for a buffer without row identifier: the predicate is empty. -/
def fetch_without_predicate : BlobFetch :=
  { pkey_predicate := "", decorated_sql_query := "SELECT actor_id, photo FROM actor",
    execute := none, result_set := some [.ok (some "PNG")] }

/-- A storage prepared for the statement `SELECT last_update, film_id FROM film_actor`. -/
def film_actor_storage : Recordset_cdbc_storage :=
  { Recordset_cdbc_storage.create with
    schema_name := "sakila", table_name := "film_actor",
    sql_query := "SELECT last_update, film_id FROM film_actor" }

/-- The result set of `SELECT last_update, film_id FROM film_actor` with two rows; the row
identifier of the table is the pair `actor_id`, `film_id`, of which only `film_id` is
selected. -/
def updates_of_film_actor : Unserialize :=
  { dbc_resultset := true, reexecute := .ok true, column_labels := ["last_update", "film_id"],
    column_is_blob := [false, false], best_row_identifier := .ok ["actor_id", "film_id"],
    optimized_blob_fetching := true,
    rows := [⟨[some "2006-02-15", some "1"], false⟩, ⟨[none, some "23"], false⟩] }

/-! ## Failures and exceptions in the statement loop -/

/-- The exception that leaves a piece of the statement loop, if any. -/
def Flow.raised {σ : Type} : Flow σ → Option Exn
  | .next _ => none
  | .stop _ => none
  | .raise _ e => some e

/-- What the trace `failed` tells about a piece of the statement loop that was entered
with the trace `failed` while a statement at position `index` is run: after a jump to
`stop_processing_sql_script` the position has been noted once, and otherwise the trace
is what it was. -/
def noted_on_stop {σ : Type} (get : σ → ExecState) (failed : List Nat) (index : Nat) :
    Flow σ → Prop
  | .stop x => (get x).failed = failed ++ [index]
  | .next x => (get x).failed = failed
  | .raise x _ => (get x).failed = failed

/-- A procedure call with two result sets: the first has one row, fetching the second
fails with a driver error. -/
def call_second_fetch_fails : StatementRun :=
  { plain_statement "CALL p()" with
    execute := .ok (true, -1)
    result_sets := [.result (.ok (true, 1)),
                    .throws (.SQLException 1317 "Query execution was interrupted")]
    more_results := [.ok true, .ok false] }

/-- A SET statement that changes the SQL mode of the session. -/
def set_sql_mode_statement : StatementRun :=
  { plain_statement "SET @@sql_mode = 'ANSI'" with
    statement_type := .sql_set, mentions_sql_mode := true }

/-- The idle session on a user connection through which the query of the session
variable `sql_mode` fails. -/
def mode_query_fails_form : SqlEditorForm :=
  { idle_form with
    usr_dbc_conn :=
      { connected_handler with
        ref := some { open_connection with
          sql_mode_query_error := some (.SQLException 2013 "Lost connection to MySQL server") } } }

/-- A statement before whose execution `cancel_query` has raised the stop flag. -/
def cancelled_statement : StatementRun :=
  { plain_statement "UPDATE t SET a = 1" with stop_requested := true }

/-- A script of four statements: the second is rejected by the server and fetching the
result of the third fails. -/
def script_with_two_failures : Script :=
  ⟨70, [plain_statement "INSERT INTO t VALUES (1)", failing_statement, select_fetch_fails,
        plain_statement "INSERT INTO t VALUES (2)"]⟩

/-- The script `INSERT INTO t VALUES (1); SELECT f()`: fetching the result of the second
statement fails. -/
def script_with_fetch_failure : Script :=
  ⟨36, [plain_statement "INSERT INTO t VALUES (1)", select_fetch_fails]⟩

/-- The script `SET @@sql_mode = 'ANSI'; SELEC 1`: the SQL mode is changed, then a
statement is rejected by the server. -/
def script_mode_then_failure : Script := ⟨32, [set_sql_mode_statement, failing_statement]⟩

/-! ## Further driver managers -/

/-- A driver manager whose new connection reports closed at once. -/
def dropped_connection_driver : Driver := { getConnection := .ok (closed_connection, some 8) }

/-- A driver manager that reaches a server on which the schema "sakila" no longer
exists. -/
def schema_gone_driver : Driver :=
  { getConnection :=
      .ok ({ open_connection with
              setSchema_errors := [("sakila", .SQLException 1049 "Unknown database")] },
        some 8) }

/-- A driver manager that reaches a server which refuses to set the autocommit mode. -/
def autocommit_refused_driver : Driver :=
  { getConnection :=
      .ok ({ open_connection with
              setAutoCommit_error := some (.SQLException 2006 "MySQL server has gone away") },
        some 8) }

/-! ## Connection supervision: theorems -/

/-- Reopening succeeds on a server of version 5 or later that accepts the active schema
of the handle and the autocommit mode: the handle then holds the new connection with
that schema selected, and its cached mode and schema are the ones asked for. -/
theorem create_connection_reopens (drv : Driver) (param_schema param_LastDefaultSchema : String)
    (dbc_conn : Dbc_connection_handler) (server_state : ServerState)
    (fresh : Connection) (new_id : Option Int) (mode : Bool)
    (hopen : drv.getConnection = .ok (fresh, new_id))
    (hschema_ok : fresh.setSchema_errors.lookup dbc_conn.active_schema = none)
    (hauto_ok : fresh.setAutoCommit_error = none)
    (hversion : 5 ≤ fresh.major_version)
    (hschema : dbc_conn.active_schema.isEmpty = false) :
    (create_connection drv param_schema param_LastDefaultSchema dbc_conn server_state
      mode).raised = none ∧
    (create_connection drv param_schema param_LastDefaultSchema dbc_conn server_state
      mode).state.1 =
      { ref := some { fresh with schema := dbc_conn.active_schema, autocommit := mode }
        autocommit_mode := mode
        active_schema := dbc_conn.active_schema
        id := new_id.getD dbc_conn.id
        is_stop_query_requested := false } := by
  have hv : ¬ fresh.major_version < 5 := by omega
  simp [create_connection, hopen, hv, hschema, Connection.setSchema, hschema_ok,
    Connection.setAutoCommit, hauto_ok]

/-- C3. A handle that holds a closed connection and is not in autocommit mode:
`ensure_valid_dbc_connection` throws `db_not_connected` ("DBMS connection is not
available") whatever the driver would do on a connection attempt, and the handle
(like the recorded server state) is left exactly as it was. -/
theorem ensure_valid_closed_without_autocommit (drv : Driver)
    (param_schema param_LastDefaultSchema : String) (dbc_conn : Dbc_connection_handler)
    (server_state : ServerState) (c : Connection)
    (href : dbc_conn.ref = some c) (hclosed : c.closed = true)
    (hauto : dbc_conn.autocommit_mode = false) :
    ensure_valid_dbc_connection drv param_schema param_LastDefaultSchema dbc_conn server_state =
      ⟨(dbc_conn, server_state), some (.db_not_connected "DBMS connection is not available")⟩ := by
  simp [ensure_valid_dbc_connection, href, hclosed, hauto, not_available]

/-- Witness for C3: a handle after the server closed its connection, autocommit off,
schema "sakila". -/
theorem ensure_valid_closed_without_autocommit_witness :
    ensure_valid_dbc_connection working_driver "" "" (lost_handler false "sakila")
        .RunningState =
      ⟨(lost_handler false "sakila", .RunningState),
        some (.db_not_connected "DBMS connection is not available")⟩ :=
  ensure_valid_closed_without_autocommit working_driver "" "" (lost_handler false "sakila")
    .RunningState closed_connection rfl rfl rfl

/-- C4 fails as stated at five inputs where the driver opens a new connection for a
handle in autocommit mode whose connection is closed.  With no active schema on the
handle and the default schema "sakila" in the connection parameters the call succeeds
but the active schema changes from empty to the default.  With the active schema
"sakila" the call throws when the server is of major version 4, when the schema can no
longer be selected, when the autocommit mode cannot be set, and when the new
connection reports closed. -/
theorem ensure_valid_reconnect_counterexample :
    ((lost_handler true "").active_schema = "" ∧
      (ensure_valid_dbc_connection working_driver "sakila" "" (lost_handler true "")
        .RunningState).raised = none ∧
      (ensure_valid_dbc_connection working_driver "sakila" "" (lost_handler true "")
        .RunningState).state.1.active_schema = "sakila") ∧
    (ensure_valid_dbc_connection old_server_driver "" "" (lost_handler true "sakila")
        .RunningState).raised =
      some (.runtime_error "MySQL Server version is older than 5.0, which is not supported") ∧
    (ensure_valid_dbc_connection schema_gone_driver "" "" (lost_handler true "sakila")
        .RunningState).raised = some (.SQLException 1049 "Unknown database") ∧
    (ensure_valid_dbc_connection autocommit_refused_driver "" "" (lost_handler true "sakila")
        .RunningState).raised = some (.SQLException 2006 "MySQL server has gone away") ∧
    (ensure_valid_dbc_connection dropped_connection_driver "" "" (lost_handler true "sakila")
        .RunningState).raised = some (.db_not_connected "DBMS connection is not available") := by
  decide

/-- C4 (amended). A handle in autocommit mode holds a closed connection and has a
non-empty active schema; the driver opens a new connection that is not closed, to a
server of major version 5 or later, which accepts that schema and the autocommit
mode.  Then `ensure_valid_dbc_connection` returns normally, the handle holds the new
connection (open, with the prior active schema selected and autocommit on), and the
active schema and autocommit mode of the handle are what they were. -/
theorem ensure_valid_reconnects (drv : Driver) (param_schema param_LastDefaultSchema : String)
    (dbc_conn : Dbc_connection_handler) (server_state : ServerState)
    (c fresh : Connection) (new_id : Option Int)
    (href : dbc_conn.ref = some c) (hclosed : c.closed = true)
    (hauto : dbc_conn.autocommit_mode = true)
    (hopen : drv.getConnection = .ok (fresh, new_id)) (hfresh : fresh.closed = false)
    (hschema_ok : fresh.setSchema_errors.lookup dbc_conn.active_schema = none)
    (hauto_ok : fresh.setAutoCommit_error = none)
    (hversion : 5 ≤ fresh.major_version)
    (hschema : dbc_conn.active_schema.isEmpty = false) :
    (ensure_valid_dbc_connection drv param_schema param_LastDefaultSchema dbc_conn
      server_state).raised = none ∧
    (ensure_valid_dbc_connection drv param_schema param_LastDefaultSchema dbc_conn
      server_state).state.1.ref =
      some { fresh with schema := dbc_conn.active_schema, autocommit := true } ∧
    (ensure_valid_dbc_connection drv param_schema param_LastDefaultSchema dbc_conn
      server_state).state.1.active_schema = dbc_conn.active_schema ∧
    (ensure_valid_dbc_connection drv param_schema param_LastDefaultSchema dbc_conn
      server_state).state.1.autocommit_mode = dbc_conn.autocommit_mode := by
  obtain ⟨h1, h2⟩ := create_connection_reopens drv param_schema param_LastDefaultSchema
    dbc_conn server_state fresh new_id true hopen hschema_ok hauto_ok hversion hschema
  simp [ensure_valid_dbc_connection, href, hclosed, hauto, h1, h2, hfresh]

/-- Witness for C4 (amended): the handle lost its connection while schema "sakila" was
active, and the driver reaches a current server. -/
theorem ensure_valid_reconnects_witness :
    (ensure_valid_dbc_connection working_driver "" "" (lost_handler true "sakila")
      .RunningState).raised = none ∧
    (ensure_valid_dbc_connection working_driver "" "" (lost_handler true "sakila")
      .RunningState).state.1.ref =
      some { open_connection with schema := "sakila", autocommit := true } ∧
    (ensure_valid_dbc_connection working_driver "" "" (lost_handler true "sakila")
      .RunningState).state.1.active_schema = "sakila" ∧
    (ensure_valid_dbc_connection working_driver "" "" (lost_handler true "sakila")
      .RunningState).state.1.autocommit_mode = true :=
  ensure_valid_reconnects working_driver "" "" (lost_handler true "sakila") .RunningState
    closed_connection open_connection (some 8) rfl rfl rfl rfl rfl rfl rfl (by decide) rfl

/-! ## Change scripts, apply and cancel: theorems -/

/-- The error counter after the loop of `run_sql_script`: one more for every statement
that raised a driver error. -/
theorem run_sql_script_loop_err_count (script : List ScriptStatement) (c : ScriptCounters) :
    (run_sql_script_loop script c).err_count =
      c.err_count + (script.filter (fun s => s.driver_error.isSome)).length := by
  induction script generalizing c with
  | nil => simp [run_sql_script_loop]
  | cons s rest ih =>
    rw [run_sql_script_loop, ih]
    cases h : s.driver_error with
    | none => simp [h]
    | some e => obtain ⟨code, what⟩ := e; simp [h]; omega

/-- C5. On a storage that holds a connection, `run_sql_script` ends in one of two ways.
If no statement raised a driver error it commits exactly once, never rolls back and
returns normally; if at least one did, it rolls back exactly once, never commits and
throws a `std::runtime_error` to its caller. -/
theorem run_sql_script_commits_or_rolls_back (dbms_conn : Dbc_connection_handler) (c : Connection)
    (full_table_name : String) (sql_script : List ScriptStatement)
    (href : dbms_conn.ref = some c) :
    ((∀ s ∈ sql_script, s.driver_error = none) →
      (run_sql_script (some dbms_conn) full_table_name sql_script).commits = 1 ∧
      (run_sql_script (some dbms_conn) full_table_name sql_script).rollbacks = 0 ∧
      (run_sql_script (some dbms_conn) full_table_name sql_script).raised = none) ∧
    ((∃ s ∈ sql_script, s.driver_error ≠ none) →
      (run_sql_script (some dbms_conn) full_table_name sql_script).rollbacks = 1 ∧
      (run_sql_script (some dbms_conn) full_table_name sql_script).commits = 0 ∧
      ∃ msg, (run_sql_script (some dbms_conn) full_table_name sql_script).raised =
        some (.runtime_error msg)) := by
  have hcount := run_sql_script_loop_err_count sql_script ⟨0, 0, [], []⟩
  constructor
  · intro hok
    have hzero : (sql_script.filter (fun s => s.driver_error.isSome)) = [] := by
      rw [List.filter_eq_nil_iff]
      intro s hs
      simp [hok s hs]
    rw [hzero] at hcount
    simp at hcount
    simp [run_sql_script, href, hcount]
  · rintro ⟨s, hs, hbad⟩
    have hpos : 0 < (sql_script.filter (fun s => s.driver_error.isSome)).length := by
      apply List.length_pos_of_mem (a := s)
      rw [List.mem_filter]
      refine ⟨hs, ?_⟩
      cases h : s.driver_error with
      | none => exact absurd h hbad
      | some e => rfl
    have hne : (run_sql_script_loop sql_script ⟨0, 0, [], []⟩).err_count ≠ 0 := by
      rw [hcount]; dsimp only; omega
    simp [run_sql_script, href, hne]

/-- Witness for C5: a script of two accepted updates, and one whose second update is
rejected, on a connected storage. -/
theorem run_sql_script_commits_or_rolls_back_witness :
    ((run_sql_script (some connected_handler) "t" two_updates).commits = 1 ∧
      (run_sql_script (some connected_handler) "t" two_updates).rollbacks = 0 ∧
      (run_sql_script (some connected_handler) "t" two_updates).raised = none) ∧
    ((run_sql_script (some connected_handler) "t" two_updates_one_rejected).rollbacks = 1 ∧
      (run_sql_script (some connected_handler) "t" two_updates_one_rejected).commits = 0 ∧
      ∃ msg, (run_sql_script (some connected_handler) "t" two_updates_one_rejected).raised =
        some (.runtime_error msg)) :=
  ⟨(run_sql_script_commits_or_rolls_back connected_handler open_connection "t" two_updates rfl).1 (by decide),
   (run_sql_script_commits_or_rolls_back connected_handler open_connection "t" two_updates_one_rejected rfl).2
     ⟨⟨"UPDATE t SET a = 2 WHERE id = 2", some (1062, "Duplicate entry")⟩, by decide, by decide⟩⟩

@[simp] theorem add_log_message_usr (form : SqlEditorForm) (t : MsgType) (m c : String) :
    (add_log_message form t m c).1.usr_dbc_conn = form.usr_dbc_conn := rfl

@[simp] theorem dispatch_usr (form : SqlEditorForm) (statement : String) (e : Exn) :
    (CATCH_ANY_EXCEPTION_AND_DISPATCH form statement e).usr_dbc_conn = form.usr_dbc_conn := by
  cases e <;> rfl

theorem report_errors_usr (reported : List (String × String)) (form : SqlEditorForm) :
    (reported.foldl (fun g r => (add_log_message g .ErrorMsg r.1 r.2).1) form).usr_dbc_conn =
      form.usr_dbc_conn := by
  induction reported generalizing form with
  | nil => rfl
  | cons r rest ih => simp [List.foldl, ih]

/-- C6. The user connection is valid and in autocommit mode when
`apply_changes_to_recordset` starts.  Then the change script is never run with
autocommit on: when `setAutoCommit` works, it is run with autocommit off; and when
`apply_changes_to_recordset` returns (it always returns normally), autocommit is on
again, whatever the apply reported or threw. -/
theorem apply_changes_restores_autocommit (drv : Driver) (form : SqlEditorForm) (answer : DialogResult)
    (commit_error : Option Exn) (wizard_enabled : Bool) (apply : ApplyRun) (c : Connection)
    (hvalid : (ensure_valid_usr_connection drv form).raised = none)
    (href : (ensure_valid_usr_connection drv form).state.usr_dbc_conn.ref = some c)
    (hauto : c.autocommit = true) :
    (apply_changes_to_recordset drv form true answer commit_error wizard_enabled apply).1.raised
      = none ∧
    (apply_changes_to_recordset drv form true answer commit_error wizard_enabled
      apply).2.script_run_autocommit ≠ some true ∧
    (c.setAutoCommit_error = none →
      (apply_changes_to_recordset drv form true answer commit_error wizard_enabled
        apply).2.script_run_autocommit = some false) ∧
    (apply_changes_to_recordset drv form true answer commit_error wizard_enabled
      apply).1.state.usr_dbc_conn.ref.map (fun k => k.autocommit) = some true := by
  unfold apply_changes_to_recordset
  simp only [hvalid, href, hauto]
  cases hset : c.setAutoCommit_error with
  | some e =>
    simp [Connection.setAutoCommit, hset, href, hauto]
  | none =>
    cases hr : apply.raises with
    | none =>
      simp [Connection.setAutoCommit, hset, hr, set_usr_ref, report_errors_usr]
    | some e =>
      simp [Connection.setAutoCommit, hset, hr, set_usr_ref, report_errors_usr]

/-- Witness for C6: the idle session, an apply that throws. -/
theorem apply_changes_restores_autocommit_witness :
    (apply_changes_to_recordset working_driver idle_form true .ResultOk none false
      ⟨[], some (.runtime_error "1 error(s) saving changes to table t")⟩).1.raised = none ∧
    (apply_changes_to_recordset working_driver idle_form true .ResultOk none false
      ⟨[], some (.runtime_error "1 error(s) saving changes to table t")⟩).2.script_run_autocommit
      = some false ∧
    (apply_changes_to_recordset working_driver idle_form true .ResultOk none false
      ⟨[], some (.runtime_error "1 error(s) saving changes to table t")⟩
      ).1.state.usr_dbc_conn.ref.map (fun k => k.autocommit) = some true :=
  have h := apply_changes_restores_autocommit working_driver idle_form .ResultOk none false
    ⟨[], some (.runtime_error "1 error(s) saving changes to table t")⟩ open_connection
    rfl rfl rfl
  ⟨h.1, h.2.2.1 rfl, h.2.2.2⟩

/-- The fetch loop throws the stop error as soon as it finds the stop flag raised. -/
theorem fetch_rows_stopped (editable_col_count rowid_col_count : Nat)
    (null_value_columns : List Bool) (pkey_columns : List Nat) (rows : List FetchedRow)
    (records : List (List (Option String)))
    (hstop : ∃ row ∈ rows, row.is_stop_query_requested = true) :
    (fetch_rows editable_col_count rowid_col_count null_value_columns pkey_columns rows
      records).raised = some (.runtime_error stopped_message) := by
  induction rows generalizing records with
  | nil => simp at hstop
  | cons row rest ih =>
    rw [fetch_rows]
    cases hrow : row.is_stop_query_requested with
    | true => simp
    | false =>
      simp only [Bool.false_eq_true, ↓reduceIte]
      apply ih
      obtain ⟨r, hr, hflag⟩ := hstop
      rcases List.mem_cons.mp hr with rfl | hrest
      · rw [hrow] at hflag; cases hflag
      · exact ⟨r, hrest, hflag⟩

/-- C7. While a query is running, a `cancel_query` whose KILL statement succeeds (the
auxiliary connection is valid and executing the statement does not throw) leaves
the stop flag of the user handle raised.  And whenever the fetch loop of
`do_unserialize` finds that flag raised at its check after some row, the population
throws "Query execution has been stopped..." and the transaction holding the
fetched rows is not committed. -/
theorem cancel_query_stops_fetch (drv : Driver) (form : SqlEditorForm) (query_kill_query : String)
    (editable_col_count rowid_col_count : Nat) (null_value_columns : List Bool)
    (pkey_columns : List Nat) (rows : List FetchedRow)
    (hkill : query_kill_query.isEmpty = false)
    (haux : (ensure_valid_aux_connection drv form).raised = none)
    (hrunning : form.is_running_query = true)
    (hstop : ∃ row ∈ rows, row.is_stop_query_requested = true) :
    ((cancel_query drv form query_kill_query none).1.raised = none ∧
      (cancel_query drv form query_kill_query none).1.state.usr_dbc_conn.is_stop_query_requested
        = true) ∧
    ((populate editable_col_count rowid_col_count null_value_columns pkey_columns rows).raised
        = some (.runtime_error stopped_message) ∧
      (populate editable_col_count rowid_col_count null_value_columns pkey_columns
        rows).state.committed = false) := by
  constructor
  · have haux1 : (ensure_valid_aux_connection drv
        (add_log_message form .BusyMsg "Running..." "INTERRUPT").1).raised = none := haux
    have hrun1 : (ensure_valid_aux_connection drv
        (add_log_message form .BusyMsg "Running..." "INTERRUPT").1).state.is_running_query
        = true := hrunning
    unfold cancel_query
    simp [hkill, haux1, hrun1, set_log_message]
  · have h := fetch_rows_stopped editable_col_count rowid_col_count null_value_columns
      pkey_columns rows [] hstop
    simp [populate, h]

/-- Witness for C7: a running session, and three rows with the flag raised after the
second. -/
theorem cancel_query_stops_fetch_witness :
    ((cancel_query working_driver running_form "KILL QUERY 7" none).1.raised = none ∧
      (cancel_query working_driver running_form "KILL QUERY 7"
        none).1.state.usr_dbc_conn.is_stop_query_requested = true) ∧
    ((populate 1 0 [false] [] three_rows_cancelled_after_second).raised
        = some (.runtime_error stopped_message) ∧
      (populate 1 0 [false] [] three_rows_cancelled_after_second).state.committed = false) :=
  cancel_query_stops_fetch working_driver running_form "KILL QUERY 7" 1 0 [false] []
    three_rows_cancelled_after_second (by decide) rfl rfl
    ⟨⟨[some "2"], true⟩, by decide, rfl⟩


/-! ## Statement execution: theorems -/

theorem frame_refl (st : ExecState) : Frame st st := ⟨rfl, rfl, rfl⟩

theorem frame_trans {a b c : ExecState} (h1 : Frame a b) (h2 : Frame b c) : Frame a c :=
  ⟨h2.1.trans h1.1, h2.2.1.trans h1.2.1, h2.2.2.trans h1.2.2⟩

@[simp] theorem add_log_message_continue (form : SqlEditorForm) (t : MsgType) (m c : String) :
    (add_log_message form t m c).1.continue_on_error = form.continue_on_error := rfl

@[simp] theorem add_log_message_status (form : SqlEditorForm) (t : MsgType) (m c : String) :
    (add_log_message form t m c).1.status_text = form.status_text := rfl

@[simp] theorem add_log_message_log (form : SqlEditorForm) (t : MsgType) (m c : String) :
    (add_log_message form t m c).1.log = form.log ++ [⟨t, c, m⟩] := rfl

@[simp] theorem add_log_message_index (form : SqlEditorForm) (t : MsgType) (m c : String) :
    (add_log_message form t m c).2 = form.log.length := rfl

@[simp] theorem set_log_message_continue (form : SqlEditorForm) (i : Nat) (t : MsgType)
    (m c : String) : (set_log_message form i t m c).continue_on_error = form.continue_on_error :=
  rfl

@[simp] theorem set_log_message_status (form : SqlEditorForm) (i : Nat) (t : MsgType)
    (m c : String) : (set_log_message form i t m c).status_text = form.status_text := rfl

@[simp] theorem set_log_message_log (form : SqlEditorForm) (i : Nat) (t : MsgType)
    (m c : String) : (set_log_message form i t m c).log = form.log.set i ⟨t, c, m⟩ := rfl

@[simp] theorem modify_editor_continue (form : SqlEditorForm) (i : Nat)
    (f : EditorInfo → EditorInfo) :
    (modify_editor form i f).continue_on_error = form.continue_on_error := by
  unfold modify_editor; split <;> rfl

@[simp] theorem modify_editor_status (form : SqlEditorForm) (i : Nat)
    (f : EditorInfo → EditorInfo) : (modify_editor form i f).status_text = form.status_text := by
  unfold modify_editor; split <;> rfl

@[simp] theorem modify_editor_log (form : SqlEditorForm) (i : Nat)
    (f : EditorInfo → EditorInfo) : (modify_editor form i f).log = form.log := by
  unfold modify_editor; split <;> rfl

@[simp] theorem result_list_put_executed (st : ExecState) (l : List Recordset) :
    (st.result_list_put l).executed = st.executed := by
  unfold ExecState.result_list_put; split <;> rfl

@[simp] theorem result_list_put_continue (st : ExecState) (l : List Recordset) :
    (st.result_list_put l).form.continue_on_error = st.form.continue_on_error := by
  unfold ExecState.result_list_put; split <;> simp

@[simp] theorem result_list_put_status (st : ExecState) (l : List Recordset) :
    (st.result_list_put l).form.status_text = st.form.status_text := by
  unfold ExecState.result_list_put; split <;> simp

@[simp] theorem result_list_put_log (st : ExecState) (l : List Recordset) :
    (st.result_list_put l).form.log = st.form.log := by
  unfold ExecState.result_list_put; split <;> simp

@[simp] theorem next_sequence_executed (st : ExecState) :
    st.next_sequence.1.executed = st.executed := by
  unfold ExecState.next_sequence; split <;> (try split) <;> rfl

@[simp] theorem next_sequence_continue (st : ExecState) :
    st.next_sequence.1.form.continue_on_error = st.form.continue_on_error := by
  unfold ExecState.next_sequence; split <;> (try split) <;> simp

@[simp] theorem next_sequence_status (st : ExecState) :
    st.next_sequence.1.form.status_text = st.form.status_text := by
  unfold ExecState.next_sequence; split <;> (try split) <;> simp

@[simp] theorem next_sequence_log (st : ExecState) :
    st.next_sequence.1.form.log = st.form.log := by
  unfold ExecState.next_sequence; split <;> (try split) <;> simp


@[simp] theorem push_back_executed (st : ExecState) (rs : Recordset) :
    (st.push_back rs).executed = st.executed := by
  simp [ExecState.push_back]

@[simp] theorem push_back_continue (st : ExecState) (rs : Recordset) :
    (st.push_back rs).form.continue_on_error = st.form.continue_on_error := by
  simp [ExecState.push_back]

@[simp] theorem push_back_status (st : ExecState) (rs : Recordset) :
    (st.push_back rs).form.status_text = st.form.status_text := by
  simp [ExecState.push_back]

@[simp] theorem push_back_log (st : ExecState) (rs : Recordset) :
    (st.push_back rs).form.log = st.form.log := by
  simp [ExecState.push_back]

@[simp] theorem claim_log_row_continue (form : SqlEditorForm) (sl : StatementLocals)
    (fv : FetchVars) : (claim_log_row form sl fv).1.continue_on_error = form.continue_on_error := by
  unfold claim_log_row; split <;> rfl

@[simp] theorem claim_log_row_status (form : SqlEditorForm) (sl : StatementLocals)
    (fv : FetchVars) : (claim_log_row form sl fv).1.status_text = form.status_text := by
  unfold claim_log_row; split <;> rfl

theorem claim_log_row_quiet (form : SqlEditorForm) (sl : StatementLocals) (fv : FetchVars)
    (h : ¬ (fv.reuse_log_msg = false ∧ (0 ≤ sl.updated_rows_count ∨ fv.resultset_count ≠ 0))) :
    (claim_log_row form sl fv).1.log.length = form.log.length := by
  unfold claim_log_row; rw [if_neg h]; simp

theorem adopt_result_set_frame (drv : Driver) (lc : ExecLocals) (sl : StatementLocals)
    (st : ExecState) (fv : FetchVars) (idx : Nat) (reset : Except Exn (Bool × Nat)) :
    Frame st (adopt_result_set drv lc sl st fv idx reset).state.1 ∧
    (adopt_result_set drv lc sl st fv idx reset).state.1.form.log.length =
      st.form.log.length := by
  unfold adopt_result_set
  simp only []
  split
  · simp [Frame, Flow.state, ensure_valid_aux_connection]
  · split
    · simp [Frame, Flow.state, ensure_valid_aux_connection]
    · split <;> simp [Frame, Flow.state, ensure_valid_aux_connection]

theorem fetch_result_set_frame (drv : Driver) (lc : ExecLocals) (sl : StatementLocals)
    (st : ExecState) (fv : FetchVars) :
    Frame st (fetch_result_set drv lc sl st fv).state.1 := by
  unfold fetch_result_set
  simp only []
  split
  · split <;> simp [Frame, Flow.state]
  · simp [Frame, Flow.state]
  · simp [Frame, Flow.state]
  · exact frame_trans (by simp [Frame]) (adopt_result_set_frame _ _ _ _ _ _ _).1

theorem fetch_result_set_quiet (drv : Driver) (lc : ExecLocals) (sl : StatementLocals)
    (st : ExecState) (fv : FetchVars)
    (h : ¬ (fv.reuse_log_msg = false ∧ (0 ≤ sl.updated_rows_count ∨ fv.resultset_count ≠ 0))) :
    (fetch_result_set drv lc sl st fv).state.1.form.log.length = st.form.log.length := by
  have hq := claim_log_row_quiet st.form sl fv h
  unfold fetch_result_set
  simp only []
  split
  · split <;> simp [Flow.state, hq]
  · simp [Flow.state, hq]
  · simp [Flow.state, hq]
  · rw [(adopt_result_set_frame _ _ _ _ _ _ _).2]; exact hq

theorem fetch_body_frame (drv : Driver) (lc : ExecLocals) (sl : StatementLocals)
    (st : ExecState) (fv : FetchVars) :
    Frame st (if fv.more_results then fetch_result_set drv lc sl st fv
      else Flow.next (st, fv)).state.1 := by
  split
  · exact fetch_result_set_frame drv lc sl st fv
  · exact frame_refl st

theorem fetch_body_quiet (drv : Driver) (lc : ExecLocals) (sl : StatementLocals)
    (st : ExecState) (fv : FetchVars)
    (h : fv.more_results = true → sl.updated_rows_count < 0 ∧ fv.resultset_count = 0) :
    (if fv.more_results then fetch_result_set drv lc sl st fv
      else Flow.next (st, fv)).state.1.form.log.length = st.form.log.length := by
  split
  · next hm =>
    apply fetch_result_set_quiet
    obtain ⟨h1, h2⟩ := h hm
    omega
  · rfl

theorem fetch_more_results_frame (drv : Driver) (lc : ExecLocals) (sl : StatementLocals)
    (pending : List (Except Exn Bool)) (st : ExecState) (fv : FetchVars) :
    Frame st (fetch_more_results drv lc sl pending st fv).1.state.1 := by
  induction pending generalizing st fv with
  | nil =>
    have hb := fetch_body_frame drv lc sl st fv
    unfold fetch_more_results
    split
    · next h => rw [h] at hb; exact hb
    · next h => exact hb
  | cons r rest ih =>
    have hb := fetch_body_frame drv lc sl st fv
    unfold fetch_more_results
    split
    · next st1 fv1 h =>
      rw [h] at hb
      split
      · exact hb
      · exact frame_trans hb (ih _ _)
      · exact hb
    · exact hb

theorem fetch_more_results_single (drv : Driver) (lc : ExecLocals) (sl : StatementLocals)
    (pending : List (Except Exn Bool)) (st : ExecState) (fv : FetchVars)
    (hpending : ∀ r ∈ pending, r ≠ .ok true)
    (hfirst : fv.more_results = true → sl.updated_rows_count < 0 ∧ fv.resultset_count = 0) :
    (fetch_more_results drv lc sl pending st fv).1.state.1.form.log.length =
      st.form.log.length ∧
    (∀ r ∈ (fetch_more_results drv lc sl pending st fv).2, r ≠ .ok true) ∧
    (∀ st1 fv1, (fetch_more_results drv lc sl pending st fv).1 = .next (st1, fv1) →
      fv1.more_results = false) := by
  have hb := fetch_body_quiet drv lc sl st fv hfirst
  cases pending with
  | nil =>
    unfold fetch_more_results
    split
    · next st1 fv1 h =>
      rw [h] at hb
      refine ⟨hb, by simp, ?_⟩
      intro st2 fv2 heq
      cases heq
      rfl
    · next h =>
      refine ⟨hb, by simp, ?_⟩
      intro st2 fv2 heq
      exact (h st2 fv2 heq).elim
  | cons r rest =>
    have hrest : ∀ x ∈ rest, x ≠ .ok true := fun x hx => hpending x (List.mem_cons_of_mem _ hx)
    unfold fetch_more_results
    split
    · next st1 fv1 h =>
      rw [h] at hb
      split
      · refine ⟨hb, hrest, ?_⟩
        intro st2 fv2 heq
        cases heq
      · exact absurd rfl (hpending _ (List.mem_cons_self _ _))
      · refine ⟨hb, hrest, ?_⟩
        intro st2 fv2 heq
        cases heq
        rfl
    · next h =>
      refine ⟨hb, hpending, ?_⟩
      intro st2 fv2 heq
      exact (h st2 fv2 heq).elim

theorem fetch_substatements_frame (drv : Driver) (lc : ExecLocals) (sl : StatementLocals)
    (n : Nat) (pending : List (Except Exn Bool)) (st : ExecState) (fv : FetchVars) :
    Frame st (fetch_substatements drv lc sl n pending st fv).state.1 := by
  induction n generalizing pending st fv with
  | zero => exact frame_refl st
  | succ n ih =>
    have hb := fetch_more_results_frame drv lc sl pending st fv
    unfold fetch_substatements
    split
    · next st1 fv1 pending1 h =>
      rw [h] at hb
      exact frame_trans hb (ih _ _ _)
    · next other p hne h =>
      rw [h] at hb
      exact hb

theorem fetch_substatements_single (drv : Driver) (lc : ExecLocals) (sl : StatementLocals)
    (n : Nat) (pending : List (Except Exn Bool)) (st : ExecState) (fv : FetchVars)
    (hpending : ∀ r ∈ pending, r ≠ .ok true)
    (hfirst : fv.more_results = true → sl.updated_rows_count < 0 ∧ fv.resultset_count = 0) :
    (fetch_substatements drv lc sl n pending st fv).state.1.form.log.length =
      st.form.log.length := by
  induction n generalizing pending st fv with
  | zero => rfl
  | succ n ih =>
    obtain ⟨hlog, hp, hm⟩ := fetch_more_results_single drv lc sl pending st fv hpending hfirst
    unfold fetch_substatements
    split
    · next st1 fv1 pending1 h =>
      rw [h] at hlog hp hm
      have hfalse : fv1.more_results = false := hm st1 fv1 rfl
      rw [ih pending1 st1 fv1 hp (by rw [hfalse]; intro hc; cases hc)]
      exact hlog
    · next other p hne h =>
      rw [h] at hlog
      exact hlog

theorem log_update_count_frame (lc : ExecLocals) (s : StatementRun) (sl : StatementLocals)
    (idx : Nat) (st : ExecState) :
    Frame st (log_update_count lc s sl idx st) ∧
    (log_update_count lc s sl idx st).form.log.length = st.form.log.length := by
  unfold log_update_count
  split <;> simp [Frame]

theorem fetch_result_sets_frame (drv : Driver) (lc : ExecLocals) (s : StatementRun)
    (sl : StatementLocals) (first : Bool) (data_storage : Option Recordset_cdbc_storage)
    (idx : Nat) (st : ExecState) :
    Frame st (fetch_result_sets drv lc s sl first data_storage idx st).state.1 := by
  unfold fetch_result_sets
  simp only []
  split
  · exact fetch_substatements_frame _ _ _ _ _ _ _
  · exact frame_refl st

theorem fetch_result_sets_single (drv : Driver) (lc : ExecLocals) (s : StatementRun)
    (sl : StatementLocals) (first : Bool) (data_storage : Option Recordset_cdbc_storage)
    (idx : Nat) (st : ExecState)
    (hpending : ∀ r ∈ s.more_results, r ≠ .ok true)
    (hfirst : first = true → sl.updated_rows_count < 0) :
    (fetch_result_sets drv lc s sl first data_storage idx st).state.1.form.log.length =
      st.form.log.length := by
  unfold fetch_result_sets
  simp only []
  split
  · apply fetch_substatements_single _ _ _ _ _ _ _ hpending
    intro h
    exact ⟨hfirst h, rfl⟩
  · rfl

theorem after_execute_frame (drv : Driver) (lc : ExecLocals) (s : StatementRun)
    (sl : StatementLocals) (first : Bool) (data_storage : Option Recordset_cdbc_storage)
    (idx : Nat) (st : ExecState) :
    Frame st (after_execute drv lc s sl first data_storage idx st).state := by
  have h1 := (log_update_count_frame lc s sl idx st).1
  have h2 : Frame (log_update_count lc s sl idx st)
      { log_update_count lc s sl idx st with
        form := (if lc.query_ps_stats then
            query_ps_statistics drv (log_update_count lc s sl idx st).form
          else ⟨(log_update_count lc s sl idx st).form, none⟩).state } := by
    split <;> exact ⟨rfl, rfl, rfl⟩
  have h12 := frame_trans h1 h2
  unfold after_execute
  simp only []
  split
  · exact h12
  · have h3 := fetch_result_sets_frame drv lc s sl first data_storage idx
      { log_update_count lc s sl idx st with
        form := (if lc.query_ps_stats then
            query_ps_statistics drv (log_update_count lc s sl idx st).form
          else ⟨(log_update_count lc s sl idx st).form, none⟩).state }
    split
    · next st3 fv3 e h => rw [h] at h3; exact frame_trans h12 h3
    · next st3 fv3 h => rw [h] at h3; exact frame_trans h12 h3
    · next st3 fv3 h =>
      rw [h] at h3
      split
      · exact frame_trans h12 (frame_trans h3 ⟨rfl, rfl, rfl⟩)
      · exact frame_trans h12 h3

theorem after_execute_single (drv : Driver) (lc : ExecLocals) (s : StatementRun)
    (sl : StatementLocals) (first : Bool) (data_storage : Option Recordset_cdbc_storage)
    (idx : Nat) (st : ExecState)
    (hpending : ∀ r ∈ s.more_results, r ≠ .ok true)
    (hfirst : first = true → sl.updated_rows_count < 0) :
    (after_execute drv lc s sl first data_storage idx st).state.form.log.length =
      st.form.log.length := by
  have h1 := (log_update_count_frame lc s sl idx st).2
  have h2 : (if lc.query_ps_stats then
            query_ps_statistics drv (log_update_count lc s sl idx st).form
          else ⟨(log_update_count lc s sl idx st).form, none⟩).state.log =
        (log_update_count lc s sl idx st).form.log := by
    split <;> rfl
  unfold after_execute
  simp only []
  split
  · simp [Flow.state, h2, h1]
  · have h3 := fetch_result_sets_single drv lc s sl first data_storage idx
      { log_update_count lc s sl idx st with
        form := (if lc.query_ps_stats then
            query_ps_statistics drv (log_update_count lc s sl idx st).form
          else ⟨(log_update_count lc s sl idx st).form, none⟩).state } hpending hfirst
    simp only [h2, h1] at h3
    split
    · next st3 fv3 e h => rw [h] at h3; exact h3
    · next st3 fv3 h => rw [h] at h3; exact h3
    · next st3 fv3 h =>
      rw [h] at h3
      split
      · simpa [Flow.state] using h3
      · exact h3

theorem note_executed_frame (s : StatementRun) (st : ExecState) :
    Frame st (note_executed s st) ∧ (note_executed s st).form.log = st.form.log := by
  unfold note_executed
  simp only []
  split <;> exact ⟨⟨rfl, rfl, rfl⟩, rfl⟩

theorem execute_statement_frame (drv : Driver) (lc : ExecLocals) (index : Nat)
    (s : StatementRun) (p : Prepared) (idx : Nat) (st : ExecState) :
    (execute_statement drv lc index s p idx st).state.form.continue_on_error =
      st.form.continue_on_error ∧
    (execute_statement drv lc index s p idx st).state.form.status_text = st.form.status_text ∧
    (execute_statement drv lc index s p idx st).state.executed = st.executed ++ [index] := by
  unfold execute_statement
  simp only []
  split
  · split <;> exact ⟨rfl, rfl, rfl⟩
  · next first count hex =>
    have h1 := (note_executed_frame s { st with executed := st.executed ++ [index] }).1
    have h2 := after_execute_frame drv lc s
      { statement := p.statement, statement_type := s.statement_type,
        is_multiple_statement := p.is_multiple_statement, updated_rows_count := count,
        schema_name := p.schema_name, table_name := p.table_name,
        last_statement_info := s.last_statement_info, index := index } first p.data_storage idx
      (note_executed s { st with executed := st.executed ++ [index] })
    exact frame_trans h1 h2

theorem execute_statement_failed (drv : Driver) (lc : ExecLocals) (index : Nat)
    (s : StatementRun) (p : Prepared) (idx : Nat) (st : ExecState) (e : Exn)
    (hex : s.execute = .error e) :
    ∃ st1, execute_statement drv lc index s p idx st =
        (if st.form.continue_on_error then Flow.next st1 else Flow.stop st1) ∧
      st1.form.log.length = st.form.log.length := by
  unfold execute_statement
  simp only [hex]
  refine ⟨_, rfl, ?_⟩
  simp

theorem execute_statement_single (drv : Driver) (lc : ExecLocals) (index : Nat)
    (s : StatementRun) (p : Prepared) (idx : Nat) (st : ExecState)
    (hsingle : s.single_result) :
    (execute_statement drv lc index s p idx st).state.form.log.length =
      st.form.log.length := by
  unfold execute_statement
  simp only []
  split
  · split <;> simp [Flow.state]
  · next first count hex =>
    rw [after_execute_single drv lc s _ first _ _ _ hsingle.1 (hsingle.2 first count hex)]
    rw [(note_executed_frame s _).2]

theorem exec_statement_skip (drv : Driver) (lc : ExecLocals) (index : Nat) (s : StatementRun)
    (st : ExecState) (h : ¬ s.runnable) :
    exec_statement drv lc index s st = .next { st with statement := s.text } := by
  unfold exec_statement
  unfold StatementRun.runnable at h
  by_cases h1 : s.text.isEmpty = true
  · simp [h1]
  · have h2 : s.statement_type = .sql_empty := by
      by_contra hc
      exact h ⟨by simpa using h1, hc⟩
    simp [h1, h2]

@[simp] theorem log_to_history_continue (lc : ExecLocals) (s : StatementRun)
    (form : SqlEditorForm) :
    (log_to_history lc s form).continue_on_error = form.continue_on_error := by
  unfold log_to_history; split <;> rfl

@[simp] theorem log_to_history_status (lc : ExecLocals) (s : StatementRun)
    (form : SqlEditorForm) : (log_to_history lc s form).status_text = form.status_text := by
  unfold log_to_history; split <;> rfl

@[simp] theorem log_to_history_log (lc : ExecLocals) (s : StatementRun)
    (form : SqlEditorForm) : (log_to_history lc s form).log = form.log := by
  unfold log_to_history; split <;> rfl

/-- A statement that is not skipped gets its "Running..." row, and then either an
exception is thrown before `execute` is reached, or the statement is executed. -/
theorem exec_statement_runnable (drv : Driver) (lc : ExecLocals) (index : Nat)
    (s : StatementRun) (st : ExecState) (h : s.runnable) :
    ∃ (p : Prepared) (idx : Nat) (st1 : ExecState),
      st1.form.continue_on_error = st.form.continue_on_error ∧
      st1.form.status_text = st.form.status_text ∧
      st1.executed = st.executed ∧
      st1.form.log.length = st.form.log.length + 1 ∧
      ((∃ e, exec_statement drv lc index s st = .raise st1 e) ∨
        exec_statement drv lc index s st = execute_statement drv lc index s p idx st1) := by
  obtain ⟨htext, htype⟩ := h
  unfold exec_statement
  simp only [htext, htype, Bool.false_eq_true, ↓reduceIte]
  cases hcreate : s.createStatement_error with
  | some e =>
    refine ⟨prepare_statement lc s (log_to_history lc s st.form).usr_dbc_conn.active_schema, 0,
      _, ?_, ?_, ?_, ?_, Or.inl ⟨e, rfl⟩⟩ <;> simp
  | none =>
    simp only []
    split
    · refine ⟨prepare_statement lc s (log_to_history lc s st.form).usr_dbc_conn.active_schema,
        0, _, ?_, ?_, ?_, ?_, Or.inl ⟨_, rfl⟩⟩ <;> simp [observe_stop_flag]
    · refine ⟨_, _, _, ?_, ?_, ?_, ?_, Or.inr rfl⟩ <;> simp [observe_stop_flag]

theorem exec_statement_settings (drv : Driver) (lc : ExecLocals) (index : Nat)
    (s : StatementRun) (st : ExecState) :
    (exec_statement drv lc index s st).state.form.continue_on_error =
      st.form.continue_on_error ∧
    (exec_statement drv lc index s st).state.form.status_text = st.form.status_text ∧
    ((exec_statement drv lc index s st).state.executed = st.executed ∨
      (exec_statement drv lc index s st).state.executed = st.executed ++ [index]) := by
  by_cases h : s.runnable
  · obtain ⟨p, idx, st1, h1, h2, h3, _, hcase⟩ := exec_statement_runnable drv lc index s st h
    rcases hcase with ⟨e, he⟩ | he
    · rw [he]; exact ⟨h1, h2, Or.inl h3⟩
    · obtain ⟨g1, g2, g3⟩ := execute_statement_frame drv lc index s p idx st1
      rw [he]
      exact ⟨g1.trans h1, g2.trans h2, Or.inr (by rw [g3, h3])⟩
  · rw [exec_statement_skip drv lc index s st h]
    exact ⟨rfl, rfl, Or.inl rfl⟩

/-- A statement that is not skipped and has at most one result adds exactly one log
row, however it ends. -/
theorem exec_statement_single (drv : Driver) (lc : ExecLocals) (index : Nat)
    (s : StatementRun) (st : ExecState) (h : s.runnable) (hsingle : s.single_result) :
    (exec_statement drv lc index s st).state.form.log.length = st.form.log.length + 1 := by
  obtain ⟨p, idx, st1, _, _, _, h4, hcase⟩ := exec_statement_runnable drv lc index s st h
  rcases hcase with ⟨e, he⟩ | he
  · rw [he]; exact h4
  · rw [he, execute_statement_single drv lc index s p idx st1 hsingle]; exact h4

/-- When the statement at position `index` was handed to `execute` and `execute` threw,
the statement has added exactly one log row and the loop goes on (continue-on-error)
or jumps to `stop_processing_sql_script`. -/
theorem exec_statement_failed (drv : Driver) (lc : ExecLocals) (index : Nat)
    (s : StatementRun) (st : ExecState) (e : Exn) (hex : s.execute = .error e)
    (hran : index ∈ (exec_statement drv lc index s st).state.executed)
    (hnew : index ∉ st.executed) :
    ∃ st1, exec_statement drv lc index s st =
        (if st.form.continue_on_error then Flow.next st1 else Flow.stop st1) ∧
      st1.form.log.length = st.form.log.length + 1 := by
  by_cases h : s.runnable
  · obtain ⟨p, idx, st1, h1, _, h3, h4, hcase⟩ := exec_statement_runnable drv lc index s st h
    rcases hcase with ⟨e1, he⟩ | he
    · rw [he] at hran
      exact absurd (h3 ▸ hran) hnew
    · obtain ⟨st2, hflow, hlog⟩ := execute_statement_failed drv lc index s p idx st1 e hex
      refine ⟨st2, ?_, by omega⟩
      rw [he, hflow, h1]
  · rw [exec_statement_skip drv lc index s st h] at hran
    exact absurd hran hnew

theorem exec_statements_settings (drv : Driver) (lc : ExecLocals)
    (stmts : List StatementRun) (index : Nat) (st : ExecState) :
    (exec_statements drv lc index stmts st).state.form.continue_on_error =
      st.form.continue_on_error ∧
    (exec_statements drv lc index stmts st).state.form.status_text = st.form.status_text ∧
    ∀ j ∈ (exec_statements drv lc index stmts st).state.executed,
      j ∈ st.executed ∨ (index ≤ j ∧ j < index + stmts.length) := by
  induction stmts generalizing index st with
  | nil => exact ⟨rfl, rfl, fun j hj => Or.inl hj⟩
  | cons s rest ih =>
    obtain ⟨h1, h2, h3⟩ := exec_statement_settings drv lc index s st
    have hmem : ∀ j ∈ (exec_statement drv lc index s st).state.executed,
        j ∈ st.executed ∨ j = index := by
      intro j hj
      rcases h3 with h3 | h3
      · rw [h3] at hj; exact Or.inl hj
      · rw [h3] at hj
        rcases List.mem_append.mp hj with hj | hj
        · exact Or.inl hj
        · exact Or.inr (by simpa using hj)
    have hbound : ∀ j ∈ (exec_statement drv lc index s st).state.executed,
        j ∈ st.executed ∨ (index ≤ j ∧ j < index + (s :: rest).length) := by
      intro j hj
      rcases hmem j hj with hj | hj
      · exact Or.inl hj
      · subst hj; exact Or.inr ⟨le_refl _, by simp⟩
    unfold exec_statements
    split
    · next st1 heq =>
      rw [heq] at h1 h2 hbound
      obtain ⟨g1, g2, g3⟩ := ih (index + 1) st1
      refine ⟨g1.trans h1, g2.trans h2, ?_⟩
      intro j hj
      rcases g3 j hj with hj | ⟨hlo, hhi⟩
      · exact hbound j hj
      · exact Or.inr ⟨by omega, by simp only [List.length_cons]; omega⟩
    · exact ⟨h1, h2, hbound⟩

/-- If every statement is run and has at most one result, a loop that runs to its end
has added one log row per statement. -/
theorem exec_statements_single (drv : Driver) (lc : ExecLocals)
    (stmts : List StatementRun) (index : Nat) (st st1 : ExecState)
    (hall : ∀ s ∈ stmts, s.runnable ∧ s.single_result)
    (hnext : exec_statements drv lc index stmts st = .next st1) :
    st1.form.log.length = st.form.log.length + stmts.length := by
  induction stmts generalizing index st with
  | nil =>
    unfold exec_statements at hnext
    cases hnext
    rfl
  | cons s rest ih =>
    obtain ⟨hrun, hsingle⟩ := hall s (List.mem_cons_self _ _)
    have hlog := exec_statement_single drv lc index s st hrun hsingle
    unfold exec_statements at hnext
    split at hnext
    · next st2 heq =>
      rw [heq] at hlog
      have := ih (index + 1) st2 (fun x hx => hall x (List.mem_cons_of_mem _ hx)) hnext
      simp only [Flow.state] at hlog
      simp only [List.length_cons]
      omega
    · next hne =>
      exact (hne st1 hnext).elim

theorem exec_statement_at_most_one (drv : Driver) (lc : ExecLocals) (index : Nat)
    (s : StatementRun) (st : ExecState) (hsingle : s.single_result) :
    (exec_statement drv lc index s st).state.form.log.length ≤ st.form.log.length + 1 := by
  by_cases h : s.runnable
  · rw [exec_statement_single drv lc index s st h hsingle]
  · rw [exec_statement_skip drv lc index s st h]
    simp [Flow.state]

theorem exec_statement_executed_mem (drv : Driver) (lc : ExecLocals) (index : Nat)
    (s : StatementRun) (st : ExecState) :
    ∀ j ∈ (exec_statement drv lc index s st).state.executed, j ∈ st.executed ∨ j = index := by
  intro j hj
  rcases (exec_statement_settings drv lc index s st).2.2 with h3 | h3
  · rw [h3] at hj; exact Or.inl hj
  · rw [h3] at hj
    rcases List.mem_append.mp hj with hj | hj
    · exact Or.inl hj
    · exact Or.inr (by simpa using hj)

/-- With continue-on-error off, once a statement of the script has been handed to
`execute` and `execute` threw, the loop has jumped to `stop_processing_sql_script`:
no later statement was executed, and when each earlier statement has at most one
result, at most one log row per statement up to the failing one was added. -/
theorem exec_statements_stop (drv : Driver) (lc : ExecLocals) (stmts : List StatementRun)
    (index : Nat) (st : ExecState) (k : Nat) (s : StatementRun) (e : Exn)
    (hcoe : st.form.continue_on_error = false)
    (hold : ∀ j ∈ st.executed, j < index)
    (hk : index ≤ k)
    (hget : stmts.get? (k - index) = some s)
    (hex : s.execute = .error e)
    (hran : k ∈ (exec_statements drv lc index stmts st).state.executed) :
    ∃ st1, exec_statements drv lc index stmts st = .stop st1 ∧
      (∀ j ∈ st1.executed, j ≤ k) ∧
      ((∀ j sj, j < k - index → stmts.get? j = some sj → sj.single_result) →
        st1.form.log.length ≤ st.form.log.length + (k - index + 1)) := by
  induction stmts generalizing index st with
  | nil => simp at hget
  | cons s0 rest ih =>
    have hmem := exec_statement_executed_mem drv lc index s0 st
    obtain ⟨hc0, _, _⟩ := exec_statement_settings drv lc index s0 st
    have hnew : index ∉ st.executed := fun hin => absurd (hold index hin) (lt_irrefl _)
    rcases Nat.eq_or_lt_of_le hk with heq | hlt
    · -- the failing statement is the head
      subst heq
      have hs : s0 = s := by simpa using hget
      subst hs
      have hran0 : index ∈ (exec_statement drv lc index s0 st).state.executed := by
        unfold exec_statements at hran
        split at hran
        · next st2 heq2 =>
          rw [heq2]
          rcases (exec_statements_settings drv lc rest (index + 1) st2).2.2 index hran with
            h | ⟨hlo, _⟩
          · exact h
          · omega
        · exact hran
      obtain ⟨st1, hflow, hlog⟩ := exec_statement_failed drv lc index s0 st e hex hran0 hnew
      rw [hcoe] at hflow
      simp only [Bool.false_eq_true, ↓reduceIte] at hflow
      refine ⟨st1, ?_, ?_, ?_⟩
      · unfold exec_statements
        rw [hflow]
      · intro j hj
        have := hmem j (by rw [hflow]; exact hj)
        rcases this with h | h
        · exact le_of_lt (hold j h)
        · exact le_of_eq h
      · intro _
        omega
    · -- the failing statement comes later
      have hidx : k - index = (k - (index + 1)) + 1 := by omega
      have hget1 : rest.get? (k - (index + 1)) = some s := by
        rw [hidx] at hget
        simpa using hget
      have hkold : k ∉ st.executed := fun hin => absurd (hold k hin) (by omega)
      unfold exec_statements at hran ⊢
      split at hran
      · next st2 heq2 =>
        rw [heq2] at hmem hc0
        simp only [Flow.state] at hmem hc0
        have hold2 : ∀ j ∈ st2.executed, j < index + 1 := by
          intro j hj
          rcases hmem j hj with h | h
          · exact Nat.lt_succ_of_lt (hold j h)
          · omega
        obtain ⟨st1, hflow, hle, hlog⟩ := ih (index + 1) st2 (hc0.trans hcoe) hold2 (by omega)
          hget1 hran
        refine ⟨st1, ?_, hle, ?_⟩
        · exact hflow
        · intro hsingle
          have h0 : s0.single_result := hsingle 0 s0 (by omega) rfl
          have hstep := exec_statement_at_most_one drv lc index s0 st h0
          rw [heq2] at hstep
          simp only [Flow.state] at hstep
          have hrest := hlog (fun j sj hj hgetj =>
            hsingle (j + 1) sj (by omega) (by simpa using hgetj))
          omega
      · next hne =>
        rcases hmem k hran with h | h
        · exact absurd h hkold
        · omega

theorem close_recordsets_frame (info_index : Nat) (index : Nat) (st : ExecState)
    (recordsets : List Recordset) :
    Frame st (close_recordsets info_index index st recordsets).1 ∧
    (close_recordsets info_index index st recordsets).1.form.log = st.form.log ∧
    (close_recordsets info_index index st recordsets).1.statement = st.statement := by
  induction index generalizing st recordsets with
  | zero => exact ⟨frame_refl st, rfl, rfl⟩
  | succ n ih =>
    unfold close_recordsets
    split
    · exact ih st recordsets
    · split
      · exact ih st _
      · obtain ⟨h1, h2, h3⟩ := ih
          { st with form := modify_editor st.form info_index (fun info =>
              match info.recordsets.findIdx? (fun r => r.key == _) with
              | some pos =>
                { info with
                  recordsets := info.recordsets.eraseIdx pos
                  active_result :=
                    if info.active_result = some _ then none else info.active_result }
              | none => info) } recordsets
        refine ⟨frame_trans ?_ h1, ?_, ?_⟩
        · exact ⟨by simp, by simp, rfl⟩
        · rw [h2]; simp
        · rw [h3]

@[simp] theorem result_list_put_statement (st : ExecState) (l : List Recordset) :
    (st.result_list_put l).statement = st.statement := by
  unfold ExecState.result_list_put; split <;> rfl

theorem close_editor_recordsets_frame (editor : Option Nat) (retaining : Bool)
    (st : ExecState) :
    Frame st (close_editor_recordsets editor retaining st).state.1 ∧
    (close_editor_recordsets editor retaining st).state.1.form.log = st.form.log ∧
    (close_editor_recordsets editor retaining st).state.1.statement = st.statement ∧
    ∀ st1 b, close_editor_recordsets editor retaining st ≠ .stop (st1, b) := by
  unfold close_editor_recordsets
  split
  · exact ⟨frame_refl st, rfl, rfl, by simp⟩
  · split
    · exact ⟨frame_refl st, rfl, rfl, by simp⟩
    · split
      · exact ⟨frame_refl st, rfl, rfl, by simp⟩
      · simp only []
        split
        · exact ⟨⟨rfl, rfl, rfl⟩, rfl, rfl, by simp⟩
        · split
          · exact ⟨⟨rfl, rfl, rfl⟩, rfl, rfl, by simp⟩
          · next i _ _ info _ _ =>
            obtain ⟨h1, h2, h3⟩ := close_recordsets_frame i
              ({ st with rs_sequence := some i } : ExecState).result_list_get.length
              { st with rs_sequence := some i } []
            refine ⟨?_, ?_, ?_, by simp⟩
            · simp only [Flow.state]
              exact ⟨by simp [h1.1], by simp [h1.2.1], by simp [h1.2.2]⟩
            · simp [Flow.state, h2]
            · simp [Flow.state, h3]

@[simp] theorem result_list_put_failed (st : ExecState) (l : List Recordset) :
    (st.result_list_put l).failed = st.failed := by
  unfold ExecState.result_list_put; split <;> rfl

theorem close_recordsets_failed (info_index : Nat) (index : Nat) (st : ExecState)
    (recordsets : List Recordset) :
    (close_recordsets info_index index st recordsets).1.failed = st.failed := by
  induction index generalizing st recordsets with
  | zero => rfl
  | succ n ih =>
    unfold close_recordsets
    split
    · exact ih st recordsets
    · split
      · exact ih st _
      · rw [ih]

theorem close_editor_recordsets_failed (editor : Option Nat) (retaining : Bool)
    (st : ExecState) :
    (close_editor_recordsets editor retaining st).state.1.failed = st.failed := by
  unfold close_editor_recordsets
  split
  · rfl
  · split
    · rfl
    · split
      · rfl
      · simp only []
        split
        · rfl
        · split
          · rfl
          · simp [Flow.state, close_recordsets_failed]

/-- The guarded part of `do_exec_sql` either throws before the statement loop is
reached, with nothing executed and nothing logged, or it is the statement loop,
started in a state with the log and the settings of the session, followed by the
status report and the refresh of the cached SQL mode. -/
theorem do_exec_sql_try_spec (drv : Driver) (form : SqlEditorForm) (script : Script)
    (editor : Option Nat) (flags : ExecFlags) (result_list : RecordsetsRef) :
    (∃ st e, do_exec_sql_try drv form script editor flags result_list = .raise st e ∧
      st.executed = [] ∧ st.form.log = form.log ∧ st.form.status_text = form.status_text ∧
      st.statement = "" ∧ st.failed = []) ∨
    (∃ lc st0, st0.executed = [] ∧ st0.form.log = form.log ∧
      st0.form.continue_on_error = form.continue_on_error ∧
      st0.form.status_text = form.status_text ∧ st0.failed = [] ∧
      do_exec_sql_try drv form script editor flags result_list =
        refresh_sql_mode (report_status (exec_statements drv lc 0 script.statements st0))) := by
  obtain ⟨h1, h2, h3, h4⟩ := close_editor_recordsets_frame editor flags.Retaining
    (not_started form result_list)
  have hf := close_editor_recordsets_failed editor flags.Retaining (not_started form result_list)
  unfold do_exec_sql_try
  split
  · next st1 b e heq =>
    rw [heq] at h1 h2 h3 hf
    exact Or.inl ⟨st1, e, rfl, h1.2.2, h2, h1.2.1, h3, hf⟩
  · next st1 b heq => exact (h4 st1 b heq).elim
  · next st1 lock heq =>
    rw [heq] at h1 h2 h3 hf
    simp only [Flow.state] at h1 h2 h3 hf
    simp only []
    split
    · next e he =>
      exact Or.inl ⟨_, e, rfl, h1.2.2, h2, h1.2.1, h3, hf⟩
    · refine Or.inr ⟨_, _, ?_, ?_, ?_, ?_, ?_, rfl⟩
      · exact h1.2.2
      · unfold enter_loop
        simp only []
        split <;> split <;> simp [ensure_valid_usr_connection, h2] <;> rfl
      · unfold enter_loop
        simp only []
        split <;> split <;> simp [ensure_valid_usr_connection, h1.1] <;> rfl
      · unfold enter_loop
        simp only []
        split <;> split <;> simp [ensure_valid_usr_connection, h1.2.1] <;> rfl
      · exact hf

@[simp] theorem leave_scope_executed (b : Bool) (st : ExecState) :
    (leave_scope b st).executed = st.executed := rfl

@[simp] theorem leave_scope_statement (b : Bool) (st : ExecState) :
    (leave_scope b st).statement = st.statement := rfl

@[simp] theorem leave_scope_log (b : Bool) (st : ExecState) :
    (leave_scope b st).form.log = st.form.log := by
  unfold leave_scope; simp only []; split <;> simp

@[simp] theorem leave_scope_status (b : Bool) (st : ExecState) :
    (leave_scope b st).form.status_text = st.form.status_text := by
  unfold leave_scope; simp only []; split <;> simp

@[simp] theorem dispatch_log (form : SqlEditorForm) (statement : String) (e : Exn) :
    (CATCH_ANY_EXCEPTION_AND_DISPATCH form statement e).log =
      form.log ++ [dispatched_row statement e] := by
  cases e <;> rfl

@[simp] theorem dispatch_status (form : SqlEditorForm) (statement : String) (e : Exn) :
    (CATCH_ANY_EXCEPTION_AND_DISPATCH form statement e).status_text = form.status_text := by
  cases e <;> rfl

theorem do_exec_sql_next (drv : Driver) (form : SqlEditorForm) (script : Script)
    (editor : Option Nat) (flags : ExecFlags) (result_list : RecordsetsRef) (st : ExecState)
    (h : do_exec_sql_try drv
      { form with status_text := "Executing Query...", exec_sql_error_count := 0 }
      script editor flags result_list = .next st) :
    (do_exec_sql drv form script editor flags result_list).state.executed = st.executed ∧
    (do_exec_sql drv form script editor flags result_list).state.form.log = st.form.log ∧
    (do_exec_sql drv form script editor flags result_list).state.form.status_text =
      st.form.status_text := by
  unfold do_exec_sql
  simp [h, do_exec_sql_catch]

theorem do_exec_sql_stop (drv : Driver) (form : SqlEditorForm) (script : Script)
    (editor : Option Nat) (flags : ExecFlags) (result_list : RecordsetsRef) (st : ExecState)
    (h : do_exec_sql_try drv
      { form with status_text := "Executing Query...", exec_sql_error_count := 0 }
      script editor flags result_list = .stop st) :
    (do_exec_sql drv form script editor flags result_list).state.executed = st.executed ∧
    (do_exec_sql drv form script editor flags result_list).state.form.log = st.form.log ∧
    (do_exec_sql drv form script editor flags result_list).state.form.status_text =
      st.form.status_text := by
  unfold do_exec_sql
  simp [h, do_exec_sql_catch]

theorem do_exec_sql_raise (drv : Driver) (form : SqlEditorForm) (script : Script)
    (editor : Option Nat) (flags : ExecFlags) (result_list : RecordsetsRef) (st : ExecState)
    (e : Exn)
    (h : do_exec_sql_try drv
      { form with status_text := "Executing Query...", exec_sql_error_count := 0 }
      script editor flags result_list = .raise st e) :
    (do_exec_sql drv form script editor flags result_list).state.executed = st.executed ∧
    (do_exec_sql drv form script editor flags result_list).state.form.log =
      st.form.log ++ [dispatched_row st.statement e] ∧
    (do_exec_sql drv form script editor flags result_list).state.form.status_text =
      st.form.status_text := by
  unfold do_exec_sql
  simp [h, do_exec_sql_catch]

@[simp] theorem report_status_executed (fl : Flow ExecState) :
    (report_status fl).state.executed = fl.state.executed := by
  cases fl <;> rfl

@[simp] theorem report_status_log (fl : Flow ExecState) :
    (report_status fl).state.form.log = fl.state.form.log := by
  cases fl <;> rfl

/-! ## Handled failures: theorems -/

@[simp] theorem next_sequence_failed (st : ExecState) :
    st.next_sequence.1.failed = st.failed := by
  unfold ExecState.next_sequence; split <;> (try split) <;> rfl

@[simp] theorem push_back_failed (st : ExecState) (rs : Recordset) :
    (st.push_back rs).failed = st.failed := by
  simp [ExecState.push_back]

/-- Turning a result set into a buffer never jumps to `stop_processing_sql_script` and
notes no failure. -/
theorem adopt_result_set_no_stop (drv : Driver) (lc : ExecLocals) (sl : StatementLocals)
    (st : ExecState) (fv : FetchVars) (idx : Nat) (reset : Except Exn (Bool × Nat)) :
    (∀ x, adopt_result_set drv lc sl st fv idx reset ≠ .stop x) ∧
    (adopt_result_set drv lc sl st fv idx reset).state.1.failed = st.failed := by
  unfold adopt_result_set
  simp only []
  split
  · exact ⟨by simp, by simp [Flow.state]⟩
  · split
    · exact ⟨by simp, by simp [Flow.state]⟩
    · split <;> exact ⟨by simp, by simp [Flow.state]⟩

/-- With continue-on-error on, fetching a result set never jumps to
`stop_processing_sql_script`. -/
theorem fetch_result_set_no_stop (drv : Driver) (lc : ExecLocals) (sl : StatementLocals)
    (st : ExecState) (fv : FetchVars) (hcoe : st.form.continue_on_error = true) :
    ∀ x, fetch_result_set drv lc sl st fv ≠ .stop x := by
  unfold fetch_result_set
  simp only []
  split
  · simp [hcoe]
  · simp
  · simp
  · exact (adopt_result_set_no_stop _ _ _ _ _ _ _).1

/-- With continue-on-error off, fetching a result set notes a failure exactly when it
jumps to `stop_processing_sql_script`. -/
theorem fetch_result_set_noted (drv : Driver) (lc : ExecLocals) (sl : StatementLocals)
    (st : ExecState) (fv : FetchVars) (hcoe : st.form.continue_on_error = false) :
    noted_on_stop Prod.fst st.failed sl.index (fetch_result_set drv lc sl st fv) := by
  unfold fetch_result_set
  simp only []
  split
  · simp [hcoe, noted_on_stop]
  · simp [noted_on_stop]
  · simp [noted_on_stop]
  · have h := adopt_result_set_no_stop drv lc sl
      { st with form := (claim_log_row st.form sl fv).1 }
      { fv with log_message_index := (claim_log_row st.form sl fv).2, reuse_log_msg := false,
                result_sets := fv.result_sets.tail }
      (claim_log_row st.form sl fv).2
    rename_i reset _
    have hr := h reset
    generalize adopt_result_set drv lc sl
      { st with form := (claim_log_row st.form sl fv).1 }
      { fv with log_message_index := (claim_log_row st.form sl fv).2, reuse_log_msg := false,
                result_sets := fv.result_sets.tail }
      (claim_log_row st.form sl fv).2 reset = fl at hr
    cases fl with
    | next x => exact hr.2
    | stop x => exact absurd rfl (hr.1 x)
    | raise x e => exact hr.2

theorem fetch_body_no_stop (drv : Driver) (lc : ExecLocals) (sl : StatementLocals)
    (st : ExecState) (fv : FetchVars) (hcoe : st.form.continue_on_error = true) :
    ∀ x, (if fv.more_results then fetch_result_set drv lc sl st fv
      else Flow.next (st, fv)) ≠ .stop x := by
  split
  · exact fetch_result_set_no_stop drv lc sl st fv hcoe
  · simp

theorem fetch_body_noted (drv : Driver) (lc : ExecLocals) (sl : StatementLocals)
    (st : ExecState) (fv : FetchVars) (hcoe : st.form.continue_on_error = false) :
    noted_on_stop Prod.fst st.failed sl.index
      (if fv.more_results then fetch_result_set drv lc sl st fv else Flow.next (st, fv)) := by
  split
  · exact fetch_result_set_noted drv lc sl st fv hcoe
  · rfl

theorem fetch_more_results_no_stop (drv : Driver) (lc : ExecLocals) (sl : StatementLocals)
    (pending : List (Except Exn Bool)) (st : ExecState) (fv : FetchVars)
    (hcoe : st.form.continue_on_error = true) :
    ∀ x, (fetch_more_results drv lc sl pending st fv).1 ≠ .stop x := by
  induction pending generalizing st fv with
  | nil =>
    have hb := fetch_body_no_stop drv lc sl st fv hcoe
    unfold fetch_more_results
    split
    · simp
    · next h => exact hb
  | cons r rest ih =>
    have hb := fetch_body_no_stop drv lc sl st fv hcoe
    have hf := (fetch_body_frame drv lc sl st fv).1
    unfold fetch_more_results
    split
    · next st1 fv1 h =>
      rw [h] at hf
      simp only [Flow.state] at hf
      split
      · simp
      · exact ih st1 _ (hf.trans hcoe)
      · simp
    · exact hb

theorem fetch_more_results_noted (drv : Driver) (lc : ExecLocals) (sl : StatementLocals)
    (pending : List (Except Exn Bool)) (st : ExecState) (fv : FetchVars)
    (hcoe : st.form.continue_on_error = false) :
    noted_on_stop Prod.fst st.failed sl.index (fetch_more_results drv lc sl pending st fv).1 := by
  induction pending generalizing st fv with
  | nil =>
    have hb := fetch_body_noted drv lc sl st fv hcoe
    unfold fetch_more_results
    split
    · next st1 fv1 h =>
      rw [h] at hb
      exact hb
    · next h => exact hb
  | cons r rest ih =>
    have hb := fetch_body_noted drv lc sl st fv hcoe
    have hf := (fetch_body_frame drv lc sl st fv).1
    unfold fetch_more_results
    split
    · next st1 fv1 h =>
      rw [h] at hb hf
      simp only [Flow.state] at hf
      have hb1 : st1.failed = st.failed := hb
      split
      · exact hb1
      · have := ih st1 { fv1 with more_results := true } (hf.trans hcoe)
        rw [hb1] at this
        exact this
      · exact hb1
    · exact hb

theorem fetch_substatements_no_stop (drv : Driver) (lc : ExecLocals) (sl : StatementLocals)
    (n : Nat) (pending : List (Except Exn Bool)) (st : ExecState) (fv : FetchVars)
    (hcoe : st.form.continue_on_error = true) :
    ∀ x, fetch_substatements drv lc sl n pending st fv ≠ .stop x := by
  induction n generalizing pending st fv with
  | zero => simp [fetch_substatements]
  | succ n ih =>
    have hb := fetch_more_results_no_stop drv lc sl pending st fv hcoe
    have hf := (fetch_more_results_frame drv lc sl pending st fv).1
    unfold fetch_substatements
    split
    · next st1 fv1 pending1 h =>
      rw [h] at hf
      simp only [Flow.state] at hf
      exact ih pending1 st1 fv1 (hf.trans hcoe)
    · next other p hne h =>
      rw [h] at hb
      exact hb

theorem fetch_substatements_noted (drv : Driver) (lc : ExecLocals) (sl : StatementLocals)
    (n : Nat) (pending : List (Except Exn Bool)) (st : ExecState) (fv : FetchVars)
    (hcoe : st.form.continue_on_error = false) :
    noted_on_stop Prod.fst st.failed sl.index (fetch_substatements drv lc sl n pending st fv) := by
  induction n generalizing pending st fv with
  | zero => rfl
  | succ n ih =>
    have hb := fetch_more_results_noted drv lc sl pending st fv hcoe
    have hf := (fetch_more_results_frame drv lc sl pending st fv).1
    unfold fetch_substatements
    split
    · next st1 fv1 pending1 h =>
      rw [h] at hb hf
      simp only [Flow.state] at hf
      have hb1 : st1.failed = st.failed := hb
      have := ih pending1 st1 fv1 (hf.trans hcoe)
      rw [hb1] at this
      exact this
    · next other p hne h =>
      rw [h] at hb
      exact hb

theorem fetch_result_sets_no_stop (drv : Driver) (lc : ExecLocals) (s : StatementRun)
    (sl : StatementLocals) (first : Bool) (data_storage : Option Recordset_cdbc_storage)
    (idx : Nat) (st : ExecState) (hcoe : st.form.continue_on_error = true) :
    ∀ x, fetch_result_sets drv lc s sl first data_storage idx st ≠ .stop x := by
  unfold fetch_result_sets
  simp only []
  split
  · exact fetch_substatements_no_stop _ _ _ _ _ _ _ hcoe
  · simp

theorem fetch_result_sets_noted (drv : Driver) (lc : ExecLocals) (s : StatementRun)
    (sl : StatementLocals) (first : Bool) (data_storage : Option Recordset_cdbc_storage)
    (idx : Nat) (st : ExecState) (hcoe : st.form.continue_on_error = false) :
    noted_on_stop Prod.fst st.failed sl.index
      (fetch_result_sets drv lc s sl first data_storage idx st) := by
  unfold fetch_result_sets
  simp only []
  split
  · exact fetch_substatements_noted _ _ _ _ _ _ _ hcoe
  · rfl

theorem log_update_count_failed (lc : ExecLocals) (s : StatementRun) (sl : StatementLocals)
    (idx : Nat) (st : ExecState) : (log_update_count lc s sl idx st).failed = st.failed := by
  unfold log_update_count
  split <;> rfl

theorem note_executed_failed (s : StatementRun) (st : ExecState) :
    (note_executed s st).failed = st.failed := rfl

theorem after_execute_no_stop (drv : Driver) (lc : ExecLocals) (s : StatementRun)
    (sl : StatementLocals) (first : Bool) (data_storage : Option Recordset_cdbc_storage)
    (idx : Nat) (st : ExecState) (hcoe : st.form.continue_on_error = true) :
    ∀ x, after_execute drv lc s sl first data_storage idx st ≠ .stop x := by
  have h1 := (log_update_count_frame lc s sl idx st).1.1
  have h2 : (if lc.query_ps_stats then
        query_ps_statistics drv (log_update_count lc s sl idx st).form
      else ⟨(log_update_count lc s sl idx st).form, none⟩).state.continue_on_error =
      (log_update_count lc s sl idx st).form.continue_on_error := by
    split <;> rfl
  have h3 := fetch_result_sets_no_stop drv lc s sl first data_storage idx
    { log_update_count lc s sl idx st with
      form := (if lc.query_ps_stats then
          query_ps_statistics drv (log_update_count lc s sl idx st).form
        else ⟨(log_update_count lc s sl idx st).form, none⟩).state }
    (by rw [h2, h1, hcoe])
  unfold after_execute
  simp only []
  split
  · simp
  · split
    · simp
    · next st3 fv3 h => exact absurd h (h3 _)
    · split <;> simp

theorem after_execute_noted (drv : Driver) (lc : ExecLocals) (s : StatementRun)
    (sl : StatementLocals) (first : Bool) (data_storage : Option Recordset_cdbc_storage)
    (idx : Nat) (st : ExecState) (hcoe : st.form.continue_on_error = false) :
    noted_on_stop id st.failed sl.index
      (after_execute drv lc s sl first data_storage idx st) := by
  have h1 := (log_update_count_frame lc s sl idx st).1.1
  have hf := log_update_count_failed lc s sl idx st
  have h2 : (if lc.query_ps_stats then
        query_ps_statistics drv (log_update_count lc s sl idx st).form
      else ⟨(log_update_count lc s sl idx st).form, none⟩).state.continue_on_error =
      (log_update_count lc s sl idx st).form.continue_on_error := by
    split <;> rfl
  have h3 := fetch_result_sets_noted drv lc s sl first data_storage idx
    { log_update_count lc s sl idx st with
      form := (if lc.query_ps_stats then
          query_ps_statistics drv (log_update_count lc s sl idx st).form
        else ⟨(log_update_count lc s sl idx st).form, none⟩).state }
    (by rw [h2, h1, hcoe])
  unfold after_execute
  simp only []
  split
  · exact hf
  · split
    · next st3 fv3 e h =>
      rw [h] at h3
      exact (show st3.failed = _ from h3).trans hf
    · next st3 fv3 h =>
      rw [h] at h3
      exact (show st3.failed = _ from h3).trans (by rw [hf])
    · next st3 fv3 h =>
      rw [h] at h3
      split
      · exact (show st3.failed = _ from h3).trans hf
      · exact (show st3.failed = _ from h3).trans hf

theorem execute_statement_no_stop (drv : Driver) (lc : ExecLocals) (index : Nat)
    (s : StatementRun) (p : Prepared) (idx : Nat) (st : ExecState)
    (hcoe : st.form.continue_on_error = true) :
    ∀ x, execute_statement drv lc index s p idx st ≠ .stop x := by
  unfold execute_statement
  simp only []
  split
  · simp [hcoe]
  · next first count hex =>
    apply after_execute_no_stop
    rw [(note_executed_frame s _).1.1]
    exact hcoe

theorem execute_statement_noted (drv : Driver) (lc : ExecLocals) (index : Nat)
    (s : StatementRun) (p : Prepared) (idx : Nat) (st : ExecState)
    (hcoe : st.form.continue_on_error = false) :
    noted_on_stop id st.failed index (execute_statement drv lc index s p idx st) := by
  unfold execute_statement
  simp only []
  split
  · simp [hcoe, noted_on_stop]
  · next first count hex =>
    exact after_execute_noted drv lc s
      { statement := p.statement, statement_type := s.statement_type,
        is_multiple_statement := p.is_multiple_statement, updated_rows_count := count,
        schema_name := p.schema_name, table_name := p.table_name,
        last_statement_info := s.last_statement_info, index := index } first p.data_storage idx
      (note_executed s { st with executed := st.executed ++ [index] })
      (by rw [(note_executed_frame s _).1.1]; exact hcoe)

/-- A statement that is not skipped: the state in which it is executed has the trace
`failed` of the state before. -/
theorem exec_statement_runnable_failed (drv : Driver) (lc : ExecLocals) (index : Nat)
    (s : StatementRun) (st : ExecState) (h : s.runnable) :
    ∃ (p : Prepared) (idx : Nat) (st1 : ExecState),
      st1.form.continue_on_error = st.form.continue_on_error ∧
      st1.executed = st.executed ∧ st1.failed = st.failed ∧
      ((∃ e, exec_statement drv lc index s st = .raise st1 e) ∨
        exec_statement drv lc index s st = execute_statement drv lc index s p idx st1) := by
  obtain ⟨htext, htype⟩ := h
  unfold exec_statement
  simp only [htext, htype, Bool.false_eq_true, ↓reduceIte]
  cases hcreate : s.createStatement_error with
  | some e =>
    refine ⟨prepare_statement lc s (log_to_history lc s st.form).usr_dbc_conn.active_schema, 0,
      _, ?_, ?_, ?_, Or.inl ⟨e, rfl⟩⟩ <;> simp
  | none =>
    simp only []
    split
    · refine ⟨prepare_statement lc s (log_to_history lc s st.form).usr_dbc_conn.active_schema,
        0, _, ?_, ?_, ?_, Or.inl ⟨_, rfl⟩⟩ <;> simp [observe_stop_flag]
    · refine ⟨_, _, _, ?_, ?_, ?_, Or.inr rfl⟩ <;> simp [observe_stop_flag]

theorem exec_statement_no_stop (drv : Driver) (lc : ExecLocals) (index : Nat)
    (s : StatementRun) (st : ExecState) (hcoe : st.form.continue_on_error = true) :
    ∀ x, exec_statement drv lc index s st ≠ .stop x := by
  by_cases h : s.runnable
  · obtain ⟨p, idx, st1, h1, _, _, hcase⟩ := exec_statement_runnable_failed drv lc index s st h
    rcases hcase with ⟨e, he⟩ | he
    · rw [he]; simp
    · rw [he]
      exact execute_statement_no_stop drv lc index s p idx st1 (h1.trans hcoe)
  · rw [exec_statement_skip drv lc index s st h]
    simp

/-- With continue-on-error off, a statement notes a failure exactly when it jumps to
`stop_processing_sql_script`, and it does so only after it was handed to `execute`. -/
theorem exec_statement_noted (drv : Driver) (lc : ExecLocals) (index : Nat)
    (s : StatementRun) (st : ExecState) (hcoe : st.form.continue_on_error = false) :
    noted_on_stop id st.failed index (exec_statement drv lc index s st) ∧
    ∀ x, exec_statement drv lc index s st = .stop x → x.executed = st.executed ++ [index] := by
  by_cases h : s.runnable
  · obtain ⟨p, idx, st1, h1, h2, h3, hcase⟩ := exec_statement_runnable_failed drv lc index s st h
    rcases hcase with ⟨e, he⟩ | he
    · rw [he]
      exact ⟨h3, by simp⟩
    · rw [he]
      have hn := execute_statement_noted drv lc index s p idx st1 (h1.trans hcoe)
      rw [h3] at hn
      refine ⟨hn, ?_⟩
      intro x hx
      have hfr := (execute_statement_frame drv lc index s p idx st1).2.2
      rw [hx] at hfr
      simp only [Flow.state] at hfr
      rw [hfr, h2]
  · rw [exec_statement_skip drv lc index s st h]
    exact ⟨rfl, by simp⟩

/-- A statement whose `execute` throws adds at most one log row. -/
theorem exec_statement_error_at_most_one (drv : Driver) (lc : ExecLocals) (index : Nat)
    (s : StatementRun) (st : ExecState) (e : Exn) (hex : s.execute = .error e) :
    (exec_statement drv lc index s st).state.form.log.length ≤ st.form.log.length + 1 := by
  by_cases h : s.runnable
  · obtain ⟨p, idx, st1, _, _, _, h4, hcase⟩ := exec_statement_runnable drv lc index s st h
    rcases hcase with ⟨e1, he⟩ | he
    · rw [he]; exact Nat.le_of_eq h4
    · obtain ⟨st2, hflow, hlog⟩ := execute_statement_failed drv lc index s p idx st1 e hex
      rw [he, hflow]
      split <;> simp only [Flow.state] <;> omega
  · rw [exec_statement_skip drv lc index s st h]
    simp [Flow.state]

/-- With continue-on-error off, the positions noted by the loop are those noted before
and positions of the statements of the loop. -/
theorem exec_statements_failed_mem (drv : Driver) (lc : ExecLocals)
    (stmts : List StatementRun) (index : Nat) (st : ExecState)
    (hcoe : st.form.continue_on_error = false) :
    ∀ j ∈ (exec_statements drv lc index stmts st).state.failed, j ∈ st.failed ∨ index ≤ j := by
  induction stmts generalizing index st with
  | nil => exact fun j hj => Or.inl hj
  | cons s rest ih =>
    have hn := (exec_statement_noted drv lc index s st hcoe).1
    have hc := (exec_statement_settings drv lc index s st).1
    unfold exec_statements
    split
    · next st1 heq =>
      rw [heq] at hn hc
      simp only [Flow.state] at hc
      have hn1 : st1.failed = st.failed := hn
      intro j hj
      rcases ih (index + 1) st1 (hc.trans hcoe) j hj with h | h
      · exact Or.inl (hn1 ▸ h)
      · exact Or.inr (by omega)
    · next other hne =>
      intro j hj
      cases hfl : exec_statement drv lc index s st with
      | next x => exact absurd hfl (hne x)
      | stop x =>
        rw [hfl] at hn hj
        have hn1 : x.failed = st.failed ++ [index] := hn
        simp only [Flow.state] at hj
        rw [hn1] at hj
        rcases List.mem_append.mp hj with h | h
        · exact Or.inl h
        · exact Or.inr (by simp at h; omega)
      | raise x e =>
        rw [hfl] at hn hj
        have hn1 : x.failed = st.failed := hn
        simp only [Flow.state] at hj
        exact Or.inl (hn1 ▸ hj)

/-- With continue-on-error off, once one of the handlers of the statement loop has
caught an exception for the statement at position `k`, the loop has jumped to
`stop_processing_sql_script`: that statement was handed to `execute`, no later one was,
and when each earlier statement has at most one result and the failing one failed in
`execute` or has at most one result, at most one log row per statement up to the
failing one was added. -/
theorem exec_statements_failed (drv : Driver) (lc : ExecLocals) (stmts : List StatementRun)
    (index : Nat) (st : ExecState) (k : Nat)
    (hcoe : st.form.continue_on_error = false)
    (hold_f : ∀ j ∈ st.failed, j < index)
    (hold_e : ∀ j ∈ st.executed, j < index)
    (hk : index ≤ k)
    (hfail : k ∈ (exec_statements drv lc index stmts st).state.failed) :
    ∃ st1, exec_statements drv lc index stmts st = .stop st1 ∧
      k ∈ st1.executed ∧ (∀ j ∈ st1.executed, j ≤ k) ∧
      ((∀ j sj, j < k - index → stmts.get? j = some sj → sj.single_result) →
        (∀ sk, stmts.get? (k - index) = some sk →
          (∃ e, sk.execute = .error e) ∨ sk.single_result) →
        st1.form.log.length ≤ st.form.log.length + (k - index + 1)) := by
  induction stmts generalizing index st with
  | nil =>
    unfold exec_statements at hfail
    exact absurd (hold_f k hfail) (by omega)
  | cons s0 rest ih =>
    obtain ⟨hn, hstop⟩ := exec_statement_noted drv lc index s0 st hcoe
    have hmem := exec_statement_executed_mem drv lc index s0 st
    obtain ⟨hc0, _, _⟩ := exec_statement_settings drv lc index s0 st
    cases hfl : exec_statement drv lc index s0 st with
    | next st2 =>
      rw [hfl] at hn hmem hc0
      simp only [Flow.state] at hmem hc0
      have hn1 : st2.failed = st.failed := hn
      have hfail2 : k ∈ (exec_statements drv lc (index + 1) rest st2).state.failed := by
        unfold exec_statements at hfail
        rw [hfl] at hfail
        exact hfail
      have hlt : index < k := by
        rcases exec_statements_failed_mem drv lc rest (index + 1) st2 (hc0.trans hcoe) k hfail2
          with h | h
        · rw [hn1] at h
          exact absurd (hold_f k h) (by omega)
        · omega
      have hold_f2 : ∀ j ∈ st2.failed, j < index + 1 := by
        intro j hj
        rw [hn1] at hj
        exact Nat.lt_succ_of_lt (hold_f j hj)
      have hold_e2 : ∀ j ∈ st2.executed, j < index + 1 := by
        intro j hj
        rcases hmem j hj with h | h
        · exact Nat.lt_succ_of_lt (hold_e j h)
        · omega
      obtain ⟨st1, hflow, hin, hle, hlog⟩ := ih (index + 1) st2 (hc0.trans hcoe) hold_f2 hold_e2
        (by omega) hfail2
      refine ⟨st1, ?_, hin, hle, ?_⟩
      · unfold exec_statements
        rw [hfl]
        exact hflow
      · intro hsingle hlast
        have hidx : k - index = (k - (index + 1)) + 1 := by omega
        have h0 : s0.single_result := hsingle 0 s0 (by omega) rfl
        have hstep := exec_statement_at_most_one drv lc index s0 st h0
        rw [hfl] at hstep
        simp only [Flow.state] at hstep
        have hrest := hlog
          (fun j sj hj hgetj => hsingle (j + 1) sj (by omega) (by simpa using hgetj))
          (fun sk hgetk => hlast sk (by rw [hidx]; simpa using hgetk))
        omega
    | stop st2 =>
      rw [hfl] at hn hmem
      simp only [Flow.state] at hmem
      have hn1 : st2.failed = st.failed ++ [index] := hn
      have hex2 := hstop st2 hfl
      have hflow : exec_statements drv lc index (s0 :: rest) st = .stop st2 := by
        unfold exec_statements
        rw [hfl]
      rw [hflow] at hfail
      simp only [Flow.state] at hfail
      rw [hn1] at hfail
      have hkeq : k = index := by
        rcases List.mem_append.mp hfail with h | h
        · exact absurd (hold_f k h) (by omega)
        · simpa using h
      subst hkeq
      refine ⟨st2, hflow, ?_, ?_, ?_⟩
      · rw [hex2]; simp
      · intro j hj
        rcases hmem j hj with h | h
        · exact Nat.le_of_lt (hold_e j h)
        · exact Nat.le_of_eq h
      · intro _ hlast
        rcases hlast s0 (by simp) with ⟨e, hex⟩ | hsingle
        · have := exec_statement_error_at_most_one drv lc k s0 st e hex
          rw [hfl] at this
          simp only [Flow.state] at this
          omega
        · have := exec_statement_at_most_one drv lc k s0 st hsingle
          rw [hfl] at this
          simp only [Flow.state] at this
          omega
    | raise st2 e =>
      rw [hfl] at hn
      have hn1 : st2.failed = st.failed := hn
      have hflow : exec_statements drv lc index (s0 :: rest) st = .raise st2 e := by
        unfold exec_statements
        rw [hfl]
      rw [hflow] at hfail
      simp only [Flow.state] at hfail
      rw [hn1] at hfail
      exact absurd (hold_f k hfail) (by omega)

/-- With continue-on-error on, the loop never jumps to `stop_processing_sql_script`, and
unless an exception leaves it, it hands every statement that is not skipped to
`execute`; when each statement has at most one result it adds one log row per
statement. -/
theorem exec_statements_continue (drv : Driver) (lc : ExecLocals) (stmts : List StatementRun)
    (index : Nat) (st : ExecState)
    (hcoe : st.form.continue_on_error = true)
    (hall : ∀ s ∈ stmts, s.runnable ∧ s.single_result) :
    (∀ x, exec_statements drv lc index stmts st ≠ .stop x) ∧
    ∀ st1, exec_statements drv lc index stmts st = .next st1 →
      st1.executed = st.executed ++ List.range' index stmts.length ∧
      st1.form.log.length = st.form.log.length + stmts.length := by
  induction stmts generalizing index st with
  | nil =>
    unfold exec_statements
    refine ⟨by simp, ?_⟩
    intro st1 h
    cases h
    simp
  | cons s rest ih =>
    obtain ⟨hrun, hsingle⟩ := hall s (List.mem_cons_self _ _)
    have hns := exec_statement_no_stop drv lc index s st hcoe
    have hc := (exec_statement_settings drv lc index s st).1
    have hlog := exec_statement_single drv lc index s st hrun hsingle
    obtain ⟨p, idx, st0, _, h2, _, hcase⟩ := exec_statement_runnable_failed drv lc index s st hrun
    cases hfl : exec_statement drv lc index s st with
    | next st2 =>
      rw [hfl] at hc hlog
      simp only [Flow.state] at hc hlog
      have hexec : st2.executed = st.executed ++ [index] := by
        rcases hcase with ⟨e, he⟩ | he
        · rw [he] at hfl; cases hfl
        · have hfr := (execute_statement_frame drv lc index s p idx st0).2.2
          rw [← he, hfl] at hfr
          simp only [Flow.state] at hfr
          rw [hfr, h2]
      obtain ⟨g1, g2⟩ := ih (index + 1) st2 (hc.trans hcoe)
        (fun x hx => hall x (List.mem_cons_of_mem _ hx))
      have hstep : exec_statements drv lc index (s :: rest) st =
          exec_statements drv lc (index + 1) rest st2 := by
        conv => lhs; unfold exec_statements
        rw [hfl]
      rw [hstep]
      refine ⟨g1, ?_⟩
      intro st1 h
      obtain ⟨e1, e2⟩ := g2 st1 h
      refine ⟨?_, ?_⟩
      · rw [e1, hexec]
        simp [List.range'_succ]
      · rw [e2, hlog]
        simp only [List.length_cons]
        omega
    | stop st2 => exact absurd hfl (hns st2)
    | raise st2 e =>
      have hstep : exec_statements drv lc index (s :: rest) st = .raise st2 e := by
        unfold exec_statements
        rw [hfl]
      rw [hstep]
      exact ⟨by simp, by simp⟩

theorem refresh_sql_mode_state (fl : Flow ExecState) : (refresh_sql_mode fl).state = fl.state := by
  cases fl with
  | next st =>
    cases hr : (cache_sql_mode st.form).raised <;> cases hm : st.ran_set_sql_mode <;>
      simp [refresh_sql_mode, hr, hm, Flow.state]
  | stop st =>
    cases hr : (cache_sql_mode st.form).raised <;> cases hm : st.ran_set_sql_mode <;>
      simp [refresh_sql_mode, hr, hm, Flow.state]
  | raise st e => rfl

/-- When the refresh of the cached SQL mode does not throw, the flow goes on as it came. -/
theorem refresh_sql_mode_quiet (fl : Flow ExecState) (h : (refresh_sql_mode fl).raised = none) :
    refresh_sql_mode fl = fl := by
  cases fl with
  | next st =>
    cases hr : (cache_sql_mode st.form).raised <;> cases hm : st.ran_set_sql_mode <;>
      simp_all [refresh_sql_mode, Flow.raised]
  | stop st =>
    cases hr : (cache_sql_mode st.form).raised <;> cases hm : st.ran_set_sql_mode <;>
      simp_all [refresh_sql_mode, Flow.raised]
  | raise st e => rfl

@[simp] theorem leave_scope_failed (b : Bool) (st : ExecState) :
    (leave_scope b st).failed = st.failed := rfl

/-- What the end of an invocation keeps of the guarded part: the traces and the status
text, and the log when no exception left the guarded part. -/
theorem do_exec_sql_of_try (drv : Driver) (form : SqlEditorForm) (script : Script)
    (editor : Option Nat) (flags : ExecFlags) (result_list : RecordsetsRef) :
    (do_exec_sql drv form script editor flags result_list).state.executed =
      (do_exec_sql_try drv
        { form with status_text := "Executing Query...", exec_sql_error_count := 0 }
        script editor flags result_list).state.executed ∧
    (do_exec_sql drv form script editor flags result_list).state.failed =
      (do_exec_sql_try drv
        { form with status_text := "Executing Query...", exec_sql_error_count := 0 }
        script editor flags result_list).state.failed ∧
    (do_exec_sql drv form script editor flags result_list).state.form.status_text =
      (do_exec_sql_try drv
        { form with status_text := "Executing Query...", exec_sql_error_count := 0 }
        script editor flags result_list).state.form.status_text ∧
    ((do_exec_sql_try drv
        { form with status_text := "Executing Query...", exec_sql_error_count := 0 }
        script editor flags result_list).raised = none →
      (do_exec_sql drv form script editor flags result_list).state.form.log =
        (do_exec_sql_try drv
          { form with status_text := "Executing Query...", exec_sql_error_count := 0 }
          script editor flags result_list).state.form.log) := by
  cases hfl : do_exec_sql_try drv
    { form with status_text := "Executing Query...", exec_sql_error_count := 0 }
    script editor flags result_list <;>
  · unfold do_exec_sql
    simp [hfl, do_exec_sql_catch, Flow.state, Flow.raised]

/-- With continue-on-error off, a statement whose `execute` throws after it was handed
to `execute` is noted in the trace `failed`. -/
theorem exec_statement_error_noted (drv : Driver) (lc : ExecLocals) (index : Nat)
    (s : StatementRun) (st : ExecState) (e : Exn) (hex : s.execute = .error e)
    (hran : index ∈ (exec_statement drv lc index s st).state.executed)
    (hnew : index ∉ st.executed) :
    index ∈ (exec_statement drv lc index s st).state.failed := by
  by_cases h : s.runnable
  · obtain ⟨p, idx, st1, _, h2, _, hcase⟩ := exec_statement_runnable_failed drv lc index s st h
    rcases hcase with ⟨e1, he⟩ | he
    · rw [he] at hran
      exact absurd (h2 ▸ hran) hnew
    · rw [he]
      unfold execute_statement
      simp only [hex]
      split <;> simp [Flow.state]
  · rw [exec_statement_skip drv lc index s st h] at hran
    exact absurd hran hnew

theorem exec_statements_error_noted (drv : Driver) (lc : ExecLocals)
    (stmts : List StatementRun) (index : Nat) (st : ExecState) (k : Nat) (s : StatementRun)
    (e : Exn)
    (hcoe : st.form.continue_on_error = false)
    (hold : ∀ j ∈ st.executed, j < index)
    (hk : index ≤ k)
    (hget : stmts.get? (k - index) = some s)
    (hex : s.execute = .error e)
    (hran : k ∈ (exec_statements drv lc index stmts st).state.executed) :
    k ∈ (exec_statements drv lc index stmts st).state.failed := by
  induction stmts generalizing index st with
  | nil => simp at hget
  | cons s0 rest ih =>
    obtain ⟨st1, hflow, _, _⟩ := exec_statements_stop drv lc (s0 :: rest) index st k s e hcoe
      hold hk hget hex hran
    have hmem := exec_statement_executed_mem drv lc index s0 st
    obtain ⟨hc0, _, _⟩ := exec_statement_settings drv lc index s0 st
    have hnew : index ∉ st.executed := fun hin => absurd (hold index hin) (lt_irrefl _)
    cases hfl : exec_statement drv lc index s0 st with
    | next st2 =>
      rw [hfl] at hmem hc0
      simp only [Flow.state] at hmem hc0
      have hstep : exec_statements drv lc index (s0 :: rest) st =
          exec_statements drv lc (index + 1) rest st2 := by
        conv => lhs; unfold exec_statements
        rw [hfl]
      rw [hstep] at hran ⊢
      have hold2 : ∀ j ∈ st2.executed, j < index + 1 := by
        intro j hj
        rcases hmem j hj with h | h
        · exact Nat.lt_succ_of_lt (hold j h)
        · omega
      rcases Nat.eq_or_lt_of_le hk with heq | hlt
      · subst heq
        have hs : s0 = s := by simpa using hget
        subst hs
        rcases (exec_statements_settings drv lc rest (index + 1) st2).2.2 index hran with
          h | ⟨hlo, _⟩
        · obtain ⟨st3, hfl3, _⟩ := exec_statement_failed drv lc index s0 st e hex
            (by rw [hfl]; exact h) hnew
          rw [hcoe] at hfl3
          rw [hfl] at hfl3
          simp at hfl3
        · omega
      · have hidx : k - index = (k - (index + 1)) + 1 := by omega
        have hget1 : rest.get? (k - (index + 1)) = some s := by
          rw [hidx] at hget
          simpa using hget
        exact ih (index + 1) st2 (hc0.trans hcoe) hold2 (by omega) hget1 hran
    | stop st2 =>
      have hstep : exec_statements drv lc index (s0 :: rest) st = .stop st2 := by
        unfold exec_statements
        rw [hfl]
      rw [hstep] at hran ⊢
      simp only [Flow.state] at hran ⊢
      have hkeq : k = index := by
        rcases hmem k (by rw [hfl]; exact hran) with h | h
        · exact absurd (hold k h) (by omega)
        · exact h
      subst hkeq
      have hs : s0 = s := by simpa using hget
      subst hs
      have := exec_statement_error_noted drv lc k s0 st e hex (by rw [hfl]; exact hran) hnew
      rw [hfl] at this
      exact this
    | raise st2 e2 =>
      have hstep : exec_statements drv lc index (s0 :: rest) st = .raise st2 e2 := by
        unfold exec_statements
        rw [hfl]
      rw [hstep] at hflow
      cases hflow

@[simp] theorem report_status_failed (fl : Flow ExecState) :
    (report_status fl).state.failed = fl.state.failed := by
  cases fl <;> rfl

/-- With continue-on-error off, a statement of the script that was handed to `execute`,
which threw, is noted in the trace `failed` of the invocation. -/
theorem do_exec_sql_execute_error_noted (drv : Driver) (form : SqlEditorForm)
    (script : Script) (editor : Option Nat) (flags : ExecFlags) (result_list : RecordsetsRef)
    (k : Nat) (s : StatementRun) (e : Exn)
    (hcoe : form.continue_on_error = false)
    (hget : script.statements.get? k = some s)
    (hex : s.execute = .error e)
    (hran : k ∈ (do_exec_sql drv form script editor flags result_list).state.executed) :
    k ∈ (do_exec_sql drv form script editor flags result_list).state.failed := by
  obtain ⟨hE, hF, _, _⟩ := do_exec_sql_of_try drv form script editor flags result_list
  rw [hE] at hran
  rw [hF]
  rcases do_exec_sql_try_spec drv
      { form with status_text := "Executing Query...", exec_sql_error_count := 0 }
      script editor flags result_list with
    ⟨st, e1, htry, hexec, _, _, _, _⟩ | ⟨lc, st0, hexec, _, hc, _, _, htry⟩
  · rw [htry] at hran
    simp [Flow.state, hexec] at hran
  · rw [htry, refresh_sql_mode_state] at hran ⊢
    rw [report_status_executed] at hran
    rw [report_status_failed]
    exact exec_statements_error_noted drv lc script.statements 0 st0 k s e (hc.trans hcoe)
      (by rw [hexec]; simp) (Nat.zero_le k) (by simpa using hget) hex hran

/-- C1 (amended). Continue-on-error is off and one of the two handlers of the statement
loop has caught an exception for the statement at position `k` of the script (the
(k+1)-th statement): its `execute` threw, or a `getResultSet` call made for it threw a
driver error.  Then that statement was handed to `execute`, no statement after it was,
and the call ends with the status "Query interrupted".  And the call has added at most
k+1 log rows provided each earlier statement has at most one result, the failing
statement failed in `execute` or has at most one result itself (a statement gets a
further row for every further result set), and no exception leaves the guarded part
(once the loop has stopped, the refresh of the cached SQL mode is what can still
throw, and an exception caught at the invocation boundary adds a row of its own). -/
theorem do_exec_sql_stops_at_failed_statement (drv : Driver) (form : SqlEditorForm)
    (script : Script) (editor : Option Nat) (flags : ExecFlags) (result_list : RecordsetsRef)
    (k : Nat)
    (hcoe : form.continue_on_error = false)
    (hfail : k ∈ (do_exec_sql drv form script editor flags result_list).state.failed) :
    k ∈ (do_exec_sql drv form script editor flags result_list).state.executed ∧
    (∀ j ∈ (do_exec_sql drv form script editor flags result_list).state.executed, j ≤ k) ∧
    (do_exec_sql drv form script editor flags result_list).state.form.status_text =
      "Query interrupted" ∧
    ((∀ j sj, j < k → script.statements.get? j = some sj → sj.single_result) →
      (∀ sk, script.statements.get? k = some sk →
        (∃ e, sk.execute = .error e) ∨ sk.single_result) →
      (do_exec_sql_try drv
        { form with status_text := "Executing Query...", exec_sql_error_count := 0 }
        script editor flags result_list).raised = none →
      (do_exec_sql drv form script editor flags result_list).state.form.log.length ≤
        form.log.length + (k + 1)) := by
  obtain ⟨hE, hF, hS, hL⟩ := do_exec_sql_of_try drv form script editor flags result_list
  rw [hF] at hfail
  rw [hE, hS]
  rcases do_exec_sql_try_spec drv
      { form with status_text := "Executing Query...", exec_sql_error_count := 0 }
      script editor flags result_list with
    ⟨st, e1, htry, _, _, _, _, hfailed⟩ | ⟨lc, st0, hexec, hlog, hc, _, hf0, htry⟩
  · rw [htry] at hfail
    simp [Flow.state, hfailed] at hfail
  · rw [htry, refresh_sql_mode_state, report_status_failed] at hfail
    obtain ⟨st1, hflow, hin, hle, hbound⟩ := exec_statements_failed drv lc script.statements 0
      st0 k (hc.trans hcoe) (by rw [hf0]; simp) (by rw [hexec]; simp) (Nat.zero_le k) hfail
    rw [hflow] at htry
    have hstate : (do_exec_sql_try drv
        { form with status_text := "Executing Query...", exec_sql_error_count := 0 }
        script editor flags result_list).state =
        { st1 with form := { st1.form with status_text := "Query interrupted" } } := by
      rw [htry, refresh_sql_mode_state]
      rfl
    refine ⟨?_, ?_, ?_, ?_⟩
    · rw [hstate]; exact hin
    · rw [hstate]; exact hle
    · rw [hstate]
    · intro hsingle hlast hquiet
      rw [hL hquiet, hstate]
      have := hbound (by simpa using hsingle) (by simpa using hlast)
      simp only [Nat.sub_zero] at this
      rw [hlog] at this
      exact this

/-- C2 (amended). Continue-on-error is on, no statement of the script is empty, each has
at most one result, and no exception leaves the guarded part of the call (the
exceptions thrown by `execute` and the driver errors of `getResultSet` are caught per
statement; any other exception ends the invocation with an error row of its own).
Then the call runs the script to its end: every statement is handed to `execute`, in
order, whichever of them fail, the final status is "Query Completed", and the call has
added exactly one log row per statement, N rows for N statements. -/
theorem do_exec_sql_one_row_per_statement (drv : Driver) (form : SqlEditorForm)
    (script : Script) (editor : Option Nat) (flags : ExecFlags) (result_list : RecordsetsRef)
    (hcoe : form.continue_on_error = true)
    (hall : ∀ s ∈ script.statements, s.runnable ∧ s.single_result)
    (hcaught : (do_exec_sql_try drv
      { form with status_text := "Executing Query...", exec_sql_error_count := 0 }
      script editor flags result_list).raised = none) :
    (do_exec_sql drv form script editor flags result_list).state.form.status_text =
      "Query Completed" ∧
    (do_exec_sql drv form script editor flags result_list).state.executed =
      List.range script.statements.length ∧
    (do_exec_sql drv form script editor flags result_list).state.form.log.length =
      form.log.length + script.statements.length := by
  obtain ⟨hE, _, hS, hL⟩ := do_exec_sql_of_try drv form script editor flags result_list
  rw [hE, hS, hL hcaught]
  rcases do_exec_sql_try_spec drv
      { form with status_text := "Executing Query...", exec_sql_error_count := 0 }
      script editor flags result_list with
    ⟨st, e1, htry, _, _, _, _, _⟩ | ⟨lc, st0, hexec, hlog, hc, _, _, htry⟩
  · rw [htry] at hcaught
    simp [Flow.raised] at hcaught
  · rw [htry] at hcaught
    rw [htry, refresh_sql_mode_quiet _ hcaught]
    rw [refresh_sql_mode_quiet _ hcaught] at hcaught
    obtain ⟨hns, hnext⟩ := exec_statements_continue drv lc script.statements 0 st0
      (hc.trans hcoe) hall
    cases hfl : exec_statements drv lc 0 script.statements st0 with
    | next st1 =>
      obtain ⟨e1, e2⟩ := hnext st1 hfl
      refine ⟨rfl, ?_, ?_⟩
      · simp only [report_status, Flow.state]
        rw [e1, hexec, List.range_eq_range']
        simp
      · simp only [report_status, Flow.state]
        rw [e2, hlog]
    | stop st1 => exact absurd hfl (hns st1)
    | raise st1 e =>
      rw [hfl] at hcaught
      simp [report_status, Flow.raised] at hcaught

/-! ## Statement execution: the claims -/

/-- C1 fails as stated at three runs with continue-on-error off.  In the script
`CALL p(); SELEC 1` the second statement (k = 2) is rejected by the server and nothing
runs after it, but the call has added three log rows, because the call before it
returned two result sets and each got a row.  In the script `CALL p()` the fetch of the
second result set of the only statement (k = 1) fails: the call ends interrupted with
two rows.  And in the script `SET @@sql_mode = 'ANSI'; SELEC 1`, run on a connection
that is lost when the SQL mode is read again, the second statement (k = 2) is rejected
and the failing refresh of the cached SQL mode adds a third row. -/
theorem do_exec_sql_stop_log_counterexample :
    idle_form.continue_on_error = false ∧ mode_query_fails_form.continue_on_error = false ∧
    ((do_exec_sql working_driver idle_form script_call_then_failure none no_flags
        (.detached [])).state.executed = [0, 1] ∧
      (do_exec_sql working_driver idle_form script_call_then_failure none no_flags
        (.detached [])).state.failed = [1] ∧
      (do_exec_sql working_driver idle_form script_call_then_failure none no_flags
        (.detached [])).state.form.log =
        [⟨.OKMsg, "CALL p()", "1 row(s) returned"⟩, ⟨.OKMsg, "CALL p()", "1 row(s) returned"⟩,
         ⟨.ErrorMsg, "SELEC 1", "Error Code: 1064. syntax error"⟩]) ∧
    ((do_exec_sql working_driver idle_form ⟨8, [call_second_fetch_fails]⟩ none no_flags
        (.detached [])).state.executed = [0] ∧
      (do_exec_sql working_driver idle_form ⟨8, [call_second_fetch_fails]⟩ none no_flags
        (.detached [])).state.failed = [0] ∧
      (do_exec_sql working_driver idle_form ⟨8, [call_second_fetch_fails]⟩ none no_flags
        (.detached [])).state.form.log =
        [⟨.OKMsg, "CALL p()", "1 row(s) returned"⟩,
         ⟨.ErrorMsg, "CALL p()", "Error Code: 1317. Query execution was interrupted"⟩]) ∧
    ((do_exec_sql working_driver mode_query_fails_form script_mode_then_failure none no_flags
        (.detached [])).state.executed = [0, 1] ∧
      (do_exec_sql working_driver mode_query_fails_form script_mode_then_failure none no_flags
        (.detached [])).state.failed = [1] ∧
      (do_exec_sql working_driver mode_query_fails_form script_mode_then_failure none no_flags
        (.detached [])).state.form.log =
        [⟨.OKMsg, "SET @@sql_mode = 'ANSI'", "0 row(s) affected"⟩,
         ⟨.ErrorMsg, "SELEC 1", "Error Code: 1064. syntax error"⟩,
         ⟨.ErrorMsg, "SELEC 1", "Error Code: 2013\nLost connection to MySQL server"⟩]) := by
  refine ⟨rfl, rfl, ?_, ?_, ?_⟩ <;> decide

/-- A plain statement has at most one result. -/
theorem plain_statement_single (text : String) : (plain_statement text).single_result := by
  constructor
  · intro r hr
    simp [plain_statement] at hr
  · intro first count h hfirst
    simp [plain_statement] at h
    rw [hfirst] at h
    exact absurd h.1 (by decide)

/-- A statement whose only result set cannot be fetched has at most one result. -/
theorem select_fetch_fails_single : select_fetch_fails.single_result := by
  constructor
  · intro r hr
    simp [select_fetch_fails, plain_statement] at hr
  · intro first count h _
    simp [select_fetch_fails, plain_statement] at h
    omega

/-- Witness for C1 (amended): continue-on-error is off.  In a script of three statements
the second is rejected in `execute`; in a script of two statements the fetch of the
result of the second fails.  Both runs stop there, with two log rows. -/
theorem do_exec_sql_stops_at_failed_statement_witness :
    ((do_exec_sql working_driver idle_form script_with_failure none no_flags
        (.detached [])).state.executed = [0, 1] ∧
      (do_exec_sql working_driver idle_form script_with_failure none no_flags
        (.detached [])).state.form.status_text = "Query interrupted" ∧
      (do_exec_sql working_driver idle_form script_with_failure none no_flags
        (.detached [])).state.form.log.length ≤ idle_form.log.length + (1 + 1)) ∧
    ((do_exec_sql working_driver idle_form script_with_fetch_failure none no_flags
        (.detached [])).state.failed = [1] ∧
      (do_exec_sql working_driver idle_form script_with_fetch_failure none no_flags
        (.detached [])).state.form.status_text = "Query interrupted" ∧
      (do_exec_sql working_driver idle_form script_with_fetch_failure none no_flags
        (.detached [])).state.form.log.length ≤ idle_form.log.length + (1 + 1)) :=
  have h1 := do_exec_sql_stops_at_failed_statement working_driver idle_form
    script_with_failure none no_flags (.detached []) 1 rfl
    (do_exec_sql_execute_error_noted working_driver idle_form script_with_failure none no_flags
      (.detached []) 1 failing_statement (.SQLException 1064 "syntax error") rfl rfl rfl
      (by decide))
  have h2 := do_exec_sql_stops_at_failed_statement working_driver idle_form
    script_with_fetch_failure none no_flags (.detached []) 1 rfl (by decide)
  ⟨⟨by decide, h1.2.2.1, h1.2.2.2
      (by
        intro j sj hj hget
        have hj0 : j = 0 := by omega
        subst hj0
        have : sj = plain_statement "INSERT INTO t VALUES (1)" := by
          simpa [script_with_failure] using hget.symm
        subst this
        exact plain_statement_single _)
      (by
        intro sk hget
        have : sk = failing_statement := by simpa [script_with_failure] using hget.symm
        subst this
        exact Or.inl ⟨_, rfl⟩)
      (by decide)⟩,
    ⟨by decide, h2.2.2.1, h2.2.2.2
      (by
        intro j sj hj hget
        have hj0 : j = 0 := by omega
        subst hj0
        have : sj = plain_statement "INSERT INTO t VALUES (1)" := by
          simpa [script_with_fetch_failure] using hget.symm
        subst this
        exact plain_statement_single _)
      (by
        intro sk hget
        have : sk = select_fetch_fails := by simpa [script_with_fetch_failure] using hget.symm
        subst this
        exact Or.inr select_fetch_fails_single)
      (by decide)⟩⟩

/-- C2 fails as stated with continue-on-error on, for three scripts of one statement:
a call returning two result sets adds two log rows, a statement range holding only a
comment adds none, and a statement cancelled before it is executed adds two, its own
row and the row of the exception caught at the invocation boundary. -/
theorem do_exec_sql_log_count_counterexample :
    continuing_form.continue_on_error = true ∧
    (script_call.statements.length = 1 ∧
      (do_exec_sql working_driver continuing_form script_call none no_flags
        (.detached [])).state.form.log.length = continuing_form.log.length + 2) ∧
    (script_comment_only.statements.length = 1 ∧
      (do_exec_sql working_driver continuing_form script_comment_only none no_flags
        (.detached [])).state.form.log.length = continuing_form.log.length + 0) ∧
    ((do_exec_sql working_driver continuing_form ⟨18, [cancelled_statement]⟩ none no_flags
        (.detached [])).state.form.log =
        [⟨.BusyMsg, "UPDATE t SET a = 1", "Running..."⟩,
         ⟨.ErrorMsg, "UPDATE t SET a = 1", "Error: " ++ stopped_message⟩]) := by
  decide

/-- Witness for C2 (amended): four statements run with continue-on-error on; the second
is rejected in `execute` and the fetch of the result of the third fails.  All four are
executed and four rows are added. -/
theorem do_exec_sql_one_row_per_statement_witness :
    (do_exec_sql working_driver continuing_form script_with_two_failures none no_flags
      (.detached [])).state.failed = [1, 2] ∧
    (do_exec_sql working_driver continuing_form script_with_two_failures none no_flags
      (.detached [])).state.form.status_text = "Query Completed" ∧
    (do_exec_sql working_driver continuing_form script_with_two_failures none no_flags
      (.detached [])).state.executed = List.range script_with_two_failures.statements.length ∧
    (do_exec_sql working_driver continuing_form script_with_two_failures none no_flags
      (.detached [])).state.form.log.length =
      continuing_form.log.length + script_with_two_failures.statements.length :=
  ⟨by decide,
    do_exec_sql_one_row_per_statement working_driver continuing_form script_with_two_failures
      none no_flags (.detached []) rfl
      (by
        intro s hs
        simp only [script_with_two_failures, List.mem_cons, List.mem_singleton,
          List.not_mem_nil, or_false] at hs
        rcases hs with rfl | rfl | rfl | rfl
        · exact ⟨by decide, plain_statement_single _⟩
        · refine ⟨by decide, ?_, ?_⟩
          · intro r hr; simp [failing_statement, plain_statement] at hr
          · intro first count h; simp [failing_statement, plain_statement] at h
        · exact ⟨by decide, select_fetch_fails_single⟩
        · exact ⟨by decide, plain_statement_single _⟩)
      (by decide)⟩

/-- Changing an editor record without touching its recordsets leaves the recordset
lists of all editors as they were. -/
theorem modify_editor_recordsets (form : SqlEditorForm) (i : Nat)
    (f : EditorInfo → EditorInfo) (hf : ∀ info, (f info).recordsets = info.recordsets) :
    (modify_editor form i f).sql_editors.map (fun info => info.recordsets) =
      form.sql_editors.map (fun info => info.recordsets) := by
  unfold modify_editor
  split
  · next info hget =>
    simp only [List.map_set, hf]
    apply List.ext_getElem?
    intro n
    rw [List.getElem?_set]
    split
    · next hin =>
      subst hin
      have hget1 : form.sql_editors[i]? = some info := by simpa using hget
      split
      · simp [hget1]
      · next hlt =>
        simp only [List.length_map] at hlt
        simp [List.getElem?_eq_none (Nat.le_of_not_lt hlt)]
    · rfl
  · rfl

/-- Every exception of the guarded part is caught. -/
theorem do_exec_sql_catch_none (b : Bool) (fl : Flow ExecState) :
    (do_exec_sql_catch b fl).2 = none := by
  cases fl <;> rfl

/-- C8. A non-retaining execution names a registered editor whose recordset mutex is
held.  Then the guarded part of `do_exec_sql` throws the busy error ("The editor is
busy and cannot execute the query now...") straight from the failed try-lock, before
the connection is touched: no statement is executed, the result list and the
recordset lists of the editors are unchanged, and the error ends the invocation as
one error row of the log (`do_exec_sql` itself reports its failures through the
log). -/
theorem do_exec_sql_busy_editor (drv : Driver) (form : SqlEditorForm) (script : Script) (flags : ExecFlags)
    (result_list : RecordsetsRef) (ed i : Nat) (info : EditorInfo)
    (hret : flags.Retaining = false)
    (hfind : form.sql_editors.findIdx? (fun x => x.editor == ed) = some i)
    (hinfo : form.sql_editors.get? i = some info)
    (hheld : info.recordset_mutex_held = true) :
    (∃ st, do_exec_sql_try drv
        { form with status_text := "Executing Query...", exec_sql_error_count := 0 }
        script (some ed) flags result_list = .raise st (.runtime_error busy_message)) ∧
    (do_exec_sql drv form script (some ed) flags result_list).raised = none ∧
    (do_exec_sql drv form script (some ed) flags result_list).state.executed = [] ∧
    (do_exec_sql drv form script (some ed) flags result_list).state.form.log =
      form.log ++ [⟨.ErrorMsg, "", "Error: " ++ busy_message⟩] ∧
    (do_exec_sql drv form script (some ed) flags result_list).state.result_list = result_list ∧
    (do_exec_sql drv form script (some ed) flags result_list).state.form.sql_editors.map
        (fun x => x.recordsets) = form.sql_editors.map (fun x => x.recordsets) := by
  have htry : do_exec_sql_try drv
      { form with status_text := "Executing Query...", exec_sql_error_count := 0 }
      script (some ed) flags result_list =
      .raise { not_started
          { form with status_text := "Executing Query...", exec_sql_error_count := 0 }
          result_list with rs_sequence := some i } (.runtime_error busy_message) := by
    have hinfo1 : form.sql_editors[i]? = some info := by simpa using hinfo
    unfold do_exec_sql_try close_editor_recordsets
    simp [hret, not_started, hfind, hinfo1, hheld]
  refine ⟨⟨_, htry⟩, do_exec_sql_catch_none _ _, ?_, ?_, ?_, ?_⟩
  · rw [(do_exec_sql_raise drv form script (some ed) flags result_list _ _ htry).1]
    rfl
  · rw [(do_exec_sql_raise drv form script (some ed) flags result_list _ _ htry).2.1]
    rfl
  · unfold do_exec_sql
    simp [htry, do_exec_sql_catch, leave_scope, not_started]
  · unfold do_exec_sql
    simp only [htry, do_exec_sql_catch, leave_scope, not_started]
    have hmap := modify_editor_recordsets
      { form with status_text := "Executing Query...", exec_sql_error_count := 0 } i
      (fun x => { x with busy := false }) (fun _ => rfl)
    cases e : (Exn.runtime_error busy_message) <;> simp_all [CATCH_ANY_EXCEPTION_AND_DISPATCH, add_log_message]

/-- C9. `do_exec_sql` returns normally for every script and every behaviour of the
driver: no exception reaches its caller.  An exception that leaves the guarded part
is turned into a new error row of the log; a driver exception or other
`std::exception` thrown by `execute` is written to the log row of the statement,
and so is a driver exception thrown by `getResultSet`; in both cases the loop goes
on or stops, it does not unwind. -/
theorem do_exec_sql_returns_normally (drv : Driver) (form : SqlEditorForm) (script : Script) (editor : Option Nat)
    (flags : ExecFlags) (result_list : RecordsetsRef)
    (lc : ExecLocals) (index : Nat) (s : StatementRun) (p : Prepared) (idx : Nat)
    (st : ExecState) (sl : StatementLocals) (fv : FetchVars) :
    (do_exec_sql drv form script editor flags result_list).raised = none ∧
    (match do_exec_sql_try drv
        { form with status_text := "Executing Query...", exec_sql_error_count := 0 }
        script editor flags result_list with
      | .raise st1 e =>
        (do_exec_sql drv form script editor flags result_list).state.form.log =
          st1.form.log ++ [dispatched_row st1.statement e]
      | _ => True) ∧
    (match s.execute with
      | .error e =>
        ∃ st1, execute_statement drv lc index s p idx st =
            (if st.form.continue_on_error then Flow.next st1 else Flow.stop st1) ∧
          st1.form.log = st.form.log.set idx
            ⟨.ErrorMsg, p.statement,
              match e with
              | .SQLException code what => statement_error_message code what
              | other => "Error: " ++ other.what⟩
      | .ok _ => True) ∧
    (match fv.result_sets.head?.getD .null with
      | .throws (.SQLException code what) =>
        ∃ st1 fv1, fetch_result_set drv lc sl st fv =
            (if st.form.continue_on_error then Flow.next (st1, fv1) else Flow.stop (st1, fv1)) ∧
          st1.form.log = (claim_log_row st.form sl fv).1.log.set (claim_log_row st.form sl fv).2
            ⟨.ErrorMsg, sl.statement, statement_error_message code what⟩
      | _ => True) := by
  refine ⟨do_exec_sql_catch_none _ _, ?_, ?_, ?_⟩
  · split
    · next st1 e htry =>
      exact (do_exec_sql_raise drv form script editor flags result_list st1 e htry).2.1
    · trivial
  · split
    · next e hex =>
      unfold execute_statement
      simp only [hex]
      exact ⟨_, rfl, rfl⟩
    · trivial
  · split
    · next code what hget =>
      unfold fetch_result_set
      simp only [hget]
      refine ⟨{ st with
          form := set_log_message (claim_log_row st.form sl fv).1
            (claim_log_row st.form sl fv).2 .ErrorMsg (statement_error_message code what)
            sl.statement
          failed := st.failed ++ [sl.index] },
        { fv with log_message_index := (claim_log_row st.form sl fv).2, reuse_log_msg := false,
                  result_sets := fv.result_sets.tail }, ?_, rfl⟩
      simp
    · trivial

theorem modify_editor_connections (form : SqlEditorForm) (i : Nat)
    (f : EditorInfo → EditorInfo) : SameConnections form (modify_editor form i f) := by
  unfold modify_editor; split <;> exact ⟨rfl, rfl, rfl, rfl, rfl⟩

theorem same_connections_trans {a b c : SqlEditorForm} (h1 : SameConnections a b)
    (h2 : SameConnections b c) : SameConnections a c :=
  ⟨h2.1.trans h1.1, h2.2.1.trans h1.2.1, h2.2.2.1.trans h1.2.2.1,
    h2.2.2.2.1.trans h1.2.2.2.1, h2.2.2.2.2.trans h1.2.2.2.2⟩

theorem result_list_put_connections (st : ExecState) (l : List Recordset) :
    SameConnections st.form (st.result_list_put l).form := by
  unfold ExecState.result_list_put
  split
  · exact modify_editor_connections _ _ _
  · exact ⟨rfl, rfl, rfl, rfl, rfl⟩

theorem close_recordsets_connections (info_index : Nat) (index : Nat) (st : ExecState)
    (recordsets : List Recordset) :
    SameConnections st.form (close_recordsets info_index index st recordsets).1.form := by
  induction index generalizing st recordsets with
  | zero => exact ⟨rfl, rfl, rfl, rfl, rfl⟩
  | succ n ih =>
    unfold close_recordsets
    split
    · exact ih st recordsets
    · split
      · exact ih st _
      · exact same_connections_trans (modify_editor_connections _ _ _) (ih _ _)

theorem close_editor_recordsets_connections (editor : Option Nat) (retaining : Bool)
    (st : ExecState) :
    SameConnections st.form (close_editor_recordsets editor retaining st).state.1.form := by
  unfold close_editor_recordsets
  split
  · exact ⟨rfl, rfl, rfl, rfl, rfl⟩
  · split
    · exact ⟨rfl, rfl, rfl, rfl, rfl⟩
    · split
      · exact ⟨rfl, rfl, rfl, rfl, rfl⟩
      · simp only []
        split
        · exact ⟨rfl, rfl, rfl, rfl, rfl⟩
        · split
          · exact ⟨rfl, rfl, rfl, rfl, rfl⟩
          · next i _ _ _ _ _ =>
            simp only [Flow.state]
            exact same_connections_trans
              (close_recordsets_connections i _ { st with rs_sequence := some i } [])
              (result_list_put_connections _ _)

theorem ensure_valid_usr_connection_raised_congr (drv : Driver) (f g : SqlEditorForm)
    (h : SameConnections f g) :
    (ensure_valid_usr_connection drv g).raised = (ensure_valid_usr_connection drv f).raised := by
  obtain ⟨h1, _, h3, h4, h5⟩ := h
  unfold ensure_valid_usr_connection
  simp only [h1, h3, h4, h5]

theorem close_editor_recordsets_free (form : SqlEditorForm) (editor : Option Nat)
    (flags : ExecFlags) (result_list : RecordsetsRef)
    (hfree : editor_lock_free form editor flags) :
    ∃ st1 lock, close_editor_recordsets editor flags.Retaining (not_started form result_list) =
      .next (st1, lock) := by
  unfold close_editor_recordsets
  split
  · exact ⟨_, _, rfl⟩
  · next ed =>
    split
    · exact ⟨_, _, rfl⟩
    · next hret =>
      split
      · exact ⟨_, _, rfl⟩
      · next i hfind =>
        simp only []
        split
        · exact ⟨_, _, rfl⟩
        · next info hget =>
          have := hfree ed i info rfl (by simpa using hret) hfind hget
          simp [this]

/-- When the validation of the user connection throws, `do_exec_sql` (its editor lock
being free) executes nothing, adds one error row for the exception and returns
normally. -/
theorem do_exec_sql_not_connected (drv : Driver) (form : SqlEditorForm) (script : Script)
    (editor : Option Nat) (flags : ExecFlags) (result_list : RecordsetsRef) (e : Exn)
    (hfree : editor_lock_free form editor flags)
    (hraise : (ensure_valid_usr_connection drv form).raised = some e) :
    (do_exec_sql drv form script editor flags result_list).raised = none ∧
    (do_exec_sql drv form script editor flags result_list).state.executed = [] ∧
    (do_exec_sql drv form script editor flags result_list).state.form.log =
      form.log ++ [dispatched_row "" e] := by
  obtain ⟨st1, lock, hpre⟩ := close_editor_recordsets_free
    { form with status_text := "Executing Query...", exec_sql_error_count := 0 } editor flags
    result_list hfree
  obtain ⟨h1, h2, h3, _⟩ := close_editor_recordsets_frame editor flags.Retaining
    (not_started { form with status_text := "Executing Query...", exec_sql_error_count := 0 }
      result_list)
  have hconn := close_editor_recordsets_connections editor flags.Retaining
    (not_started { form with status_text := "Executing Query...", exec_sql_error_count := 0 }
      result_list)
  rw [hpre] at h1 h2 h3 hconn
  simp only [Flow.state] at h1 h2 h3 hconn
  have hraise1 : (ensure_valid_usr_connection drv st1.form).raised = some e := by
    rw [ensure_valid_usr_connection_raised_congr drv _ _ hconn]
    exact hraise
  have htry : do_exec_sql_try drv
      { form with status_text := "Executing Query...", exec_sql_error_count := 0 }
      script editor flags result_list =
      .raise { st1 with form := (ensure_valid_usr_connection drv st1.form).state } e := by
    unfold do_exec_sql_try
    simp only [hpre, hraise1]
  obtain ⟨g1, g2, _⟩ := do_exec_sql_raise drv form script editor flags result_list _ e htry
  refine ⟨do_exec_sql_catch_none _ _, ?_, ?_⟩
  · rw [g1]; exact h1.2.2
  · rw [g2]
    show st1.form.log ++ [dispatched_row st1.statement e] = _
    rw [h2, h3]
    rfl

/-- C10 fails as stated: the user handle holds a closed connection and autocommit is
off, so `ensure_valid_usr_connection` throws not-connected; yet each of the three
entry points returns normally and the error is recorded as a row of the log. -/
theorem not_connected_logged_counterexample :
    (ensure_valid_usr_connection working_driver (lost_connection_form false "")).raised =
      some (.db_not_connected "DBMS connection is not available") ∧
    ((exec_sql_returning_results working_driver (lost_connection_form false "") false
        script_select_one false).raised = none ∧
      (exec_sql_returning_results working_driver (lost_connection_form false "") false
        script_select_one false).state.form.log =
        [⟨.ErrorMsg, "", "Error: DBMS connection is not available"⟩]) ∧
    ((exec_sql_retaining_editor_contents working_driver (lost_connection_form false "") false
        script_select_one none false).raised = none ∧
      (exec_sql_retaining_editor_contents working_driver (lost_connection_form false "") false
        script_select_one none false).state.form.log =
        [⟨.ErrorMsg, "", "Error: DBMS connection is not available"⟩]) ∧
    ((exec_editor_sql working_driver (lost_connection_form false "") script_select_one 1
        false false true).1.raised = none ∧
      (exec_editor_sql working_driver (lost_connection_form false "") script_select_one 1
        false false true).1.state.form.log =
        [⟨.ErrorMsg, "", "Error: DBMS connection is not available"⟩]) := by
  decide

/-- C10 (amended). The not-connected error reaches the caller of
`exec_sql_retaining_editor_contents` and of `exec_sql_returning_results` when
`connected()` is false: it is thrown before `do_exec_sql` is started, and nothing is
logged or executed.  A not-connected error (or any other exception) thrown by
`ensure_valid_usr_connection` inside `do_exec_sql`, started by any of the three
entry points, does not reach the caller: no statement is executed and the error is
recorded as one error row of the log. -/
theorem not_connected_propagation (drv : Driver) (form : SqlEditorForm) (usr_dbc_conn_mutex_held : Bool)
    (script : Script) (editor : Option Nat) (ed : Nat)
    (dont_add_limit_clause use_non_std_delimiter show_warnings_option : Bool) (e : Exn) :
    (connected form usr_dbc_conn_mutex_held = false →
      exec_sql_retaining_editor_contents drv form usr_dbc_conn_mutex_held script editor
          dont_add_limit_clause =
        ⟨not_started form (entry_recordsets form editor),
          some (.db_not_connected "Not connected")⟩ ∧
      exec_sql_returning_results drv form usr_dbc_conn_mutex_held script dont_add_limit_clause =
        ⟨not_started form (.detached []), some (.db_not_connected "Not connected")⟩) ∧
    (connected form usr_dbc_conn_mutex_held = true →
      (ensure_valid_usr_connection drv form).raised = some e →
      ((exec_sql_retaining_editor_contents drv form usr_dbc_conn_mutex_held script editor
          dont_add_limit_clause).raised = none ∧
        (exec_sql_retaining_editor_contents drv form usr_dbc_conn_mutex_held script editor
          dont_add_limit_clause).state.executed = [] ∧
        (exec_sql_retaining_editor_contents drv form usr_dbc_conn_mutex_held script editor
          dont_add_limit_clause).state.form.log = form.log ++ [dispatched_row "" e]) ∧
      ((exec_sql_returning_results drv form usr_dbc_conn_mutex_held script
          dont_add_limit_clause).raised = none ∧
        (exec_sql_returning_results drv form usr_dbc_conn_mutex_held script
          dont_add_limit_clause).state.executed = [] ∧
        (exec_sql_returning_results drv form usr_dbc_conn_mutex_held script
          dont_add_limit_clause).state.form.log = form.log ++ [dispatched_row "" e])) ∧
    (script.size ≠ 0 →
      editor_lock_free form (some ed)
        ⟨false, use_non_std_delimiter, dont_add_limit_clause, show_warnings_option⟩ →
      (ensure_valid_usr_connection drv form).raised = some e →
      (exec_editor_sql drv form script ed use_non_std_delimiter dont_add_limit_clause
          show_warnings_option).1.raised = none ∧
      (exec_editor_sql drv form script ed use_non_std_delimiter dont_add_limit_clause
          show_warnings_option).1.state.executed = [] ∧
      (exec_editor_sql drv form script ed use_non_std_delimiter dont_add_limit_clause
          show_warnings_option).1.state.form.log = form.log ++ [dispatched_row "" e]) := by
  refine ⟨?_, ?_, ?_⟩
  · intro h
    simp [exec_sql_retaining_editor_contents, exec_sql_returning_results, h]
  · intro h hraise
    constructor
    · simp only [exec_sql_retaining_editor_contents, h, Bool.true_eq_false, ↓reduceIte]
      exact do_exec_sql_not_connected drv form script editor _ _ e
        (fun _ _ _ _ hret => by simp at hret) hraise
    · simp only [exec_sql_returning_results, h, Bool.true_eq_false, ↓reduceIte]
      exact do_exec_sql_not_connected drv form script none _ _ e
        (fun _ _ _ hed => by simp at hed) hraise
  · intro hsize hfree hraise
    simp only [exec_editor_sql, hsize, ↓reduceIte]
    exact do_exec_sql_not_connected drv form script (some ed) _ _ e hfree hraise

/-- Witness for C10 (amended): a session that never connected, and one whose
connection was closed while autocommit was off. -/
theorem not_connected_propagation_witness :
    (exec_sql_returning_results working_driver disconnected_form false script_select_one
        false).raised = some (.db_not_connected "Not connected") ∧
    (exec_sql_returning_results working_driver (lost_connection_form false "") false
        script_select_one false).state.form.log =
      (lost_connection_form false "").log ++
        [dispatched_row "" (.db_not_connected "DBMS connection is not available")] ∧
    (exec_editor_sql working_driver (lost_connection_form false "") script_select_one 1
        false false true).1.state.executed = [] :=
  ⟨congrArg Outcome.raised
      ((not_connected_propagation working_driver disconnected_form false script_select_one none 1 false false true
        (.db_not_connected "DBMS connection is not available")).1 rfl).2,
    ((not_connected_propagation working_driver (lost_connection_form false "") false script_select_one none 1 false
        false true (.db_not_connected "DBMS connection is not available")).2.1 rfl rfl).2.2.2,
    ((not_connected_propagation working_driver (lost_connection_form false "") false script_select_one none 1 false
        false true (.db_not_connected "DBMS connection is not available")).2.2 (by decide)
        (by intro ed i info _ _ hfind; simp [lost_connection_form, idle_form] at hfind)
        rfl).2.1⟩

/-- Witness for C8: an editor whose mutex is held. -/
theorem do_exec_sql_busy_editor_witness :
    (do_exec_sql working_driver busy_editor_form script_select_one (some 1) no_flags
      (.of_editor 0)).raised = none ∧
    (do_exec_sql working_driver busy_editor_form script_select_one (some 1) no_flags
      (.of_editor 0)).state.executed = [] ∧
    (do_exec_sql working_driver busy_editor_form script_select_one (some 1) no_flags
      (.of_editor 0)).state.form.log =
      busy_editor_form.log ++ [⟨.ErrorMsg, "", "Error: " ++ busy_message⟩] ∧
    (do_exec_sql working_driver busy_editor_form script_select_one (some 1) no_flags
      (.of_editor 0)).state.result_list = .of_editor 0 :=
  have h := do_exec_sql_busy_editor working_driver busy_editor_form script_select_one no_flags (.of_editor 0) 1 0
    ⟨1, 2, true, true, [], none⟩ rfl (by decide) rfl rfl
  ⟨h.2.1, h.2.2.1, h.2.2.2.1, h.2.2.2.2.1⟩

/-! ## Closing, notifications and apply: further claims -/

/-- C15. Whatever the value of `interactive`, `can_close_` answers false when the
execution task of the session is busy, and it does so at once: the only effect is the
status text "Cannot close SQL IDE while being busy"; the schema tree is not prepared
for closing, no option is stored, no item is collected, no dialog is shown and no
editor is reviewed. -/
theorem can_close_refuses_when_busy (form : SqlEditorForm) (interactive : Bool)
    (uiform_can_close save_workspace_on_close : Bool) (buffers : List EditorBuffer)
    (dialog_answer : ConfirmSaveAnswer) :
    can_close_ form interactive (some true) uiform_can_close save_workspace_on_close buffers
        dialog_answer =
      (({ form with status_text := "Cannot close SQL IDE while being busy" },
        { prepare_close := false, stored_active_tab := false, dialog_items := [],
          dialog_shown := false, reviewed := [] }), false) := by
  simp [can_close_]

/-- C19 fails as stated: the session is connected (`ping()` answers true) and the
recorded state is "running"; a notification that the server of this session's
connection has stopped schedules a reconnect all the same. -/
theorem reconnect_while_connected_counterexample :
    ping idle_form false none true = .ok true ∧
    (handle_grt_notification idle_form false none true (some 3) "GRNServerStateChanged"
        (some 3) 0).2 = true :=
  ⟨rfl, rfl⟩

/-- C19 (amended). `handle_grt_notification` schedules a reconnect exactly when the
notification is "GRNServerStateChanged", the state it reports differs from the
recorded one, the connection it names is valid and is the connection descriptor of
this session, and, if the reported state is "running", `ping()` answers false.  For a
reported state "possibly stopped" `ping()` is not consulted. -/
theorem reconnect_scheduled_iff (form : SqlEditorForm) (usr_dbc_conn_mutex_held : Bool)
    (createStatement_error : Option Exn) (select_one_ok : Bool) (descriptor : Option Nat)
    (name : String) (conn : Option Nat) (state : Int) :
    (handle_grt_notification form usr_dbc_conn_mutex_held createStatement_error select_one_ok
        descriptor name conn state).2 = true ↔
      name = "GRNServerStateChanged" ∧
      form.last_server_running_state ≠
        (if state ≠ 0 then ServerState.RunningState else ServerState.PossiblyStoppedState) ∧
      (state ≠ 0 →
        ping { form with last_server_running_state := .RunningState } usr_dbc_conn_mutex_held
          createStatement_error select_one_ok = .ok false) ∧
      (∃ c, conn = some c ∧ descriptor = some c) := by
  have hconn : (conn.isSome && conn == descriptor) = true ↔
      ∃ c, conn = some c ∧ descriptor = some c := by
    cases conn with
    | none => simp
    | some a =>
      cases descriptor with
      | none => simp
      | some b =>
        simp only [Option.isSome_some, Bool.true_and, beq_iff_eq, Option.some.injEq]
        constructor
        · intro h
          exact ⟨a, rfl, h.symm⟩
        · rintro ⟨c, h1, h2⟩
          rw [h1, h2]
  unfold handle_grt_notification
  by_cases hname : name = "GRNServerStateChanged"
  · rw [if_pos hname]
    by_cases hstate : state = 0
    · subst hstate
      by_cases hlast : form.last_server_running_state = .PossiblyStoppedState
      · simp [hlast]
      · simp [hlast, hname, hconn]
    · by_cases hlast : form.last_server_running_state = .RunningState
      · simp [hstate, hlast]
      · simp only [hstate, hlast, hname, ne_eq, not_false_eq_true, if_true, true_and,
          forall_true_left]
        cases hp : ping { form with last_server_running_state := .RunningState }
          usr_dbc_conn_mutex_held createStatement_error select_one_ok with
        | error e => simp
        | ok b =>
          cases b
          · simp [hconn]
          · simp
  · rw [if_neg hname]
    simp [hname]

/-- C20, evaluated where it fails: autocommit is off and the user answers Cancel.  The
user was asked and nothing was committed, yet the change script is run: through
`do_apply_changes` when the commit wizard is disabled, through the wizard when it is
enabled. -/
theorem apply_changes_cancel_still_applies :
    (apply_changes_to_recordset working_driver manual_commit_form true .ResultCancel none
        false quiet_apply).2 =
      { asked := true, committed_first := false, wizard_invoked := false,
        do_apply_changes_invoked := true, script_run_autocommit := some false } ∧
    (apply_changes_to_recordset working_driver manual_commit_form true .ResultCancel none
        true quiet_apply).2 =
      { asked := true, committed_first := false, wizard_invoked := true,
        do_apply_changes_invoked := false, script_run_autocommit := some false } := by
  decide

/-! ## Opening the session: theorems -/

/-- What `do_connect` does when its guarded part throws a driver error classified as
"server probably down": a warning row, the mark in `err_ptr`, and a rethrow only when
remote administration is not available. -/
theorem do_connect_server_down (form form1 : SqlEditorForm) (attempt : ConnectAttempt)
    (remote_admin : Bool) (info_error : Option Exn) (code : Int) (what : String)
    (hthrown : do_connect_try form attempt info_error =
      (form1, some (.other (.SQLException code what))))
    (hcode : code = 2002 ∨ code = 2003 ∨ code = 2013) :
    do_connect form attempt remote_admin info_error =
      (({ form1 with
          log := form1.log ++
            [⟨.WarningMsg, "Could not connect, server may not be running.", what⟩]
          exec_sql_error_count := form1.exec_sql_error_count + 1 },
        if remote_admin = false then some (.other (.SQLException code what)) else none),
        ⟨none, false, true⟩) := by
  have h1820 : code ≠ 1820 := by omega
  have hdown : code = 2013 ∨ code = 2003 ∨ code = 2002 := by omega
  unfold do_connect
  rw [hthrown]
  simp only [h1820, hdown, if_false, if_true]
  cases remote_admin <;> simp [add_log_message, DbSqlEditorLog.add_message]

/-- C16, evaluated where it fails: no server is listening (driver error 2003) and remote
administration is not available for the connection.  `do_connect` logs the warning,
marks the server as probably down in `err_ptr`, records no authentication error and
rethrows; `connect` makes one attempt and asks for no password, but its handler
rethrows at `if (!error_ptr.auth_error) throw;`, so that the test of
`server_probably_down` with its `return false` is not reached and the driver error
reaches the caller of `connect` as an exception. -/
theorem connect_server_down_propagates :
    (do_connect idle_form (unreachable_try false).attempt false none).2 =
      ⟨none, false, true⟩ ∧
    (connect idle_form false none always_answer [unreachable_try false]).1.attempts = 1 ∧
    (connect idle_form false none always_answer [unreachable_try false]).1.prompts = 0 ∧
    (connect idle_form false none always_answer [unreachable_try false]).1.form.log =
      [⟨.WarningMsg, "Could not connect, server may not be running.",
        "Can't connect to MySQL server"⟩] ∧
    (connect idle_form false none always_answer [unreachable_try false]).2 =
      .raised (.SQLException 2003 "Can't connect to MySQL server") := by
  decide

/-- What `connect` does, as the code is, when a connection attempt fails with a driver
error classified as server-likely-down (2002, 2003 or 2013): this attempt is the last
one and no password is asked for; the failure is logged as a warning; when remote
administration is available for the connection `connect` returns normally (true, or
false when cancellation has been requested), and otherwise the driver error reaches
the caller of `connect` as an exception.  In neither case is the `return false` behind
the test of `server_probably_down` reached. -/
theorem connect_server_down (stored_password : Option String)
    (request_password : Nat → Except Exn String) (t : ConnectTry) (rest : List ConnectTry)
    (st : ConnectState) (form1 : SqlEditorForm) (code : Int) (what : String)
    (hthrown : do_connect_try st.form t.attempt t.info_error =
      (form1, some (.other (.SQLException code what))))
    (hcode : code = 2002 ∨ code = 2003 ∨ code = 2013) :
    (connect_loop stored_password request_password (t :: rest) st).1.attempts =
        st.attempts + 1 ∧
    (connect_loop stored_password request_password (t :: rest) st).1.prompts = st.prompts ∧
    (connect_loop stored_password request_password (t :: rest) st).1.form.log =
      form1.log ++ [⟨.WarningMsg, "Could not connect, server may not be running.", what⟩] ∧
    (connect_loop stored_password request_password (t :: rest) st).2 =
      (if t.remote_admin then
        .returned (!(st.cancel_connect || t.cancel_requested))
      else .raised (.SQLException code what)) := by
  unfold connect_loop
  rw [do_connect_server_down st.form form1 t.attempt t.remote_admin t.info_error code what
    hthrown hcode]
  cases hra : t.remote_admin
  · simp [ConnectThrown.exn]
  · cases hc : (st.cancel_connect || t.cancel_requested) <;> simp [hc, cancelled]

/-- An instance of the above: no server is listening and remote administration is
available; `connect` returns true after one attempt. -/
theorem connect_server_down_remote_admin :
    (connect idle_form false none always_answer [unreachable_try true]).1.attempts = 1 ∧
    (connect idle_form false none always_answer [unreachable_try true]).1.prompts = 0 ∧
    (connect idle_form false none always_answer [unreachable_try true]).2 = .returned true := by
  have h := connect_server_down none always_answer (unreachable_try true) []
    { form := idle_form, cancel_connect := false, current_method := .NoPassword,
      password := none, attempts := 0, prompts := 0, closed := false }
    (do_connect_try idle_form (unreachable_try true).attempt none).1 2003
    "Can't connect to MySQL server" rfl (by decide)
  exact ⟨h.1, h.2.1, h.2.2.2⟩

/-- Once the stored password has been tried, a refused attempt answered at the prompt
leads to another attempt with `current_method` unchanged: `k` refused attempts in a
row are all made, each followed by a prompt, and a further attempt is started. -/
theorem connect_loop_keychain_refused (stored_password : Option String) (k : Nat) :
    ∀ st : ConnectState, st.current_method = .KeychainPassword → st.cancel_connect = false →
      (connect_loop stored_password always_answer (List.replicate k refused_try) st).2 =
          .pending ∧
      (connect_loop stored_password always_answer (List.replicate k refused_try) st).1.attempts =
          st.attempts + k ∧
      (connect_loop stored_password always_answer (List.replicate k refused_try) st).1.prompts =
          st.prompts + k := by
  induction k with
  | zero => intro st _ _; simp [connect_loop]
  | succ k ih =>
    intro st hm hc
    have hstep : connect_loop stored_password always_answer
        (List.replicate (k + 1) refused_try) st =
        connect_loop stored_password always_answer (List.replicate k refused_try)
          { st with
            form := (do_connect st.form refused_try.attempt false none).1.1
            attempts := st.attempts + 1
            cancel_connect := false
            prompts := st.prompts + 1
            password := some "secret" } := by
      rw [List.replicate_succ]
      simp [connect_loop, do_connect, do_connect_try, refused_try, next_password, hm, hc,
        always_answer]
    rw [hstep]
    obtain ⟨h1, h2, h3⟩ := ih
      { st with
        form := (do_connect st.form refused_try.attempt false none).1.1
        attempts := st.attempts + 1
        cancel_connect := false
        prompts := st.prompts + 1
        password := some "secret" } hm rfl
    refine ⟨h1, ?_, ?_⟩
    · rw [h2]; simp only []; omega
    · rw [h3]; simp only []; omega

/-- C17, evaluated where it fails: a stored password is found, every attempt is refused
for a wrong password and every prompt is answered.  After the attempt without
password and the one with the stored password, `n` further attempts with requested
passwords are all made and refused, `n` prompts have been shown and `connect` starts
yet another attempt: it neither returns nor rethrows, whatever `n`.  Without a stored
password the interactive attempt is the second one and its failure is rethrown. -/
theorem connect_keeps_prompting (form : SqlEditorForm) (n : Nat) :
    (connect form false (some "stored") always_answer
        (List.replicate (n + 2) refused_try)).2 = .pending ∧
    (connect form false (some "stored") always_answer
        (List.replicate (n + 2) refused_try)).1.attempts = n + 2 ∧
    (connect form false (some "stored") always_answer
        (List.replicate (n + 2) refused_try)).1.prompts = n + 1 ∧
    (connect form false none always_answer (List.replicate (n + 2) refused_try)).2 =
      .raised (.runtime_error "Access denied for user") ∧
    (connect form false none always_answer (List.replicate (n + 2) refused_try)).1.attempts =
      2 := by
  have hkey := connect_loop_keychain_refused (some "stored") (n + 1)
    { form := (do_connect form refused_try.attempt false none).1.1, cancel_connect := false,
      current_method := .KeychainPassword, password := some "stored", attempts := 1,
      prompts := 0, closed := false } rfl rfl
  have hstored : connect form false (some "stored") always_answer
      (List.replicate (n + 2) refused_try) =
      connect_loop (some "stored") always_answer (List.replicate (n + 1) refused_try)
        { form := (do_connect form refused_try.attempt false none).1.1, cancel_connect := false,
          current_method := .KeychainPassword, password := some "stored", attempts := 1,
          prompts := 0, closed := false } := by
    rw [List.replicate_succ]
    simp [connect, connect_loop, do_connect, do_connect_try, refused_try, next_password]
  have hnone : connect form false none always_answer (List.replicate (n + 2) refused_try) =
      ({ form := (do_connect (do_connect form refused_try.attempt false none).1.1
                    refused_try.attempt false none).1.1,
         cancel_connect := false, current_method := .InteractivePassword,
         password := some "secret", attempts := 2, prompts := 1, closed := false },
        .raised (.runtime_error "Access denied for user")) := by
    rw [List.replicate_succ, List.replicate_succ]
    simp [connect, connect_loop, do_connect, do_connect_try, refused_try, next_password,
      always_answer, ConnectThrown.exn]
  rw [hstored, hnone]
  obtain ⟨h1, h2, h3⟩ := hkey
  refine ⟨h1, ?_, ?_, rfl, rfl⟩
  · rw [h2]; simp only []; omega
  · rw [h3]; simp only []; omega

/-- C18. Cancellation has been requested by the time a connection attempt is back, and
the attempt succeeded or failed with an authentication error.  Then `connect` calls
`close()` and returns false at once: the attempt is the last one and no password is
looked up or asked for.  A server-unavailable failure (driver error 2002, 2003 or
2013) without a cancellation never ends that way: `connect` then returns true or
throws the driver error. -/
theorem connect_cancelled (stored_password : Option String)
    (request_password : Nat → Except Exn String) (t : ConnectTry) (rest : List ConnectTry)
    (st : ConnectState) (form1 : SqlEditorForm) (thrown : Option ConnectThrown)
    (hcancel : (st.cancel_connect || t.cancel_requested) = true)
    (hattempt : do_connect_try st.form t.attempt t.info_error = (form1, thrown))
    (hthrown : thrown = none ∨ ∃ what, thrown = some (.AuthenticationError what)) :
    connect_loop stored_password request_password (t :: rest) st =
      ({ st with form := form1, attempts := st.attempts + 1, cancel_connect := true,
                 closed := true }, .returned false) ∧
    ∀ (t2 : ConnectTry) (rest2 : List ConnectTry) (st2 : ConnectState) (form2 : SqlEditorForm)
      (code : Int) (what : String),
      do_connect_try st2.form t2.attempt t2.info_error =
        (form2, some (.other (.SQLException code what))) →
      (code = 2002 ∨ code = 2003 ∨ code = 2013) →
      (st2.cancel_connect || t2.cancel_requested) = false →
      (connect_loop stored_password request_password (t2 :: rest2) st2).2 =
          .returned true ∨
        (connect_loop stored_password request_password (t2 :: rest2) st2).2 =
          .raised (.SQLException code what) := by
  constructor
  · have hdo : do_connect st.form t.attempt t.remote_admin t.info_error =
        ((form1, thrown), ⟨thrown.bind (fun x => match x with
            | .AuthenticationError what => some what
            | .other _ => none), false, false⟩) := by
      unfold do_connect
      rw [hattempt]
      rcases hthrown with h | ⟨what, h⟩ <;> subst h <;> rfl
    unfold connect_loop
    rw [hdo]
    rcases hthrown with h | ⟨what, h⟩ <;> subst h <;> simp [hcancel, cancelled]
  · intro t2 rest2 st2 form2 code what h2 hcode hc
    unfold connect_loop
    rw [do_connect_server_down st2.form form2 t2.attempt t2.remote_admin t2.info_error code
      what h2 hcode]
    cases hra : t2.remote_admin <;> simp [hc, ConnectThrown.exn]

/-- Witness for C18: the user cancels while the first attempt is being refused for a
wrong password. -/
theorem connect_cancelled_witness :
    (connect idle_form false (some "stored") always_answer
        [{ refused_try with cancel_requested := true }, refused_try]).2 = .returned false ∧
    (connect idle_form false (some "stored") always_answer
        [{ refused_try with cancel_requested := true }, refused_try]).1.attempts = 1 ∧
    (connect idle_form false (some "stored") always_answer
        [{ refused_try with cancel_requested := true }, refused_try]).1.closed = true := by
  have h := (connect_cancelled (some "stored") always_answer
    { refused_try with cancel_requested := true } [refused_try]
    { form := idle_form, cancel_connect := false, current_method := .NoPassword,
      password := none, attempts := 0, prompts := 0, closed := false }
    (do_connect_try idle_form refused_try.attempt none).1
    (some (.AuthenticationError "Access denied for user")) rfl rfl
    (Or.inr ⟨"Access denied for user", rfl⟩)).1
  unfold connect
  rw [h]
  exact ⟨rfl, rfl, rfl⟩

/-! ## Populating a storage: theorems -/

/-- C13. A storage with a table name is populated: the user handle holds a connection,
a result set is at hand, and the lookup of the best row identifier, made through the
auxiliary connection, returns no rows.  Then after `do_unserialize`, whether it
returns or the fetch loop throws, the storage is read-only, its reason says that the
table has no unique row identifier, and `_pkey_columns` holds what it held before: no
column has been recorded. -/
theorem do_unserialize_without_row_identifier (storage : Recordset_cdbc_storage)
    (column_names : List String) (dbms_conn aux_dbms_conn : Dbc_connection_handler)
    (c aux : Connection) (u : Unserialize)
    (htable : storage.table_name.isEmpty = false)
    (hconn : dbms_conn.ref = some c) (haux : aux_dbms_conn.ref = some aux)
    (hrs : u.has_result_set storage)
    (hnone : u.best_row_identifier = .ok []) :
    (do_unserialize storage column_names (some dbms_conn) (some aux_dbms_conn)
        u).state.storage.readonly = true ∧
    (do_unserialize storage column_names (some dbms_conn) (some aux_dbms_conn)
        u).state.storage.readonly_reason =
      "The table has no unique row identifier (primary key or a NOT NULL unique index)" ∧
    (do_unserialize storage column_names (some dbms_conn) (some aux_dbms_conn)
        u).state.storage.pkey_columns = storage.pkey_columns := by
  have hrs1 : (if u.dbc_resultset = true then (Except.ok true : Except Exn Bool)
      else if storage.reloadable = false then
        .error (.runtime_error
          "Recordset can't be reloaded, original statement must be reexecuted instead")
      else u.reexecute) = .ok true := by
    rcases hrs with h | ⟨h1, h2⟩
    · simp [h]
    · by_cases hd : u.dbc_resultset = true
      · simp [hd]
      · simp [hd, h1, h2]
  have hpk : determine_pkey_columns { storage with valid := true, gather_field_info := false }
      (column_names ++ u.column_labels.drop column_names.length) (some aux_dbms_conn)
      u.best_row_identifier =
      .ok ({ storage with valid := true, gather_field_info := false, readonly := true,
                          readonly_reason := no_row_identifier_reason },
        column_names ++ u.column_labels.drop column_names.length, 0) := by
    simp [determine_pkey_columns, htable, haux, hnone]
  unfold do_unserialize
  simp only [Option.bind, hconn, hrs1, hpk]
  split <;> simp [no_row_identifier_reason, remap_pkey_columns]

/-- Witness for C13: `SELECT first_name FROM actor` on a table without row identifier. -/
theorem do_unserialize_without_row_identifier_witness :
    (do_unserialize actor_storage [] (some connected_handler) (some connected_handler)
        first_names_without_identifier).state.storage.readonly = true ∧
    (do_unserialize actor_storage [] (some connected_handler) (some connected_handler)
        first_names_without_identifier).state.storage.readonly_reason =
      "The table has no unique row identifier (primary key or a NOT NULL unique index)" ∧
    (do_unserialize actor_storage [] (some connected_handler) (some connected_handler)
        first_names_without_identifier).state.storage.pkey_columns = [] :=
  do_unserialize_without_row_identifier actor_storage [] connected_handler connected_handler
    open_connection open_connection first_names_without_identifier (by decide) rfl rfl
    (Or.inl rfl) rfl

/-- C14, evaluated where it fails: the table `actor` has the row identifier `actor_id`,
but the statement `SELECT first_name FROM actor` does not select it.  The population
succeeds, no identifier column is captured (`_pkey_columns` stays empty), and the
storage is not flagged read-only. -/
theorem do_unserialize_identifier_not_selected :
    (do_unserialize actor_storage [] (some connected_handler) (some connected_handler)
        first_names_of_actor).raised = none ∧
    (do_unserialize actor_storage [] (some connected_handler) (some connected_handler)
        first_names_of_actor).state.storage.valid = true ∧
    (do_unserialize actor_storage [] (some connected_handler) (some connected_handler)
        first_names_of_actor).state.storage.pkey_columns = [] ∧
    (do_unserialize actor_storage [] (some connected_handler) (some connected_handler)
        first_names_of_actor).state.storage.readonly = false := by
  decide

/-! ## Result buffers of a single SELECT: theorems -/

/-- Writing back the element found at a position leaves a list as it is. -/
theorem set_same {α : Type} : ∀ (l : List α) (i : Nat) (a : α), l[i]? = some a → l.set i a = l
  | [], _, _, _ => rfl
  | x :: xs, 0, a, h => by
    simp only [List.getElem?_cons_zero, Option.some.injEq] at h
    simp [h]
  | x :: xs, i + 1, a, h => by
    simp only [List.getElem?_cons_succ] at h
    simp [set_same xs i a h]

/-- `modify_editor` at the position of a registered editor. -/
theorem modify_editor_at (form : SqlEditorForm) (i : Nat) (f : EditorInfo → EditorInfo)
    (info : EditorInfo) (hget : form.sql_editors[i]? = some info) :
    modify_editor form i f = { form with sql_editors := form.sql_editors.set i (f info) } := by
  simp [modify_editor, hget]

/-- The closing loop touches the session only in the recordset list and the active
result of the editor it works on. -/
theorem close_recordsets_shape (i : Nat) (n : Nat) :
    ∀ (st : ExecState) (acc : List Recordset) (info : EditorInfo),
      st.form.sql_editors[i]? = some info →
      ∃ R A, (close_recordsets i n st acc).1 =
        { st with form := { st.form with
            sql_editors := st.form.sql_editors.set i
              { info with recordsets := R, active_result := A } } } := by
  induction n with
  | zero =>
    intro st acc info hget
    refine ⟨info.recordsets, info.active_result, ?_⟩
    simp [close_recordsets, set_same _ _ _ hget]
  | succ n ih =>
    intro st acc info hget
    unfold close_recordsets
    split
    · exact ih st acc info hget
    · next current _ =>
      split
      · exact ih st _ info hget
      · have hlt : i < st.form.sql_editors.length := by
          by_contra hge
          rw [List.getElem?_eq_none (Nat.le_of_not_lt hge)] at hget
          exact absurd hget (by simp)
        have step : ∀ f : EditorInfo → EditorInfo,
            (∀ e : EditorInfo, ∃ R0 A0, f e = { e with recordsets := R0, active_result := A0 }) →
            ∃ R A, (close_recordsets i n { st with form := modify_editor st.form i f } acc).1 =
              { st with form := { st.form with
                  sql_editors := st.form.sql_editors.set i
                    { info with recordsets := R, active_result := A } } } := by
          intro f hf
          obtain ⟨R0, A0, he⟩ := hf info
          rw [modify_editor_at st.form i f info hget, he]
          obtain ⟨R, A, h⟩ := ih
            { st with form := { st.form with
                sql_editors := st.form.sql_editors.set i
                  { info with recordsets := R0, active_result := A0 } } } acc
            { info with recordsets := R0, active_result := A0 }
            (by simp [hlt])
          refine ⟨R, A, ?_⟩
          rw [h]
          simp [List.set_set]
        simp only []
        apply step
        intro e
        split
        · exact ⟨_, _, rfl⟩
        · exact ⟨e.recordsets, e.active_result, rfl⟩

/-- Replacing an element by one on which the predicate agrees does not move the first
match. -/
theorem findIdx_set_same {α : Type} (p : α → Bool) :
    ∀ (l : List α) (i : Nat) (a x : α), l[i]? = some a → p x = p a →
      (l.set i x).findIdx? p = l.findIdx? p
  | [], _, _, _, _, _ => rfl
  | y :: ys, 0, a, x, h, hp => by
    simp only [List.getElem?_cons_zero, Option.some.injEq] at h
    subst h
    simp [List.findIdx?_cons, hp]
  | y :: ys, i + 1, a, x, h, hp => by
    simp only [List.getElem?_cons_succ] at h
    simp [List.findIdx?_cons, findIdx_set_same p ys i a x h hp]

/-- For a registered editor with a free mutex, closing its previous results succeeds and
changes only the recordset list and the active result of that editor. -/
theorem close_editor_recordsets_shape (ed i : Nat) (st : ExecState) (info : EditorInfo)
    (hfind : st.form.sql_editors.findIdx? (fun x => x.editor == ed) = some i)
    (hget : st.form.sql_editors[i]? = some info)
    (hfree : info.recordset_mutex_held = false)
    (hlist : st.result_list = .of_editor i) :
    ∃ kept A, close_editor_recordsets (some ed) false st =
      .next ({ st with
          rs_sequence := some i
          form := { st.form with
            sql_editors := st.form.sql_editors.set i
              { info with recordsets := kept, active_result := A } } }, true) := by
  have hlt : i < st.form.sql_editors.length := by
    by_contra hge
    rw [List.getElem?_eq_none (Nat.le_of_not_lt hge)] at hget
    exact absurd hget (by simp)
  obtain ⟨R, A, h⟩ := close_recordsets_shape i
    ({ st with rs_sequence := some i } : ExecState).result_list_get.length
    { st with rs_sequence := some i } [] info hget
  refine ⟨(close_recordsets i
    ({ st with rs_sequence := some i } : ExecState).result_list_get.length
    { st with rs_sequence := some i } []).2, A, ?_⟩
  unfold close_editor_recordsets
  simp only [hfind, Bool.false_eq_true, if_false, List.get?_eq_getElem?, hget, hfree]
  rw [h]
  simp [ExecState.result_list_put, hlist, modify_editor, hlt, List.set_set, hfree]
/-- The value of the character of a decimal digit is the digit. -/
theorem digit_value_digitChar (d : Nat) (h : d < 10) : digit_value (Nat.digitChar d) = d := by
  interval_cases d <;> rfl

/-- Reading back the digits that `Nat.toDigitsCore` writes in front of `ds`. -/
theorem digits_value_toDigitsCore (fuel : Nat) :
    ∀ (n : Nat) (ds : List Char), n < fuel →
      digits_value (Nat.toDigitsCore 10 fuel n ds) 0 = digits_value ds n := by
  induction fuel with
  | zero => intro n ds h; omega
  | succ fuel ih =>
    intro n ds h
    unfold Nat.toDigitsCore
    simp only []
    split
    · next h0 =>
      have hn : n % 10 = n := by omega
      have hd := digit_value_digitChar (n % 10) (Nat.mod_lt _ (by decide))
      simp only [digits_value, List.foldl_cons, hd, Nat.mul_zero, Nat.zero_add]
      rw [hn]
    · next h0 =>
      rw [ih (n / 10) _ (by omega)]
      simp only [digits_value, List.foldl_cons,
        digit_value_digitChar (n % 10) (Nat.mod_lt _ (by decide))]
      congr 1
      omega

/-- Decimal numerals of different numbers differ. -/
theorem toString_nat_injective (a b : Nat) (h : toString a = toString b) : a = b := by
  have h1 : Nat.toDigits 10 a = Nat.toDigits 10 b := by
    have := congrArg String.data h
    simpa [toString, Nat.repr] using this
  have ha := digits_value_toDigitsCore (a + 1) a [] (by omega)
  have hb := digits_value_toDigitsCore (b + 1) b [] (by omega)
  unfold Nat.toDigits at h1
  rw [h1, hb] at ha
  simpa [digits_value] using ha.symm

/-- Captions built from one name and different sequence numbers differ. -/
theorem caption_injective (name : String) (a b : Nat)
    (h : name ++ " " ++ toString a = name ++ " " ++ toString b) : a = b := by
  apply toString_nat_injective
  have := congrArg String.data h
  simp only [String.data_append, List.append_cancel_left_eq] at this
  exact String.ext this
/-- One non-retaining execution of a single SELECT with one result set on a registered
editor, in a session with open connections: the buffer is appended to the list of the
editor, captioned with the next value of the counter of the editor, and the session
is ready for the next execution. -/
theorem do_exec_sql_select_editor (drv : Driver) (form : SqlEditorForm) (script : Script)
    (s : StatementRun) (rows : Nat) (flags : ExecFlags) (ed i : Nat) (info : EditorInfo)
    (c_usr c_aux : Connection)
    (hscript : script.statements = [s])
    (hs : s.select_with_one_result rows)
    (hflags : flags.Retaining = false)
    (hfind : form.sql_editors.findIdx? (fun x => x.editor == ed) = some i)
    (hget : form.sql_editors[i]? = some info)
    (hfree : info.recordset_mutex_held = false)
    (husr : form.usr_dbc_conn.ref = some c_usr) (husr_open : c_usr.closed = false)
    (haux : form.aux_dbc_conn.ref = some c_aux) (haux_open : c_aux.closed = false)
    (hstop : form.usr_dbc_conn.is_stop_query_requested = false) :
    ∃ info1 kept rs st,
      do_exec_sql drv form script (some ed) flags (.of_editor i) = ⟨st, none⟩ ∧
      st.form.sql_editors[i]? = some info1 ∧
      info1.recordsets = kept ++ [rs] ∧
      info1.rs_sequence = info.rs_sequence + 1 ∧
      info1.recordset_mutex_held = false ∧
      st.form.sql_editors.findIdx? (fun x => x.editor == ed) = some i ∧
      rs.key = form.next_recordset_key ∧
      st.form.next_recordset_key = form.next_recordset_key + 1 ∧
      rs.caption =
        (if (s.edit_target.getD ("", "")).2.isEmpty then "Result"
          else (s.edit_target.getD ("", "")).2) ++ " " ++ toString (info.rs_sequence + 1) ∧
      st.form.usr_dbc_conn = form.usr_dbc_conn ∧ st.form.aux_dbc_conn = form.aux_dbc_conn := by
  obtain ⟨kept, A, hclose⟩ := close_editor_recordsets_shape ed i
    (not_started { form with status_text := "Executing Query...", exec_sql_error_count := 0 }
      (.of_editor i)) info hfind hget hfree rfl
  have hlt : i < form.sql_editors.length := by
    by_contra hge
    rw [List.getElem?_eq_none (Nat.le_of_not_lt hge)] at hget
    exact absurd hget (by simp)
  obtain ⟨h1, h2, h3, h4, h5, h6, h7, h8⟩ := hs
  unfold do_exec_sql do_exec_sql_try
  simp only [hflags]
  rw [hclose]
  clear hclose
  obtain ⟨size, statements⟩ := script
  simp only [] at hscript
  subst hscript
  obtain ⟨usr, aux, lss, ps, pl, coe, irq, ec, log, history, editors, status, key, o1, o2, o3,
    cfi, cps⟩ := form
  simp only [] at haux hstop husr hget hfind hlt
  obtain ⟨uref, uauto, uschema, uid, ustop⟩ := usr
  simp only [] at hstop husr
  subst hstop husr
  cases h9 : (o1 = 0 || decide (size ≤ o1)) <;> cases cps <;>
  simp [not_started, do_exec_sql_catch,
    ensure_valid_usr_connection, ensure_valid_aux_connection, ensure_valid_dbc_connection,
    husr_open, haux, haux_open, loop_locals, enter_loop, exec_statements, report_status,
    refresh_sql_mode, cache_sql_mode, Recordset_data_storage.unserialize, h9,
    leave_scope, query_ps_statistics,
    exec_statement, h1, h2, h4, h5, log_to_history, observe_stop_flag,
    execute_statement, h6, after_execute, log_update_count, note_executed, fetch_result_sets,
    h3, fetch_substatements, h8, fetch_more_results, fetch_result_set, h7, claim_log_row,
    adopt_result_set, add_log_message, set_log_message, DbSqlEditorLog.add_message,
    DbSqlEditorLog.set_message, ExecState.next_sequence, ExecState.push_back,
    ExecState.result_list_put, ExecState.result_list_get, prepare_statement, modify_editor,
    hlt, List.set_set] <;>
  refine ⟨kept, _, rfl, hfree, ?_, rfl, rfl⟩ <;>
  refine (findIdx_set_same _ editors i info _ hget ?_).trans hfind <;>
  rfl
/-- One execution of a single SELECT with one result set without editor, on a result
list of its own: the buffer is appended to that list and captioned with the number 1,
and it carries the storage the statement loop prepared. -/
theorem do_exec_sql_select_detached (drv : Driver) (form : SqlEditorForm) (script : Script)
    (s : StatementRun) (rows : Nat) (flags : ExecFlags) (l : List Recordset)
    (c_usr c_aux : Connection)
    (hscript : script.statements = [s])
    (hs : s.select_with_one_result rows)
    (husr : form.usr_dbc_conn.ref = some c_usr) (husr_open : c_usr.closed = false)
    (haux : form.aux_dbc_conn.ref = some c_aux) (haux_open : c_aux.closed = false)
    (hstop : form.usr_dbc_conn.is_stop_query_requested = false) :
    ∃ rs st, do_exec_sql drv form script none flags (.detached l) = ⟨st, none⟩ ∧
      st.result_list = .detached (l ++ [rs]) ∧
      rs.key = form.next_recordset_key ∧
      st.form.next_recordset_key = form.next_recordset_key + 1 ∧
      rs.caption =
        (if (s.edit_target.getD ("", "")).2.isEmpty then "Result"
          else (s.edit_target.getD ("", "")).2) ++ " " ++ toString 1 ∧
      (s.edit_target = none →
        rs.readonly = true ∧ rs.readonly_reason = not_editable_reason ∧
        rs.data_storage.readonly = true ∧ rs.data_storage.readonly_reason = not_editable_reason) ∧
      st.form.usr_dbc_conn = form.usr_dbc_conn ∧ st.form.aux_dbc_conn = form.aux_dbc_conn := by
  obtain ⟨h1, h2, h3, h4, h5, h6, h7, h8⟩ := hs
  obtain ⟨size, statements⟩ := script
  simp only [] at hscript
  subst hscript
  obtain ⟨usr, aux, lss, ps, pl, coe, irq, ec, log, history, editors, status, key, o1, o2, o3,
    cfi, cps⟩ := form
  simp only [] at haux hstop husr
  obtain ⟨uref, uauto, uschema, uid, ustop⟩ := usr
  simp only [] at hstop husr
  subst hstop husr
  cases h9 : (o1 = 0 || decide (size ≤ o1)) <;> cases cps <;>
  simp [do_exec_sql, do_exec_sql_try, close_editor_recordsets, not_started, do_exec_sql_catch,
    ensure_valid_usr_connection, ensure_valid_aux_connection, ensure_valid_dbc_connection,
    husr_open, haux, haux_open, loop_locals, enter_loop, exec_statements, report_status,
    refresh_sql_mode, cache_sql_mode, Recordset_data_storage.unserialize, h9,
    leave_scope, query_ps_statistics,
    exec_statement, h1, h2, h4, h5, log_to_history, observe_stop_flag,
    execute_statement, h6, after_execute, log_update_count, note_executed, fetch_result_sets,
    h3, fetch_substatements, h8, fetch_more_results, fetch_result_set, h7, claim_log_row,
    adopt_result_set, add_log_message, set_log_message, DbSqlEditorLog.add_message,
    DbSqlEditorLog.set_message, ExecState.next_sequence, ExecState.push_back,
    ExecState.result_list_put, ExecState.result_list_get, prepare_statement] <;>
  intro htarget <;>
  simp [htarget, Recordset_data_storage.readonly_reason]

/-- C11 fails as stated: `SELECT 1` is run twice in the same session through
`exec_sql_returning_results`.  Each run creates one buffer; the two buffers differ
(their identities are 0 and 1), but both are captioned "Result 1": without an editor
the sequence counter is the local `default_seq`, which starts at 0 on every call. -/
theorem successive_select_captions_counterexample :
    (exec_sql_returning_results working_driver idle_form false script_select_one
        false).state.result_list_get.map (fun rs => (rs.key, rs.caption)) =
      [(0, "Result 1")] ∧
    (exec_sql_returning_results working_driver
        (exec_sql_returning_results working_driver idle_form false script_select_one
          false).state.form
        false script_select_one false).state.result_list_get.map
          (fun rs => (rs.key, rs.caption)) =
      [(1, "Result 1")] := by
  decide

/-- C11 (amended). Two successive executions through `exec_editor_sql` on a registered
editor whose recordset mutex is free, in a session with open connections, each of a
single SELECT without editable table that produces one result set (as `SELECT 1`
does).  Each execution appends one buffer to the list of the editor; the two buffers
have different identities and different captions: with `c` the sequence counter of the
editor before the first execution, they are captioned "Result c+1" and "Result c+2". -/
theorem successive_select_captions (drv : Driver) (form : SqlEditorForm)
    (script1 script2 : Script) (s1 s2 : StatementRun) (rows1 rows2 : Nat) (ed i : Nat)
    (info : EditorInfo) (c_usr c_aux : Connection)
    (delimiter1 limit1 warnings1 delimiter2 limit2 warnings2 : Bool)
    (hscript1 : script1.statements = [s1]) (hsize1 : script1.size ≠ 0)
    (hscript2 : script2.statements = [s2]) (hsize2 : script2.size ≠ 0)
    (hs1 : s1.select_with_one_result rows1) (htarget1 : s1.edit_target = none)
    (hs2 : s2.select_with_one_result rows2) (htarget2 : s2.edit_target = none)
    (hfind : form.sql_editors.findIdx? (fun x => x.editor == ed) = some i)
    (hget : form.sql_editors[i]? = some info)
    (hfree : info.recordset_mutex_held = false)
    (husr : form.usr_dbc_conn.ref = some c_usr) (husr_open : c_usr.closed = false)
    (haux : form.aux_dbc_conn.ref = some c_aux) (haux_open : c_aux.closed = false)
    (hstop : form.usr_dbc_conn.is_stop_query_requested = false) :
    ∃ info1 info2 kept1 kept2 b1 b2,
      (exec_editor_sql drv form script1 ed delimiter1 limit1
          warnings1).1.state.form.sql_editors[i]? = some info1 ∧
      info1.recordsets = kept1 ++ [b1] ∧
      (exec_editor_sql drv
          (exec_editor_sql drv form script1 ed delimiter1 limit1 warnings1).1.state.form
          script2 ed delimiter2 limit2 warnings2).1.state.form.sql_editors[i]? = some info2 ∧
      info2.recordsets = kept2 ++ [b2] ∧
      b1.caption = "Result " ++ toString (info.rs_sequence + 1) ∧
      b2.caption = "Result " ++ toString (info.rs_sequence + 2) ∧
      b1.key ≠ b2.key ∧ b1.caption ≠ b2.caption := by
  have hentry : ∀ f : SqlEditorForm,
      f.sql_editors.findIdx? (fun x => x.editor == ed) = some i →
      entry_recordsets f (some ed) = .of_editor i := by
    intro f hf
    simp [entry_recordsets, hf]
  obtain ⟨info1, kept1, b1, st1, hrun1, hget1, hrec1, hseq1, hfree1, hfind1, hkey1, hnext1,
    hcap1, husr1, haux1⟩ :=
    do_exec_sql_select_editor drv form script1 s1 rows1
      { Retaining := false, NeedNonStdDelimiter := delimiter1, DontAddLimitClause := limit1,
        ShowWarnings := warnings1 } ed i info c_usr c_aux hscript1 hs1 rfl hfind hget hfree
      husr husr_open haux haux_open hstop
  have hfirst : (exec_editor_sql drv form script1 ed delimiter1 limit1 warnings1).1 =
      ⟨st1, none⟩ := by
    simp only [exec_editor_sql, hsize1, if_false, hentry form hfind, hrun1]
  obtain ⟨info2, kept2, b2, st2, hrun2, hget2, hrec2, hseq2, _, _, hkey2, _, hcap2, _, _⟩ :=
    do_exec_sql_select_editor drv st1.form script2 s2 rows2
      { Retaining := false, NeedNonStdDelimiter := delimiter2, DontAddLimitClause := limit2,
        ShowWarnings := warnings2 } ed i info1 c_usr c_aux hscript2 hs2 rfl hfind1 hget1 hfree1
      (by rw [husr1]; exact husr) husr_open (by rw [haux1]; exact haux) haux_open
      (by rw [husr1]; exact hstop)
  have hsecond : (exec_editor_sql drv st1.form script2 ed delimiter2 limit2 warnings2).1 =
      ⟨st2, none⟩ := by
    simp only [exec_editor_sql, hsize2, if_false, hentry st1.form hfind1, hrun2]
  rw [hfirst]
  simp only []
  rw [hsecond]
  simp only [htarget1, Option.getD_none, String.isEmpty] at hcap1
  simp only [htarget2, Option.getD_none, String.isEmpty, hseq1] at hcap2
  have hcap1 : b1.caption = "Result " ++ toString (info.rs_sequence + 1) := by
    rw [hcap1, String.append_assoc]; rfl
  have hcap2 : b2.caption = "Result " ++ toString (info.rs_sequence + 2) := by
    rw [hcap2, String.append_assoc]; rfl
  refine ⟨info1, info2, kept1, kept2, b1, b2, hget1, hrec1, hget2, hrec2, hcap1, hcap2, ?_, ?_⟩
  · rw [hkey1, hkey2, hnext1]; omega
  · rw [hcap1, hcap2]
    intro h
    have := caption_injective "Result" _ _ (by simpa [String.append_assoc] using h)
    omega

/-- Witness for C11 (amended): `SELECT 1` run twice from a new editor gives "Result 1"
and "Result 2". -/
theorem successive_select_captions_witness :
    ∃ info1 info2 kept1 kept2 b1 b2,
      (exec_editor_sql working_driver one_editor_form script_select_one 1 false false
          true).1.state.form.sql_editors[0]? = some info1 ∧
      info1.recordsets = kept1 ++ [b1] ∧
      (exec_editor_sql working_driver
          (exec_editor_sql working_driver one_editor_form script_select_one 1 false false
            true).1.state.form
          script_select_one 1 false false true).1.state.form.sql_editors[0]? = some info2 ∧
      info2.recordsets = kept2 ++ [b2] ∧
      b1.caption = "Result " ++ toString (0 + 1) ∧
      b2.caption = "Result " ++ toString (0 + 2) ∧
      b1.key ≠ b2.key ∧ b1.caption ≠ b2.caption :=
  successive_select_captions working_driver one_editor_form script_select_one script_select_one
    _ _ 1 1 1 0
    { editor := 1, rs_sequence := 0, busy := false, recordset_mutex_held := false,
      recordsets := [], active_result := none }
    open_connection open_connection false false true false false true
    rfl (by decide) rfl (by decide) ⟨rfl, rfl, rfl, rfl, rfl, rfl, rfl, rfl⟩ rfl
    ⟨rfl, rfl, rfl, rfl, rfl, rfl, rfl, rfl⟩ rfl rfl rfl rfl rfl rfl rfl rfl rfl

/-- C12. A single (non-compound) SELECT for which `parseSelectStatementForEdit` names no
editable table.  Whatever the options, the statement loop calls the setter
`readonly_reason` on the storage it prepares for the statement, with the reason
"Statement must be a SELECT for columns of a single table with a primary key for its
results to be editable.", which marks the storage read-only.  And when `do_exec_sql`
runs the statement in a session with open connections and it produces one result set,
the buffer appended to the result list is the one populated from that storage: its
`is_readonly()` is true, its reason is the one above, and every edit attempt on it is
rejected. -/
theorem select_without_edit_target_readonly (drv : Driver) (form : SqlEditorForm)
    (script : Script) (s : StatementRun) (rows : Nat) (flags : ExecFlags)
    (l : List Recordset) (c_usr c_aux : Connection)
    (hscript : script.statements = [s])
    (hs : s.select_with_one_result rows)
    (htarget : s.edit_target = none)
    (husr : form.usr_dbc_conn.ref = some c_usr) (husr_open : c_usr.closed = false)
    (haux : form.aux_dbc_conn.ref = some c_aux) (haux_open : c_aux.closed = false)
    (hstop : form.usr_dbc_conn.is_stop_query_requested = false) :
    (∀ (lc : ExecLocals) (active_schema : String),
      ∃ d, (prepare_statement lc s active_schema).data_storage = some d ∧
        d = { Recordset_data_storage.readonly_reason
                { Recordset_cdbc_storage.create with gather_field_info := lc.fetch_field_info }
                not_editable_reason with
              sql_query := s.text
              limit_rows := !lc.flags.DontAddLimitClause && decide (0 < lc.limit_rows)
              limit_rows_count := lc.limit_rows } ∧
        d.readonly = true ∧ d.readonly_reason = not_editable_reason) ∧
    ∃ rs st, do_exec_sql drv form script none flags (.detached l) = ⟨st, none⟩ ∧
      st.result_list = .detached (l ++ [rs]) ∧
      rs.data_storage.readonly_reason =
        "Statement must be a SELECT for columns of a single table with a primary key for its results to be editable." ∧
      rs.is_readonly = true ∧
      rs.readonly_reason =
        "Statement must be a SELECT for columns of a single table with a primary key for its results to be editable." ∧
      ∀ (row column : Nat) (value : String), rs.set_field row column value = false := by
  constructor
  · intro lc active_schema
    obtain ⟨_, h2, h3, _⟩ := hs
    by_cases hl : 0 < lc.limit_rows
    · simp [prepare_statement, h2, h3, htarget, Recordset_data_storage.readonly_reason, hl]
    · have h0 : lc.limit_rows = 0 := by omega
      simp [prepare_statement, h2, h3, htarget, Recordset_data_storage.readonly_reason, h0,
        Recordset_cdbc_storage.create]
  · obtain ⟨rs, st, hrun, hlist, _, _, _, hro, _, _⟩ :=
      do_exec_sql_select_detached drv form script s rows flags l c_usr c_aux hscript hs husr
        husr_open haux haux_open hstop
    obtain ⟨hro1, hro2, _, hro4⟩ := hro htarget
    refine ⟨rs, st, hrun, hlist, hro4, hro1, hro2, ?_⟩
    intro row column value
    simp [Recordset.set_field, Recordset.is_readonly, hro1]

/-- Witness for C12: a join of two tables run through `do_exec_sql` without editor. -/
theorem select_without_edit_target_readonly_witness :
    ∃ rs st, do_exec_sql working_driver idle_form ⟨29, [join_statement]⟩ none no_flags
        (.detached []) = ⟨st, none⟩ ∧
      st.result_list = .detached ([] ++ [rs]) ∧
      rs.data_storage.readonly_reason =
        "Statement must be a SELECT for columns of a single table with a primary key for its results to be editable." ∧
      rs.is_readonly = true ∧
      rs.readonly_reason =
        "Statement must be a SELECT for columns of a single table with a primary key for its results to be editable." ∧
      ∀ (row column : Nat) (value : String), rs.set_field row column value = false :=
  (select_without_edit_target_readonly working_driver idle_form ⟨29, [join_statement]⟩
    join_statement 3 no_flags [] open_connection open_connection rfl
    ⟨rfl, rfl, rfl, rfl, rfl, rfl, rfl, rfl⟩ rfl rfl rfl rfl rfl rfl).2

/-! ## The end of an invocation and failing fetches -/

/-- C21. Every invocation of `do_exec_sql` returns to its caller, and when it does the
stop flag of the user handle is false: whatever the script and the driver do, whether
the flag was raised before or during the run, and whether the statement loop ran to
its end, was left through `stop_processing_sql_script`, or was left by an exception
caught at the invocation boundary. -/
theorem do_exec_sql_clears_stop_flag (drv : Driver) (form : SqlEditorForm) (script : Script)
    (editor : Option Nat) (flags : ExecFlags) (result_list : RecordsetsRef) :
    (do_exec_sql drv form script editor flags result_list).raised = none ∧
    (do_exec_sql drv form script editor flags
        result_list).state.form.usr_dbc_conn.is_stop_query_requested = false ∧
    (∀ st e, do_exec_sql_try drv
        { form with status_text := "Executing Query...", exec_sql_error_count := 0 }
        script editor flags result_list = .raise st e →
      (do_exec_sql drv form script editor flags result_list).state.form.log =
        st.form.log ++ [dispatched_row st.statement e]) :=
  ⟨do_exec_sql_catch_none _ _, rfl,
    fun st e h => (do_exec_sql_raise drv form script editor flags result_list st e h).2.1⟩

/-- C22, evaluated where it fails: continue-on-error is on and the script is `CALL p()`.
Fetching the first result set of the call throws a driver error; the `continue` in the
handler resumes the do-while loop at `getMoreResults()`, which reports another result
set, and that result set of the same statement is fetched: a buffer with its two rows
is appended to the result list. -/
theorem fetch_error_keeps_fetching :
    (do_exec_sql working_driver continuing_form ⟨8, [call_first_fetch_fails]⟩ none no_flags
        (.detached [])).state.result_list_get.map (fun rs => (rs.caption, rs.row_count)) =
      [("Result 1", 2)] ∧
    (do_exec_sql working_driver continuing_form ⟨8, [call_first_fetch_fails]⟩ none no_flags
        (.detached [])).state.executed = [0] := by
  decide

/-- C23, evaluated where it fails: continue-on-error is on.  For `SELECT f()` the error
of `getResultSet` is written to the log row of the statement, and the statement ends
without a result set or an update count, so the row is set to "OK" afterwards.  For
`CALL p()` the error row of the first result set is set to "Fetching..." and then to
the row count of the second one.  With continue-on-error off the same `SELECT f()`
keeps its error row. -/
theorem fetch_error_row_overwritten :
    (do_exec_sql working_driver continuing_form ⟨10, [select_fetch_fails]⟩ none no_flags
        (.detached [])).state.form.log = [⟨.OKMsg, "SELECT f()", "OK"⟩] ∧
    (do_exec_sql working_driver continuing_form ⟨8, [call_first_fetch_fails]⟩ none no_flags
        (.detached [])).state.form.log = [⟨.OKMsg, "CALL p()", "2 row(s) returned"⟩] ∧
    (do_exec_sql working_driver idle_form ⟨10, [select_fetch_fails]⟩ none no_flags
        (.detached [])).state.form.log =
      [⟨.ErrorMsg, "SELECT f()", "Error Code: 1305. FUNCTION f does not exist"⟩] := by
  decide

/-! ## Change scripts: further claims -/

/-- The statement loop of `run_sql_script` attempts every statement in order, calls the
error callback once for each one that fails, and counts both. -/
theorem run_sql_script_loop_trace (l : List ScriptStatement) :
    ∀ c : ScriptCounters,
      run_sql_script_loop l c =
        { err_count := c.err_count + (l.filter (fun s => s.driver_error.isSome)).length
          processed_statement_count := c.processed_statement_count + l.length
          attempted := c.attempted ++ l.map (fun s => s.sql)
          error_calls := c.error_calls ++
            l.filterMap (fun s =>
              s.driver_error.map (fun e => (e.1, toString e.1 ++ ": " ++ e.2, s.sql))) } := by
  induction l with
  | nil => intro c; simp [run_sql_script_loop]
  | cons s rest ih =>
    intro c
    unfold run_sql_script_loop
    rw [ih]
    cases h : s.driver_error with
    | none => simp [h]; omega
    | some e =>
      obtain ⟨code, what⟩ := e
      simp [h]
      omega

/-- C24. On a storage that holds a connection, `run_sql_script` attempts all the
statements of the change script in script order, whichever of them raise a driver
error; it calls the error callback once for each failing statement, in order, with
the error code, the message "code: text" and the text of that statement; and it
reports the statistics (N - e, e) for N statements of which e failed. -/
theorem run_sql_script_attempts_all (dbms_conn : Dbc_connection_handler) (c : Connection)
    (full_table_name : String) (sql_script : List ScriptStatement)
    (hconn : dbms_conn.ref = some c) :
    (run_sql_script (some dbms_conn) full_table_name sql_script).attempted =
      sql_script.map (fun s => s.sql) ∧
    (run_sql_script (some dbms_conn) full_table_name sql_script).error_calls =
      sql_script.filterMap (fun s =>
        s.driver_error.map (fun e => (e.1, toString e.1 ++ ": " ++ e.2, s.sql))) ∧
    ((run_sql_script (some dbms_conn) full_table_name sql_script).error_calls.map
        (fun call => call.2.2)) =
      (sql_script.filter (fun s => s.driver_error.isSome)).map (fun s => s.sql) ∧
    (run_sql_script (some dbms_conn) full_table_name sql_script).statistics =
      some ((sql_script.length : Int) -
          (sql_script.filter (fun s => s.driver_error.isSome)).length,
        ((sql_script.filter (fun s => s.driver_error.isSome)).length : Int)) := by
  have hloop := run_sql_script_loop_trace sql_script ⟨0, 0, [], []⟩
  have hcalls : (sql_script.filterMap (fun s =>
        s.driver_error.map (fun e => (e.1, toString e.1 ++ ": " ++ e.2, s.sql)))).map
        (fun call => call.2.2) =
      (sql_script.filter (fun s => s.driver_error.isSome)).map (fun s => s.sql) := by
    induction sql_script with
    | nil => rfl
    | cons s rest ih =>
      have ih1 := ih (run_sql_script_loop_trace rest ⟨0, 0, [], []⟩)
      cases h : s.driver_error with
      | none => simp [List.filterMap_cons, List.filter_cons, h, ih1]
      | some e => simp [List.filterMap_cons, List.filter_cons, h, ih1]
  unfold run_sql_script
  simp only [Option.bind, hconn]
  rw [hloop]
  split <;> simp [hcalls]

/-- Witness for C24: two updates, the second rejected. -/
theorem run_sql_script_attempts_all_witness :
    (run_sql_script (some connected_handler) "t" two_updates_one_rejected).attempted =
      ["UPDATE t SET a = 1 WHERE id = 1", "UPDATE t SET a = 2 WHERE id = 2"] ∧
    (run_sql_script (some connected_handler) "t" two_updates_one_rejected).error_calls =
      [(1062, "1062: Duplicate entry", "UPDATE t SET a = 2 WHERE id = 2")] ∧
    (run_sql_script (some connected_handler) "t" two_updates_one_rejected).statistics =
      some (1, 1) := by
  have h := run_sql_script_attempts_all connected_handler open_connection "t"
    two_updates_one_rejected rfl
  exact ⟨h.1, h.2.1, h.2.2.2⟩

/-! ## Active result, reordering and blob reads: theorems -/

/-- C30. For every editor index `active_recordset(editor)` returns an empty reference:
the buffer of the active result panel is looked up and dropped.  That is so also
right after `active_recordset(editor, rset)` was called with a buffer, although the
active result panel of a registered editor then wraps that buffer. -/
theorem active_recordset_is_null (form : SqlEditorForm) (editor : Int) (rset : Recordset)
    (i : Nat) (info : EditorInfo) :
    active_recordset form editor = none ∧
    active_recordset (set_active_recordset form editor (some rset)) editor = none ∧
    (form.sql_editors[i]? = some info →
      active_result_panel (set_active_recordset form (i : Int) (some rset)) (i : Int) =
        some rset.key) := by
  refine ⟨?_, ?_, ?_⟩
  · unfold active_recordset; split <;> rfl
  · unfold active_recordset; split <;> rfl
  · intro hget
    have hlt : i < form.sql_editors.length := by
      by_contra hge
      rw [List.getElem?_eq_none (Nat.le_of_not_lt hge)] at hget
      exact absurd hget (by simp)
    simp [set_active_recordset, set_active_result_panel, active_result_panel, modify_editor,
      hget, hlt]

/-- The first match of a predicate: `find?` returns the element at the position that
`findIdx?` returns. -/
theorem find_of_findIdx {α : Type} (p : α → Bool) :
    ∀ (l : List α) (pos : Nat), l.findIdx? p = some pos →
      ∃ a, l.find? p = some a ∧ l[pos]? = some a ∧ p a = true ∧ pos < l.length
  | [], _, h => by simp at h
  | x :: xs, pos, h => by
    rw [List.findIdx?_cons] at h
    by_cases hx : p x = true
    · simp only [hx, if_true, Option.some.injEq] at h
      subst h
      exact ⟨x, by simp [List.find?_cons, hx], by simp, hx, by simp⟩
    · simp only [hx, Bool.false_eq_true, if_false, Nat.zero_add, List.findIdx?_succ,
        Option.map_eq_some'] at h
      obtain ⟨q, hq, hpos⟩ := h
      obtain ⟨a, h1, h2, h3, h4⟩ := find_of_findIdx p xs q hq
      subst hpos
      refine ⟨a, ?_, by simpa using h2, h3, by simpa using h4⟩
      simp only [Bool.not_eq_true] at hx
      simp [List.find?_cons, hx, h1]

/-- Taking an element out of the place where it was put in gives the list back. -/
theorem eraseIdx_insert {α : Type} (l : List α) (k : Nat) (a : α) (hk : k ≤ l.length) :
    (l.take k ++ a :: l.drop k).eraseIdx k = l ∧
    (l.take k ++ a :: l.drop k)[k]? = some a ∧
    (l.take k ++ a :: l.drop k).length = l.length + 1 := by
  have hlen : (l.take k).length = k := by rw [List.length_take]; omega
  refine ⟨?_, ?_, ?_⟩
  · rw [List.eraseIdx_append_of_length_le (by omega), hlen, Nat.sub_self]
    simp
  · rw [List.getElem?_append_right (by omega), hlen, Nat.sub_self]
    simp
  · simp only [List.length_append, List.length_cons, List.length_take, List.length_drop]
    omega

/-- C28. The locks are free, the editor index `i` is valid, and the buffer with key
`value` is in the recordset list of the editor, at position `pos`.  Then
`recordset_reorder` returns true and the list becomes the old list with that buffer
taken out and put back at index `k`, where `k` is `new_index` when
0 <= new_index < n - 1 and the end (n - 1) otherwise, n being the length of the list:
`k` is within bounds, the length is unchanged, the buffer sits at index `k`, and the
other buffers keep their order.  For an editor index out of range, and for a buffer
that is not in the list, `recordset_reorder` returns false and changes nothing. -/
theorem recordset_reorder_moves (form : SqlEditorForm) (i : Nat) (info : EditorInfo)
    (value pos : Nat) (new_index : Int)
    (hget : form.sql_editors[i]? = some info)
    (hfree : info.recordset_mutex_held = false)
    (hpos : info.recordsets.findIdx? (fun rs => rs.key == value) = some pos) :
    (∃ found k reordered,
      recordset_reorder form false (i : Int) value new_index =
        ({ form with sql_editors :=
            form.sql_editors.set i { info with recordsets := reordered } }, true) ∧
      info.recordsets[pos]? = some found ∧ found.key = value ∧
      k = (if 0 ≤ new_index ∧ new_index < (info.recordsets.length : Int) - 1
            then new_index.toNat else info.recordsets.length - 1) ∧
      reordered = (info.recordsets.eraseIdx pos).take k ++
        found :: (info.recordsets.eraseIdx pos).drop k ∧
      k ≤ (info.recordsets.eraseIdx pos).length ∧
      reordered.length = info.recordsets.length ∧
      reordered[k]? = some found ∧
      reordered.eraseIdx k = info.recordsets.eraseIdx pos) ∧
    (∀ (editor : Int), (editor < 0 ∨ (form.sql_editors.length : Int) ≤ editor) →
      recordset_reorder form false editor value new_index = (form, false)) ∧
    (∀ other : Nat, info.recordsets.findIdx? (fun rs => rs.key == other) = none →
      recordset_reorder form false (i : Int) other new_index = (form, false)) := by
  have hlt : i < form.sql_editors.length := by
    by_contra hge
    rw [List.getElem?_eq_none (Nat.le_of_not_lt hge)] at hget
    exact absurd hget (by simp)
  obtain ⟨found, hfind, hat, hkey, hposlt⟩ := find_of_findIdx _ info.recordsets pos hpos
  have hn : (info.recordsets.eraseIdx pos).length = info.recordsets.length - 1 := by
    rw [List.length_eraseIdx]; simp [hposlt]
  refine ⟨?_, ?_, ?_⟩
  · by_cases hin : 0 ≤ new_index ∧ new_index < (info.recordsets.length : Int) - 1
    · have hk : new_index.toNat ≤ (info.recordsets.eraseIdx pos).length := by omega
      obtain ⟨e1, e2, e3⟩ := eraseIdx_insert (info.recordsets.eraseIdx pos) new_index.toNat
        found hk
      refine ⟨found, new_index.toNat, _, ?_, hat, by simpa using hkey, by simp [hin], rfl, hk,
        by rw [e3, hn]; omega, e2, e1⟩
      have h1 : ¬ (new_index ≥ (info.recordsets.length : Int) - 1) := by omega
      have h2 : ¬ (new_index < 0) := by omega
      simp [recordset_reorder, hlt, hget, hfree, hpos, hfind, modify_editor, h1, h2]
    · have hk : info.recordsets.length - 1 ≤ (info.recordsets.eraseIdx pos).length := by omega
      obtain ⟨e1, e2, e3⟩ := eraseIdx_insert (info.recordsets.eraseIdx pos)
        (info.recordsets.length - 1) found hk
      refine ⟨found, info.recordsets.length - 1, _, ?_, hat, by simpa using hkey,
        by simp [hin], rfl, hk, by rw [e3, hn]; omega, e2, e1⟩
      have htake : (info.recordsets.eraseIdx pos).take (info.recordsets.length - 1) =
          info.recordsets.eraseIdx pos := List.take_of_length_le (by omega)
      have hdrop : (info.recordsets.eraseIdx pos).drop (info.recordsets.length - 1) = [] :=
        List.drop_of_length_le (by omega)
      rw [htake, hdrop]
      by_cases h1 : new_index ≥ (info.recordsets.length : Int) - 1
      · simp [recordset_reorder, hlt, hget, hfree, hpos, hfind, modify_editor, h1]
      · have h2 : new_index < 0 := by omega
        simp [recordset_reorder, hlt, hget, hfree, hpos, hfind, modify_editor, h1, h2]
  · intro editor hout
    have : ¬ (0 ≤ editor ∧ editor < (form.sql_editors.length : Int)) := by omega
    simp [recordset_reorder, this]
  · intro other hnone
    simp [recordset_reorder, hlt, hget, hfree, hnone]

/-- Witness for C28: the first of three buffers is moved to the second place. -/
theorem recordset_reorder_moves_witness :
    ∃ found k reordered,
      recordset_reorder three_results_form false ((0 : Nat) : Int) 10 1 =
        ({ three_results_form with
            sql_editors := [{ three_results_info with recordsets := reordered }] }, true) ∧
      three_results_info.recordsets[0]? = some found ∧ found.key = 10 ∧
      k = (if 0 ≤ (1 : Int) ∧ (1 : Int) < (three_results_info.recordsets.length : Int) - 1
            then (1 : Int).toNat else three_results_info.recordsets.length - 1) ∧
      reordered = (three_results_info.recordsets.eraseIdx 0).take k ++
        found :: (three_results_info.recordsets.eraseIdx 0).drop k ∧
      k ≤ (three_results_info.recordsets.eraseIdx 0).length ∧
      reordered.length = three_results_info.recordsets.length ∧
      reordered[k]? = some found ∧
      reordered.eraseIdx k = three_results_info.recordsets.eraseIdx 0 :=
  (recordset_reorder_moves three_results_form 0 three_results_info 10 0 1 rfl rfl rfl).1

/-- The read loop on a stream holding less than one chunk: one round reads it all. -/
theorem read_chunks_short (bytes : List Nat) (chunks : List (List Nat)) (blob_size : Nat)
    (hlt : bytes.length < BUFF_SIZE) :
    read_chunks ⟨bytes, false⟩ chunks blob_size =
      (chunks ++ [bytes ++ List.replicate (BUFF_SIZE - bytes.length) 0],
        blob_size + bytes.length) := by
  rw [read_chunks]
  simp only [Bool.false_eq_true, if_false, IStream.read, Bool.false_or, hlt, decide_True]
  rw [read_chunks]
  simp only [if_true]
  rw [List.take_of_length_le (Nat.le_of_lt hlt)]

/-- The read loop on a stream holding at least one chunk: one round reads a full chunk. -/
theorem read_chunks_full (bytes : List Nat) (chunks : List (List Nat)) (blob_size : Nat)
    (hge : ¬ bytes.length < BUFF_SIZE) :
    read_chunks ⟨bytes, false⟩ chunks blob_size =
      read_chunks ⟨bytes.drop BUFF_SIZE, false⟩ (chunks ++ [bytes.take BUFF_SIZE])
        (blob_size + BUFF_SIZE) := by
  have hlen : (bytes.take BUFF_SIZE).length = BUFF_SIZE := by
    rw [List.length_take]; omega
  rw [read_chunks]
  simp only [Bool.false_eq_true, if_false, IStream.read, Bool.false_or, hge, decide_False,
    hlen, Nat.sub_self, List.replicate_zero, List.append_nil]

/-- The read loop on a stream that has not reached its end: the chunks hold what they
held before, then the bytes of the stream, then padding; `blob_size` has grown by the
number of bytes of the stream; and one chunk was added per `BUFF_SIZE` bytes, plus
one. -/
theorem read_chunks_spec (n : Nat) :
    ∀ (bytes : List Nat) (chunks : List (List Nat)) (blob_size : Nat),
      bytes.length ≤ n →
      ∃ pad, (read_chunks ⟨bytes, false⟩ chunks blob_size).1.flatten =
          chunks.flatten ++ bytes ++ pad ∧
        (read_chunks ⟨bytes, false⟩ chunks blob_size).2 = blob_size + bytes.length ∧
        (read_chunks ⟨bytes, false⟩ chunks blob_size).1.length =
          chunks.length + bytes.length / BUFF_SIZE + 1 := by
  have hpos : 0 < BUFF_SIZE := by decide
  induction n with
  | zero =>
    intro bytes chunks blob_size h
    have hlt : bytes.length < BUFF_SIZE := by omega
    rw [read_chunks_short bytes chunks blob_size hlt]
    refine ⟨List.replicate (BUFF_SIZE - bytes.length) 0, by simp, rfl, ?_⟩
    simp [Nat.div_eq_of_lt hlt]
  | succ n ih =>
    intro bytes chunks blob_size h
    by_cases hlt : bytes.length < BUFF_SIZE
    · rw [read_chunks_short bytes chunks blob_size hlt]
      refine ⟨List.replicate (BUFF_SIZE - bytes.length) 0, by simp, rfl, ?_⟩
      simp [Nat.div_eq_of_lt hlt]
    · rw [read_chunks_full bytes chunks blob_size hlt]
      obtain ⟨pad, h1, h2, h3⟩ := ih (bytes.drop BUFF_SIZE) (chunks ++ [bytes.take BUFF_SIZE])
        (blob_size + BUFF_SIZE) (by rw [List.length_drop]; omega)
      refine ⟨pad, ?_, ?_, ?_⟩
      · rw [h1]
        simp [List.append_assoc]
      · rw [h2, List.length_drop]; omega
      · rw [h3, List.length_drop, List.length_append, List.length_singleton]
        have hdiv : bytes.length / BUFF_SIZE = (bytes.length - BUFF_SIZE) / BUFF_SIZE + 1 := by
          rw [← Nat.sub_add_cancel (Nat.le_of_not_lt hlt), Nat.add_div_right _ hpos]
          simp
        omega

/-- C29. For every stream of n bytes that has not reached its end, the blob visitor
without a size known in advance returns a blob that equals the bytes of the stream,
in order, hence of exactly n bytes; the read loop is total and makes n / 4096 + 1
rounds (one round for an empty stream, one more than the number of chunks when n is a
multiple of 4096). -/
theorem fetch_blob_reads_stream (bytes : List Nat) :
    fetch_blob ⟨bytes, false⟩ = bytes ∧ (fetch_blob ⟨bytes, false⟩).length = bytes.length ∧
    (read_chunks ⟨bytes, false⟩ [] 0).1.length = bytes.length / BUFF_SIZE + 1 := by
  obtain ⟨pad, h1, h2, h3⟩ := read_chunks_spec bytes.length bytes [] 0 (Nat.le_refl _)
  have hblob : fetch_blob ⟨bytes, false⟩ = bytes := by
    unfold fetch_blob
    simp only [h1, h2, List.flatten_nil, List.nil_append, Nat.zero_add, List.append_assoc]
    rw [List.take_append_of_le_length (Nat.le_refl _), List.take_length]
  refine ⟨hblob, by rw [hblob], ?_⟩
  rw [h3]
  simp

/-! ## The prelude of `do_exec_sql`: theorems -/

/-- The first match sits right after a prefix without match. -/
theorem findIdx_after_prefix {α : Type} (p : α → Bool) (a : α) (l2 : List α) (hp : p a = true) :
    ∀ l1 : List α, (∀ x ∈ l1, p x = false) →
      (l1 ++ a :: l2).findIdx? p = some l1.length
  | [], _ => by simp [List.findIdx?_cons, hp]
  | x :: xs, h => by
    have hx : p x = false := h x (List.mem_cons_self _ _)
    have ih := findIdx_after_prefix p a l2 hp xs (fun y hy => h y (List.mem_cons_of_mem _ hy))
    simp [List.findIdx?_cons, hx, List.findIdx?_succ, ih]

/-- In a list of buffers with pairwise different keys, no buffer before position `n` has
the key of the buffer at position `n`. -/
theorem keys_before_differ (l : List Recordset) (hnodup : (l.map (fun r => r.key)).Nodup)
    (n : Nat) (cur : Recordset) (hcur : l[n]? = some cur) :
    ∀ x ∈ l.take n, (x.key == cur.key) = false := by
  intro x hx
  obtain ⟨j, hj, hxj⟩ := List.mem_iff_getElem.mp hx
  rw [List.length_take] at hj
  have hjn : j < n := by omega
  have hjl : j < l.length := by omega
  have hnl : n < l.length := by
    by_contra hge
    rw [List.getElem?_eq_none (Nat.le_of_not_lt hge)] at hcur
    exact absurd hcur (by simp)
  rw [List.getElem_take] at hxj
  have hcur1 : l[n] = cur := by
    rw [List.getElem?_eq_getElem hnl] at hcur
    exact Option.some.inj hcur
  have hjm : j < (l.map (fun r => r.key)).length := by simpa using hjl
  have hnm : n < (l.map (fun r => r.key)).length := by simpa using hnl
  have hne : (l.map (fun r => r.key))[j] ≠ (l.map (fun r => r.key))[n] := by
    intro heq
    have := (List.Nodup.getElem_inj_iff hnodup).mp heq
    omega
  simp only [List.getElem_map, hxj, hcur1] at hne
  simpa using hne

/-- The closing loop on the list of the editor itself.  When the loop has `n` positions
left, the list of the editor holds the first `n` prior buffers followed by the later
ones that declined to close.  At the end the list holds the buffers that declined, in
their prior order, and the new list holds them in reverse order. -/
theorem close_recordsets_aliased (i : Nat) (L : List Recordset)
    (hnodup : (L.map (fun r => r.key)).Nodup) (n : Nat) :
    n ≤ L.length → ∀ (st : ExecState) (acc : List Recordset) (info_n : EditorInfo),
      st.result_list = .of_editor i →
      st.form.sql_editors[i]? = some info_n →
      info_n.recordsets = L.take n ++ (L.drop n).filter (fun r => !r.can_close_answer) →
      ∃ info_end,
        (close_recordsets i n st acc).1.form.sql_editors[i]? = some info_end ∧
        info_end.recordsets = L.filter (fun r => !r.can_close_answer) ∧
        (close_recordsets i n st acc).2 =
          acc ++ ((L.take n).filter (fun r => !r.can_close_answer)).reverse ∧
        (close_recordsets i n st acc).1.result_list = .of_editor i := by
  induction n with
  | zero =>
    intro _ st acc info_n hlist hget hrec
    refine ⟨info_n, hget, ?_, by simp [close_recordsets], hlist⟩
    simpa using hrec
  | succ n ih =>
    intro hn st acc info_n hlist hget hrec
    have hnl : n < L.length := by omega
    have hcur : L[n]? = some L[n] := List.getElem?_eq_getElem hnl
    have htake : L.take (n + 1) = L.take n ++ [L[n]] := by
      rw [List.take_succ, hcur]; rfl
    have hdrop : L.drop n = L[n] :: L.drop (n + 1) := List.drop_eq_getElem_cons hnl
    have hlen : (L.take n).length = n := by rw [List.length_take]; omega
    have hlt : i < st.form.sql_editors.length := by
      by_contra hge
      rw [List.getElem?_eq_none (Nat.le_of_not_lt hge)] at hget
      exact absurd hget (by simp)
    have hcurrent : st.result_list_get.get? n = some L[n] := by
      simp only [ExecState.result_list_get, hlist, List.get?_eq_getElem?, hget, hrec, htake,
        List.append_assoc]
      rw [List.getElem?_append_right (by omega), hlen, Nat.sub_self]
      simp
    unfold close_recordsets
    simp only [hcurrent]
    by_cases hkeep : L[n].can_close_answer = false
    · simp only [hkeep, if_true]
      obtain ⟨info_end, h1, h2, h3, h4⟩ := ih (by omega) st (acc ++ [L[n]]) info_n hlist hget
        (by
          rw [hrec, htake, hdrop]
          simp only [List.filter_cons, hkeep, Bool.not_false, if_true, List.append_assoc,
            List.singleton_append])
      refine ⟨info_end, h1, h2, ?_, h4⟩
      rw [h3, htake]
      simp only [List.filter_append, List.filter_cons, List.filter_nil, hkeep, Bool.not_false,
        if_true, List.reverse_append, List.reverse_cons, List.reverse_nil, List.nil_append,
        List.append_assoc, List.singleton_append]
    · simp only [hkeep, if_false]
      have hclosed : L[n].can_close_answer = true := by simpa using hkeep
      have hfind : info_n.recordsets.findIdx? (fun r => r.key == L[n].key) = some n := by
        rw [hrec, htake, List.append_assoc]
        have := findIdx_after_prefix (fun r : Recordset => r.key == L[n].key) L[n]
          ((L.drop (n + 1)).filter (fun r => !r.can_close_answer)) (by simp) (L.take n)
          (keys_before_differ L hnodup n L[n] hcur)
        rw [hlen] at this
        simpa using this
      have herase : info_n.recordsets.eraseIdx n =
          L.take n ++ (L.drop n).filter (fun r => !r.can_close_answer) := by
        rw [hrec, htake, List.append_assoc, List.eraseIdx_append_of_length_le (by omega), hlen,
          Nat.sub_self, hdrop]
        simp only [List.singleton_append, List.eraseIdx_cons_zero, List.filter_cons, hclosed, Bool.not_true,
          Bool.false_eq_true, if_false]
      rw [modify_editor_at st.form i _ info_n hget]
      simp only [hfind, herase]
      obtain ⟨info_end, h1, h2, h3, h4⟩ := ih (by omega)
        { st with form := { st.form with
            sql_editors := st.form.sql_editors.set i
              { info_n with
                recordsets := L.take n ++ (L.drop n).filter (fun r => !r.can_close_answer)
                active_result :=
                  if info_n.active_result = some L[n].key then none
                  else info_n.active_result } } }
        acc
        { info_n with
          recordsets := L.take n ++ (L.drop n).filter (fun r => !r.can_close_answer)
          active_result :=
            if info_n.active_result = some L[n].key then none else info_n.active_result }
        hlist (by simp [hlt]) rfl
      refine ⟨info_end, h1, h2, h3.trans ?_, h4⟩
      rw [htake]
      simp only [List.filter_append, List.filter_cons, List.filter_nil, hclosed, Bool.not_true,
        Bool.false_eq_true, if_false, List.append_nil]

/-- C27. The non-retaining prelude of `do_exec_sql` (`close_editor_recordsets`) on a
registered editor whose recordset mutex is free, started on the result list of that
editor, whose buffers are pairwise different.  It succeeds, and afterwards the result
list consists of exactly the prior buffers whose `can_close(false)` answered false,
each once, in the reverse of their prior order; the recordset list of the editor is
that same list, so every prior buffer that agreed to close is gone from it. -/
theorem close_editor_recordsets_keeps_declined (ed i : Nat) (st : ExecState)
    (info : EditorInfo)
    (hfind : st.form.sql_editors.findIdx? (fun x => x.editor == ed) = some i)
    (hget : st.form.sql_editors[i]? = some info)
    (hfree : info.recordset_mutex_held = false)
    (hlist : st.result_list = .of_editor i)
    (hnodup : (info.recordsets.map (fun r => r.key)).Nodup) :
    ∃ st1 info1, close_editor_recordsets (some ed) false st = .next (st1, true) ∧
      st1.result_list_get =
        (info.recordsets.filter (fun r => !r.can_close_answer)).reverse ∧
      (st1.result_list_get.map (fun r => r.key)).Nodup ∧
      (∀ r, r ∈ st1.result_list_get ↔ r ∈ info.recordsets ∧ r.can_close_answer = false) ∧
      st1.form.sql_editors[i]? = some info1 ∧
      info1.recordsets = st1.result_list_get ∧
      (∀ r ∈ info.recordsets, r.can_close_answer = true → r ∉ info1.recordsets) := by
  have hresult : ({ st with rs_sequence := some i } : ExecState).result_list_get =
      info.recordsets := by
    simp [ExecState.result_list_get, hlist, hget]
  obtain ⟨info_end, h1, h2, h3, h4⟩ := close_recordsets_aliased i info.recordsets hnodup
    info.recordsets.length (Nat.le_refl _) { st with rs_sequence := some i } [] info hlist hget
    (by simp)
  have hlt : i < (close_recordsets i info.recordsets.length { st with rs_sequence := some i }
      []).1.form.sql_editors.length := by
    by_contra hge
    rw [List.getElem?_eq_none (Nat.le_of_not_lt hge)] at h1
    exact absurd h1 (by simp)
  have hkept : (close_recordsets i info.recordsets.length { st with rs_sequence := some i }
      []).2 = (info.recordsets.filter (fun r => !r.can_close_answer)).reverse := by
    rw [h3]; simp
  have hsub : ((info.recordsets.filter (fun r => !r.can_close_answer)).reverse.map
      (fun r => r.key)).Nodup := by
    rw [List.map_reverse, List.nodup_reverse]
    exact List.Nodup.sublist (List.Sublist.map _ (List.filter_sublist _)) hnodup
  have hmem : ∀ r, r ∈ (info.recordsets.filter (fun r => !r.can_close_answer)).reverse ↔
      r ∈ info.recordsets ∧ r.can_close_answer = false := by
    intro r
    simp [List.mem_filter]
  have hput : ((close_recordsets i info.recordsets.length { st with rs_sequence := some i }
      []).1.result_list_put
        (info.recordsets.filter (fun r => !r.can_close_answer)).reverse).result_list_get =
      (info.recordsets.filter (fun r => !r.can_close_answer)).reverse ∧
      ((close_recordsets i info.recordsets.length { st with rs_sequence := some i }
      []).1.result_list_put
        (info.recordsets.filter (fun r => !r.can_close_answer)).reverse).form.sql_editors[i]? =
      some { info_end with
        recordsets := (info.recordsets.filter (fun r => !r.can_close_answer)).reverse } := by
    simp [ExecState.result_list_put, ExecState.result_list_get, h4, modify_editor, h1, hlt]
  refine ⟨_, _, ?_, hput.1, ?_, ?_, hput.2, ?_, ?_⟩
  · unfold close_editor_recordsets
    simp only [hfind, Bool.false_eq_true, if_false, List.get?_eq_getElem?, hget, hfree, hresult,
      hkept]
  · rw [hput.1]; exact hsub
  · intro r; rw [hput.1]; exact hmem r
  · rw [hput.1]
  · intro r _ hclose hin
    have := (hmem r).mp hin
    rw [hclose] at this
    exact absurd this.2 (by simp)

/-- Witness for C27: of three prior buffers the second declines to close. -/
theorem close_editor_recordsets_keeps_declined_witness :
    ∃ st1 info1,
      close_editor_recordsets (some 1) false
        (not_started three_results_form (.of_editor 0)) = .next (st1, true) ∧
      st1.result_list_get =
        (three_results_info.recordsets.filter (fun r => !r.can_close_answer)).reverse ∧
      (st1.result_list_get.map (fun r => r.key)).Nodup ∧
      (∀ r, r ∈ st1.result_list_get ↔
        r ∈ three_results_info.recordsets ∧ r.can_close_answer = false) ∧
      (not_started three_results_form (.of_editor 0)).form.sql_editors[0]? =
          some three_results_info ∧
      st1.form.sql_editors[0]? = some info1 ∧
      info1.recordsets = st1.result_list_get ∧
      (∀ r ∈ three_results_info.recordsets, r.can_close_answer = true →
        r ∉ info1.recordsets) := by
  obtain ⟨st1, info1, h1, h2, h3, h4, h5, h6, h7⟩ :=
    close_editor_recordsets_keeps_declined 1 0 (not_started three_results_form (.of_editor 0))
      three_results_info rfl rfl rfl rfl (by decide)
  exact ⟨st1, info1, h1, h2, h3, h4, rfl, h5, h6, h7⟩

/-- Every record held by the fetch loop was there before or is the cached form of one of
the rows. -/
theorem fetch_rows_mem (e r : Nat) (nvc : List Bool) (pk : List Nat) (rows : List FetchedRow)
    (records : List (List (Option String))) (rec : List (Option String))
    (hrec : rec ∈ (fetch_rows e r nvc pk rows records).state) :
    rec ∈ records ∨ ∃ row ∈ rows, rec = cache_row e r nvc pk row := by
  induction rows generalizing records with
  | nil => exact Or.inl hrec
  | cons row rest ih =>
    rw [fetch_rows] at hrec
    cases hrow : row.is_stop_query_requested with
    | true =>
      simp only [hrow, ↓reduceIte, List.mem_append, List.mem_singleton] at hrec
      rcases hrec with h | h
      · exact Or.inl h
      · exact Or.inr ⟨row, List.mem_cons_self _ _, h⟩
    | false =>
      simp only [hrow, Bool.false_eq_true, ↓reduceIte] at hrec
      rcases ih _ hrec with h | ⟨row1, hmem, h⟩
      · rcases List.mem_append.mp h with h | h
        · exact Or.inl h
        · exact Or.inr ⟨row, List.mem_cons_self _ _, List.mem_singleton.mp h⟩
      · exact Or.inr ⟨row1, List.mem_cons_of_mem _ hmem, h⟩

/-- An editable cell of a cached record: NULL for an SQL NULL and for a column fetched on
demand, the value of the driver otherwise. -/
theorem cache_row_editable (e r : Nat) (nvc : List Bool) (pk : List Nat) (row : FetchedRow)
    (col : Nat) (hcol : col < e) :
    (cache_row e r nvc pk row).getD col none =
      if (row.values.getD col none).isNone || nvc.getD col false then none
      else row.values.getD col none := by
  unfold cache_row
  simp only [List.getD_eq_getElem?_getD]
  rw [List.getElem?_append_left (by simpa using hcol)]
  simp [hcol]

/-- A column is flagged for fetching on demand only under the four conditions. -/
theorem null_value_columns_flag (u : Unserialize) (reloadable : Bool) (rowid_col_count col : Nat)
    (h : (null_value_columns u reloadable rowid_col_count).getD col false = true) :
    u.optimized_blob_fetching = true ∧ reloadable = true ∧
      u.column_is_blob.getD col false = true ∧ rowid_col_count ≠ 0 := by
  unfold null_value_columns at h
  simp only [List.getD_eq_getElem?_getD, List.getElem?_map] at h
  by_cases hc : col < u.column_labels.length
  · simp [List.getElem?_range hc] at h
    simp only [List.getD_eq_getElem?_getD]
    tauto
  · have hnone : (List.range u.column_labels.length)[col]? = none :=
      List.getElem?_eq_none (by simpa using hc)
    rw [hnone] at h
    simp at h
/-- Capturing identifier columns never shortens the column list. -/
theorem capture_pkey_columns_length (identifier : List String)
    (acc : List String × List Nat × Nat) :
    acc.1.length ≤ (capture_pkey_columns identifier acc).1.length := by
  induction identifier generalizing acc with
  | nil => exact Nat.le_refl _
  | cons name rest ih =>
    obtain ⟨names, pk, count⟩ := acc
    rw [capture_pkey_columns]
    split
    · rename_i col _
      exact Nat.le_trans (by simp)
        (ih (names ++ [names.getD col ""], pk ++ [col], count))
    · exact ih (names, pk, count - 1)

/-- Determining the identifier columns leaves the reloadable flag alone and never
shortens the column list. -/
theorem determine_pkey_columns_keeps (storage storage2 : Recordset_cdbc_storage)
    (column_names names2 : List String) (aux_dbms_conn : Option Dbc_connection_handler)
    (best_row_identifier : Except Exn (List String)) (rowid_col_count : Nat)
    (hpk : determine_pkey_columns storage column_names aux_dbms_conn best_row_identifier
      = .ok (storage2, names2, rowid_col_count)) :
    storage2.reloadable = storage.reloadable ∧ column_names.length ≤ names2.length := by
  unfold determine_pkey_columns at hpk
  split at hpk
  · cases hpk; exact ⟨rfl, Nat.le_refl _⟩
  · split at hpk
    · cases hpk
    · split at hpk
      · cases hpk
      · split at hpk
        · cases hpk
          exact ⟨rfl, capture_pkey_columns_length _ (column_names, _, _)⟩
        · cases hpk; exact ⟨rfl, Nat.le_refl _⟩

/-- The records left by the data block are those of the fetch loop. -/
theorem populate_records (e r : Nat) (nvc : List Bool) (pk : List Nat)
    (rows : List FetchedRow) :
    (populate e r nvc pk rows).state.records = (fetch_rows e r nvc pk rows []).state := by
  unfold populate
  simp only []
  split <;> rfl

/-- The state of `do_unserialize` once the identifier columns are determined: a record
of the swap database exists only if the connection was there, the records are those of
the fetch loop, and the column names are those left by the determination. -/
theorem do_unserialize_records (storage storage2 : Recordset_cdbc_storage)
    (column_names names2 : List String) (dbms_conn aux_dbms_conn : Option Dbc_connection_handler)
    (u : Unserialize) (rowid_col_count : Nat) (rec : List (Option String))
    (hpk : determine_pkey_columns { storage with valid := true, gather_field_info := false }
      (column_names ++ u.column_labels.drop column_names.length) aux_dbms_conn
      u.best_row_identifier = .ok (storage2, names2, rowid_col_count))
    (hrec : rec ∈ (do_unserialize storage column_names dbms_conn aux_dbms_conn
      u).state.data_swap.records) :
    (∃ c, dbms_conn.bind (fun h => h.ref) = some c) ∧
    rec ∈ (fetch_rows u.column_labels.length rowid_col_count
      (null_value_columns u storage2.reloadable rowid_col_count) storage2.pkey_columns u.rows
      []).state ∧
    (do_unserialize storage column_names dbms_conn aux_dbms_conn u).state.column_names
      = names2 := by
  unfold do_unserialize at hrec ⊢
  cases hconn : dbms_conn.bind (fun h => h.ref) with
  | none => simp [hconn] at hrec
  | some c =>
    simp only [hconn] at hrec ⊢
    split at hrec
    · simp at hrec
    · simp at hrec
    · rename_i hrs
      simp only [hrs, hpk] at hrec ⊢
      refine ⟨⟨c, rfl⟩, ?_, ?_⟩
      · rw [← populate_records]
        split at hrec <;> exact hrec
      · split <;> rfl
/-- C25. During the population of `do_unserialize`, once the identifier columns are
determined with `rowid_col_count` of them captured, every cached record stems from a
row of the result set, and an editable cell of it differs from the value of the driver
(it is a NULL placeholder) only if optimized blob fetching is on, the storage is
reloadable, the real type of the column is a blob type and `rowid_col_count` is not
zero.  Consequently, when no identifier column was captured every cell holds the value
of the driver, and `do_fetch_blob_value` called with an empty primary-key predicate for
a cell cached as NULL sends no statement, throws nothing and hands back NULL, which is
the value of the driver. -/
theorem placeholders_only_for_identified_blobs (storage storage2 : Recordset_cdbc_storage)
    (column_names names2 : List String) (dbms_conn aux_dbms_conn : Option Dbc_connection_handler)
    (u : Unserialize) (rowid_col_count : Nat)
    (hpk : determine_pkey_columns { storage with valid := true, gather_field_info := false }
      (column_names ++ u.column_labels.drop column_names.length) aux_dbms_conn
      u.best_row_identifier = .ok (storage2, names2, rowid_col_count)) :
    ∀ rec ∈ (do_unserialize storage column_names dbms_conn aux_dbms_conn
        u).state.data_swap.records,
      ∃ row ∈ u.rows,
        (∀ col, col < u.column_labels.length → rec.getD col none ≠ row.values.getD col none →
          u.optimized_blob_fetching = true ∧ storage.reloadable = true ∧
            u.column_is_blob.getD col false = true ∧ rowid_col_count ≠ 0) ∧
        (rowid_col_count = 0 → ∀ col, col < u.column_labels.length →
          rec.getD col none = row.values.getD col none ∧
          ∀ (blob_value : Option String) (f : BlobFetch), f.pkey_predicate.isEmpty = true →
            rec.getD col none = none →
            (do_fetch_blob_value
                (do_unserialize storage column_names dbms_conn aux_dbms_conn u).state.storage
                dbms_conn
                (do_unserialize storage column_names dbms_conn aux_dbms_conn u).state.column_names
                col blob_value f).raised = none ∧
              (do_fetch_blob_value
                (do_unserialize storage column_names dbms_conn aux_dbms_conn u).state.storage
                dbms_conn
                (do_unserialize storage column_names dbms_conn aux_dbms_conn u).state.column_names
                col blob_value f).state.executed = [] ∧
              (do_fetch_blob_value
                (do_unserialize storage column_names dbms_conn aux_dbms_conn u).state.storage
                dbms_conn
                (do_unserialize storage column_names dbms_conn aux_dbms_conn u).state.column_names
                col blob_value f).state.blob_value = row.values.getD col none) := by
  intro rec hrec
  obtain ⟨⟨c, hc⟩, hmem, hnames⟩ :=
    do_unserialize_records storage storage2 column_names names2 dbms_conn aux_dbms_conn u
      rowid_col_count rec hpk hrec
  obtain ⟨hrel, hlen⟩ := determine_pkey_columns_keeps _ _ _ _ _ _ _ hpk
  rcases fetch_rows_mem _ _ _ _ _ _ _ hmem with h | ⟨row, hrow, hcached⟩
  · simp at h
  · subst hcached
    refine ⟨row, hrow, ?_, ?_⟩
    · intro col hcol hne
      rw [cache_row_editable _ _ _ _ _ _ hcol] at hne
      have hflag : (null_value_columns u storage2.reloadable rowid_col_count).getD col false
          = true := by
        cases hf : (null_value_columns u storage2.reloadable rowid_col_count).getD col false with
        | true => rfl
        | false =>
          exfalso
          apply hne
          rw [hf]
          cases hv : row.values.getD col none <;> simp
      have h4 := null_value_columns_flag _ _ _ _ hflag
      rw [hrel] at h4
      exact h4
    · intro h0 col hcol
      have hflag : (null_value_columns u storage2.reloadable rowid_col_count).getD col false
          = false := by
        cases hf : (null_value_columns u storage2.reloadable rowid_col_count).getD col false with
        | false => rfl
        | true => exact absurd h0 (null_value_columns_flag _ _ _ _ hf).2.2.2
      have hcell : (cache_row u.column_labels.length rowid_col_count
          (null_value_columns u storage2.reloadable rowid_col_count) storage2.pkey_columns
          row).getD col none = row.values.getD col none := by
        rw [cache_row_editable _ _ _ _ _ _ hcol, hflag]
        cases hv : row.values.getD col none <;> simp
      refine ⟨hcell, ?_⟩
      intro blob_value f hf hnull
      have hcol2 : ¬ names2.length ≤ col := by
        simp only [List.length_append, List.length_drop] at hlen
        omega
      rw [hcell] at hnull
      rw [hnames]
      unfold do_fetch_blob_value
      simp only [hc, hcol2, hf, ↓reduceIte, hnull]
      exact ⟨trivial, trivial, trivial⟩
/-- Witness for C25: the table `actor` with the blob column `photo`.  With the row
identifier `actor_id` captured the photo is cached as a placeholder; without any row
identifier every cell holds the value of the driver. -/
theorem placeholders_only_for_identified_blobs_witness :
    (do_unserialize photo_storage [] (some connected_handler) (some connected_handler)
        photos_of_actor).state.data_swap.records = [[some "1", none, some "1"]] ∧
    (∀ rec ∈ (do_unserialize photo_storage [] (some connected_handler) (some connected_handler)
        photos_of_actor).state.data_swap.records,
      ∃ row ∈ photos_of_actor.rows, ∀ col, col < 2 →
        rec.getD col none ≠ row.values.getD col none →
        photos_of_actor.column_is_blob.getD col false = true) ∧
    (do_unserialize photo_storage [] (some connected_handler) (some connected_handler)
        photos_without_identifier).state.data_swap.records = [[some "1", some "PNG"]] ∧
    (∀ rec ∈ (do_unserialize photo_storage [] (some connected_handler) (some connected_handler)
        photos_without_identifier).state.data_swap.records,
      ∃ row ∈ photos_without_identifier.rows, ∀ col, col < 2 →
        rec.getD col none = row.values.getD col none) :=
  ⟨by decide,
    fun rec hrec =>
      (placeholders_only_for_identified_blobs photo_storage
        { photo_storage with valid := true, gather_field_info := false, pkey_columns := [0] }
        [] ["actor_id", "photo", "actor_id"] (some connected_handler) (some connected_handler)
        photos_of_actor 1 rfl rec hrec).elim
        (fun row h => ⟨row, h.1, fun col hcol hne => (h.2.1 col hcol hne).2.2.1⟩),
    by decide,
    fun rec hrec =>
      (placeholders_only_for_identified_blobs photo_storage
        { photo_storage with
          valid := true, gather_field_info := false, readonly := true
          readonly_reason := no_row_identifier_reason }
        [] ["actor_id", "photo"] (some connected_handler) (some connected_handler)
        photos_without_identifier 0 rfl rec hrec).elim
        (fun row h => ⟨row, h.1, fun col hcol => (h.2.2 rfl col hcol).1⟩)⟩

/-- Searching a column list extended by copies of its own entries finds what searching
the list itself finds. -/
theorem findIdx_append_copies (labels copies : List String) (name : String)
    (hcopies : ∀ x ∈ copies, x ∈ labels) :
    (labels ++ copies).findIdx? (fun c => c == name) = labels.findIdx? (fun c => c == name) := by
  rw [List.findIdx?_append]
  cases h : labels.findIdx? (fun c => c == name) with
  | some i => rfl
  | none =>
    have hnone : copies.findIdx? (fun c => c == name) = none := by
      rw [List.findIdx?_eq_none_iff] at h ⊢
      intro x hx
      exact h x (hcopies x hx)
    simp [hnone]

/-- A matched identifier column is a position among the labels. -/
theorem matched_identifier_columns_lt (labels identifier : List String) (i : Nat)
    (hi : i ∈ matched_identifier_columns labels identifier) : i < labels.length := by
  unfold matched_identifier_columns at hi
  obtain ⟨name, _, hfind⟩ := List.mem_filterMap.mp hi
  exact (List.findIdx?_eq_some_iff_findIdx_eq.mp hfind).1

/-- The number of matched identifier columns is the number of identifier names that
occur among the labels. -/
theorem matched_identifier_columns_length (labels identifier : List String) :
    (matched_identifier_columns labels identifier).length =
      (identifier.filter (fun name => decide (name ∈ labels))).length := by
  unfold matched_identifier_columns
  induction identifier with
  | nil => rfl
  | cons name rest ih =>
    rw [List.filterMap_cons, List.filter_cons]
    cases h : labels.findIdx? (fun c => c == name) with
    | none =>
      have hnot : name ∉ labels := by
        intro hmem
        rw [List.findIdx?_eq_none_iff] at h
        simpa using h name hmem
      simp [hnot, ih]
    | some i =>
      have hmem : name ∈ labels := by
        by_contra hnot
        have hnone : labels.findIdx? (fun c => c == name) = none := by
          rw [List.findIdx?_eq_none_iff]
          intro x hx
          simp only [beq_iff_eq, Bool.not_eq_true, beq_eq_false_iff_ne, ne_eq]
          rintro rfl
          exact hnot hx
        rw [hnone] at h
        cases h
      simp [hmem, ih]

/-- The loop over the identifier names, started on the labels followed by copies of
labels: the matched columns are recorded in order, a copy of each is appended to the
column list, and the count is lowered once for every name that is not matched. -/
theorem capture_pkey_columns_spec (labels : List String) (identifier copies : List String)
    (pkey_columns : List Nat) (count : Nat) (hcopies : ∀ x ∈ copies, x ∈ labels) :
    capture_pkey_columns identifier (labels ++ copies, pkey_columns, count) =
      (labels ++ copies ++
          (matched_identifier_columns labels identifier).map (fun i => labels.getD i ""),
        pkey_columns ++ matched_identifier_columns labels identifier,
        count - (identifier.length - (matched_identifier_columns labels identifier).length)) := by
  induction identifier generalizing copies pkey_columns count with
  | nil => simp [capture_pkey_columns, matched_identifier_columns]
  | cons name rest ih =>
    have hle : (matched_identifier_columns labels rest).length ≤ rest.length := by
      unfold matched_identifier_columns
      exact List.length_filterMap_le _ _
    rw [capture_pkey_columns, findIdx_append_copies labels copies name hcopies]
    cases h : labels.findIdx? (fun c => c == name) with
    | none =>
      have hm : matched_identifier_columns labels (name :: rest) =
          matched_identifier_columns labels rest := by
        simp [matched_identifier_columns, List.filterMap_cons, h]
      simp only [hm]
      rw [ih copies pkey_columns (count - 1) hcopies]
      refine Prod.ext rfl (Prod.ext rfl ?_)
      simp only [List.length_cons]
      omega
    | some i =>
      have hlt : i < labels.length := (List.findIdx?_eq_some_iff_findIdx_eq.mp h).1
      have hm : matched_identifier_columns labels (name :: rest) =
          i :: matched_identifier_columns labels rest := by
        simp [matched_identifier_columns, List.filterMap_cons, h]
      have hget : (labels ++ copies).getD i "" = labels.getD i "" := by
        simp only [List.getD_eq_getElem?_getD]
        rw [List.getElem?_append_left hlt]
      have hmem : labels.getD i "" ∈ labels := by
        simp only [List.getD_eq_getElem?_getD, List.getElem?_eq_getElem hlt, Option.getD_some]
        exact List.getElem_mem _
      simp only [hm, hget]
      have hcopies1 : ∀ x ∈ copies ++ [labels.getD i ""], x ∈ labels := by
        intro x hx
        rcases List.mem_append.mp hx with hx | hx
        · exact hcopies x hx
        · rw [List.mem_singleton.mp hx]; exact hmem
      have hstep := ih (copies ++ [labels.getD i ""]) (pkey_columns ++ [i]) count hcopies1
      rw [← List.append_assoc] at hstep
      rw [hstep]
      refine Prod.ext ?_ (Prod.ext ?_ ?_)
      · simp
      · simp
      · simp only [List.length_cons]
        omega
/-- Remapping the first `k` entries of a list of at least `k` positions. -/
theorem remap_pkey_columns_first (e k : Nat) (pkey_columns : List Nat)
    (hk : k ≤ pkey_columns.length) :
    remap_pkey_columns e k pkey_columns =
      (List.range k).map (fun n => e + n) ++ pkey_columns.drop k := by
  unfold remap_pkey_columns
  induction k with
  | zero => simp
  | succ k ih =>
    rw [List.range_succ, List.foldl_append, ih (by omega)]
    simp only [List.foldl_cons, List.foldl_nil, List.map_append, List.map_cons, List.map_nil]
    have hlen : ((List.range k).map (fun n => e + n)).length = k := by simp
    rw [List.set_append_right _ _ (by omega), hlen, Nat.sub_self]
    rw [List.drop_eq_getElem_cons (by omega : k < pkey_columns.length)]
    simp only [List.set_cons_zero, List.append_assoc, List.singleton_append]

/-- Remapping all the entries of a list of `r` positions yields `e, e+1, ..., e+r-1`. -/
theorem remap_pkey_columns_all (e : Nat) (pkey_columns : List Nat) :
    remap_pkey_columns e pkey_columns.length pkey_columns =
      (List.range pkey_columns.length).map (fun n => e + n) := by
  rw [remap_pkey_columns_first e _ _ (Nat.le_refl _)]
  simp

/-- The fetch loop when the stop flag is never found raised: every row is cached. -/
theorem fetch_rows_all (e r : Nat) (nvc : List Bool) (pk : List Nat) (rows : List FetchedRow)
    (records : List (List (Option String)))
    (hrun : ∀ row ∈ rows, row.is_stop_query_requested = false) :
    fetch_rows e r nvc pk rows records =
      ⟨records ++ rows.map (cache_row e r nvc pk), none⟩ := by
  induction rows generalizing records with
  | nil => simp [fetch_rows]
  | cons row rest ih =>
    rw [fetch_rows]
    simp only [hrun row (List.mem_cons_self _ _), Bool.false_eq_true, ↓reduceIte]
    rw [ih _ (fun x hx => hrun x (List.mem_cons_of_mem _ hx))]
    simp

/-- A cached record has a value for every editable and every captured column. -/
theorem cache_row_length (e r : Nat) (nvc : List Bool) (pk : List Nat) (row : FetchedRow) :
    (cache_row e r nvc pk row).length = e + r := by
  simp [cache_row]

/-- The copy of a captured column in a cached record holds the value cached for the
column itself. -/
theorem cache_row_copy (e r : Nat) (nvc : List Bool) (pk : List Nat) (row : FetchedRow)
    (n : Nat) (hn : n < r) (hpk : pk.getD n 0 < e) :
    (cache_row e r nvc pk row).getD (e + n) none =
      (cache_row e r nvc pk row).getD (pk.getD n 0) none := by
  unfold cache_row
  simp only [List.getD_eq_getElem?_getD]
  rw [List.getElem?_append_right (by simp), List.getElem?_append_left (by simpa using hpk)]
  simp [hn]
/-- The data block when the stop flag is never found raised: every row is cached and the
transaction is committed. -/
theorem populate_all (e r : Nat) (nvc : List Bool) (pk : List Nat) (rows : List FetchedRow)
    (hrun : ∀ row ∈ rows, row.is_stop_query_requested = false) :
    populate e r nvc pk rows = ⟨⟨rows.map (cache_row e r nvc pk), true⟩, none⟩ := by
  unfold populate
  rw [fetch_rows_all e r nvc pk rows [] hrun]
  simp

/-- The identifier-column block for a storage with a table name that has not recorded
any column yet: the matched columns are recorded, a copy of each is appended to the
labels, and `rowid_col_count` is their number. -/
theorem determine_pkey_columns_fresh (storage : Recordset_cdbc_storage) (labels : List String)
    (aux_dbms_conn : Dbc_connection_handler) (aux : Connection) (identifier : List String)
    (htable : storage.table_name.isEmpty = false) (hfresh : storage.pkey_columns = [])
    (haux : aux_dbms_conn.ref = some aux) :
    ∃ storage2, determine_pkey_columns storage labels (some aux_dbms_conn) (.ok identifier) =
        .ok (storage2,
          labels ++ (matched_identifier_columns labels identifier).map (fun i => labels.getD i ""),
          (matched_identifier_columns labels identifier).length) ∧
      storage2.pkey_columns = matched_identifier_columns labels identifier := by
  cases identifier with
  | nil =>
    refine ⟨{ storage with readonly := true, readonly_reason := no_row_identifier_reason }, ?_,
      hfresh⟩
    simp [determine_pkey_columns, htable, haux, matched_identifier_columns]
  | cons name rest =>
    have hle : (matched_identifier_columns labels (name :: rest)).length ≤ (name :: rest).length := by
      unfold matched_identifier_columns
      exact List.length_filterMap_le _ _
    have hspec := capture_pkey_columns_spec labels (name :: rest) [] [] (name :: rest).length
      (by simp)
    rw [List.append_nil, List.nil_append] at hspec
    refine ⟨{ storage with
      pkey_columns := matched_identifier_columns labels (name :: rest) }, ?_, rfl⟩
    simp only [determine_pkey_columns, htable, Bool.false_eq_true, ↓reduceIte, Option.bind, haux,
      List.length_cons, Nat.zero_lt_succ, hfresh]
    rw [List.length_cons] at hspec hle
    rw [hspec]
    simp only [Except.ok.injEq, Prod.mk.injEq, true_and]
    omega
/-- C26. A fresh storage (no column names, no identifier column recorded) with a table
name is populated: both handles hold a connection, a result set with `e` column labels
is at hand, the lookup of the best row identifier returns the names `identifier`, and
the stop flag is never raised.  Let `r` be the number of matched identifier columns;
it is the number of names of `identifier` that occur among the labels.  Then
`do_unserialize` returns normally and commits, the column list has `e + r` entries
(the labels followed by the names of the matched columns), every row is cached, every
cached record has `e + r` values of which the one at `e + n` equals the one cached for
the `n`-th matched identifier column, and `_pkey_columns` is `e, e+1, ..., e+r-1`. -/
theorem do_unserialize_duplicates_identifier_columns (storage : Recordset_cdbc_storage)
    (dbms_conn aux_dbms_conn : Dbc_connection_handler) (c aux : Connection) (u : Unserialize)
    (identifier : List String)
    (htable : storage.table_name.isEmpty = false) (hfresh : storage.pkey_columns = [])
    (hconn : dbms_conn.ref = some c) (haux : aux_dbms_conn.ref = some aux)
    (hrs : u.has_result_set storage)
    (hid : u.best_row_identifier = .ok identifier)
    (hrun : ∀ row ∈ u.rows, row.is_stop_query_requested = false) :
    (matched_identifier_columns u.column_labels identifier).length =
      (identifier.filter (fun name => decide (name ∈ u.column_labels))).length ∧
    (do_unserialize storage [] (some dbms_conn) (some aux_dbms_conn) u).raised = none ∧
    (do_unserialize storage [] (some dbms_conn) (some aux_dbms_conn) u).state.data_swap.committed
      = true ∧
    (do_unserialize storage [] (some dbms_conn) (some aux_dbms_conn) u).state.column_names =
      u.column_labels ++ (matched_identifier_columns u.column_labels identifier).map
        (fun i => u.column_labels.getD i "") ∧
    (do_unserialize storage [] (some dbms_conn) (some aux_dbms_conn) u).state.column_names.length =
      u.column_labels.length + (matched_identifier_columns u.column_labels identifier).length ∧
    (do_unserialize storage [] (some dbms_conn) (some aux_dbms_conn)
      u).state.data_swap.records.length = u.rows.length ∧
    (∀ rec ∈ (do_unserialize storage [] (some dbms_conn) (some aux_dbms_conn)
        u).state.data_swap.records,
      rec.length =
        u.column_labels.length + (matched_identifier_columns u.column_labels identifier).length ∧
      ∀ n, n < (matched_identifier_columns u.column_labels identifier).length →
        (matched_identifier_columns u.column_labels identifier).getD n 0 < u.column_labels.length ∧
        rec.getD (u.column_labels.length + n) none =
          rec.getD ((matched_identifier_columns u.column_labels identifier).getD n 0) none) ∧
    (do_unserialize storage [] (some dbms_conn) (some aux_dbms_conn) u).state.storage.pkey_columns =
      (List.range (matched_identifier_columns u.column_labels identifier).length).map
        (fun n => u.column_labels.length + n) := by
  have hrs1 : (if u.dbc_resultset = true then (Except.ok true : Except Exn Bool)
      else if storage.reloadable = false then
        .error (.runtime_error
          "Recordset can't be reloaded, original statement must be reexecuted instead")
      else u.reexecute) = .ok true := by
    rcases hrs with h | ⟨h1, h2⟩
    · simp [h]
    · by_cases hd : u.dbc_resultset = true
      · simp [hd]
      · simp [hd, h1, h2]
  obtain ⟨storage2, hpk, hpkcols⟩ := determine_pkey_columns_fresh
    { storage with valid := true, gather_field_info := false } u.column_labels aux_dbms_conn aux
    identifier htable hfresh haux
  have hlt : ∀ n, n < (matched_identifier_columns u.column_labels identifier).length →
      (matched_identifier_columns u.column_labels identifier).getD n 0 < u.column_labels.length := by
    intro n hn
    apply matched_identifier_columns_lt u.column_labels identifier
    simp only [List.getD_eq_getElem?_getD, List.getElem?_eq_getElem hn, Option.getD_some]
    exact List.getElem_mem _
  have hrun1 : do_unserialize storage [] (some dbms_conn) (some aux_dbms_conn) u =
      ⟨⟨{ storage2 with
            pkey_columns :=
              (List.range (matched_identifier_columns u.column_labels identifier).length).map
                (fun n => u.column_labels.length + n) },
          u.column_labels ++ (matched_identifier_columns u.column_labels identifier).map
            (fun i => u.column_labels.getD i ""),
          ⟨u.rows.map (cache_row u.column_labels.length
            (matched_identifier_columns u.column_labels identifier).length
            (null_value_columns u storage2.reloadable
              (matched_identifier_columns u.column_labels identifier).length)
            (matched_identifier_columns u.column_labels identifier)), true⟩⟩, none⟩ := by
    unfold do_unserialize
    simp only [Option.bind, hconn, hrs1, List.nil_append, List.length_nil, List.drop_zero, hid,
      hpk, hpkcols, populate_all _ _ _ _ _ hrun, remap_pkey_columns_all]
  rw [hrun1]
  refine ⟨matched_identifier_columns_length _ _, rfl, rfl, rfl, by simp, by simp, ?_, rfl⟩
  intro rec hrec
  obtain ⟨row, _, hrow⟩ := List.mem_map.mp hrec
  subst hrow
  refine ⟨cache_row_length _ _ _ _ _, ?_⟩
  intro n hn
  exact ⟨hlt n hn, cache_row_copy _ _ _ _ _ n hn (hlt n hn)⟩

/-- Witness for C26: `SELECT last_update, film_id FROM film_actor`, where the row
identifier is the pair `actor_id`, `film_id`: one identifier column is matched, `film_id`
at position 1, so that there are three columns, the third value of every record
repeats the second, and `_pkey_columns` is `[2]`. -/
theorem do_unserialize_duplicates_identifier_columns_witness :
    matched_identifier_columns ["last_update", "film_id"] ["actor_id", "film_id"] = [1] ∧
    (do_unserialize film_actor_storage [] (some connected_handler) (some connected_handler)
      updates_of_film_actor).state.column_names = ["last_update", "film_id", "film_id"] ∧
    (do_unserialize film_actor_storage [] (some connected_handler) (some connected_handler)
      updates_of_film_actor).state.data_swap.records =
        [[some "2006-02-15", some "1", some "1"], [none, some "23", some "23"]] ∧
    (do_unserialize film_actor_storage [] (some connected_handler) (some connected_handler)
      updates_of_film_actor).state.storage.pkey_columns =
        (List.range (matched_identifier_columns updates_of_film_actor.column_labels
          ["actor_id", "film_id"]).length).map
          (fun n => updates_of_film_actor.column_labels.length + n) ∧
    (List.range (matched_identifier_columns updates_of_film_actor.column_labels
      ["actor_id", "film_id"]).length).map
        (fun n => updates_of_film_actor.column_labels.length + n) = [2] :=
  ⟨by decide, by decide, by decide,
    (do_unserialize_duplicates_identifier_columns film_actor_storage connected_handler
      connected_handler open_connection open_connection updates_of_film_actor
      ["actor_id", "film_id"] (by decide) rfl rfl rfl (Or.inl rfl) rfl
      (by decide)).2.2.2.2.2.2.2,
    by decide⟩

end SqlIde
